import Mathlib

/-!
# Core Provenance Library, standalone core (`cpl-standalone.cpp`)

A shallow embedding of the process-wide lifecycle (`cpl_attach`, `cpl_detach`),
the session bootstrap with its command-line reconstruction, and the guarded
facade operations that delegate to the attached database backend.

Conventions of the embedding

* a C `char` is a `Char`, a C string or `std::string` is a `List Char`;
  a nullable `const char*` is an `Option (List Char)`;
* `cpl_return_t` is `Int`, `cpl_id_t` and `cpl_session_t` are `Nat`;
* the static variables of the translation unit are the fields of `cpl_world`;
* a pointer to an output cell is an `Option`: `none` is the `NULL` pointer and
  `some v` is a cell that currently holds `v`;
* an operation that dereferences a `NULL` backend pointer has no defined
  result: the operations return an `Option`, and `none` stands for that fault.
-/

namespace CPL

/-! ## Command-line reconstruction (`cpl_attach`, branch for systems other than Apple) -/

/-- The C library's `isspace` in the "C" locale: space, `\t`, `\n`, `\v`, `\f`, `\r`. -/
def isspace (c : Char) : Bool :=
  c == ' ' || (9 ≤ c.toNat && c.toNat ≤ 13)

/-- The C library's `strlen` on the buffer of a `std::string`: the number of
characters before the first NUL. -/
def strlen (t : List Char) : Nat :=
  (t.takeWhile (fun d => d != '\x00')).length

/-- The inner loop of lines 288-296: `s` starts empty and, for `j` from `0` to
`strlen(_t) - 1`, receives a backslash before every single quote and every
backslash, and then the character itself. -/
def escape_token (token : List Char) : List Char :=
  (token.take (strlen token)).foldl
    (fun s d => (if d == '\'' || d == '\\' then s ++ ['\\'] else s) ++ [d]) []

/-- The four local variables that live across iterations of the loop of
lines 275-306. -/
structure cmdline_vars where
  cmdline : List Char
  token : List Char
  has_white : Bool
  has_sq : Bool

/-- The values of the locals before the loop (lines 275-278). -/
def cmdline_init : cmdline_vars :=
  { cmdline := [], token := [], has_white := false, has_sq := false }

/-- One iteration of the loop of lines 279-306 on the character `c = _cmdbuf[i]`. -/
def cmdline_step (st : cmdline_vars) (c : Char) : cmdline_vars :=
  if c != '\x00' then
    { st with
      has_white := st.has_white || isspace c
      has_sq := st.has_sq || c == '\''
      token := st.token ++ [c] }
  else
    let token₁ := if st.has_sq then escape_token st.token else st.token
    let token₂ :=
      if st.has_white || st.has_sq then
        let quoted := ['\''] ++ token₁ ++ ['\'']
        if st.has_sq then ['@'] ++ quoted else quoted
      else token₁
    let cmdline₁ := if st.cmdline != [] then st.cmdline ++ [' '] else st.cmdline
    { st with cmdline := cmdline₁ ++ token₂, token := [] }

/-- The locals after the loop of lines 271-306 has run on the content `file` of
`/proc/self/cmdline`: `fread` stores at most 4096 bytes, `l` is their number,
`_cmdbuf[l]` is set to NUL and the loop visits the indices `0, ..., l`. -/
def cmdline_loop (file : List Char) : cmdline_vars :=
  let buf := file.take 4096
  (buf ++ ['\x00']).foldl cmdline_step cmdline_init

/-- The string `_cmdline` that `cpl_attach` hands to the backend (line 309). -/
def cmdline_reconstruct (file : List Char) : List Char :=
  (cmdline_loop file).cmdline

/-- The raw argument vector as the operating system delivers it in
`/proc/self/cmdline`: every argument followed by one NUL byte. -/
def raw_argv (args : List (List Char)) : List Char :=
  args.flatMap (fun a => a ++ ['\x00'])

/-- The text of a finished token as lines 287-301 rewrite it, for the values
`hw`, `hs` of the two flags at that moment. -/
def render_token (hw hs : Bool) (t : List Char) : List Char :=
  let token₁ := if hs then escape_token t else t
  if hw || hs then
    let quoted := ['\''] ++ token₁ ++ ['\'']
    if hs then ['@'] ++ quoted else quoted
  else token₁

/-- Lines 302-303: a space is put before the token unless `_cmdline` is still empty. -/
def append_token (cmdline tok : List Char) : List Char :=
  (if cmdline != [] then cmdline ++ [' '] else cmdline) ++ tok

/-- Whether the argument holds a character for which `isspace` is true. -/
def contains_white (a : List Char) : Bool := a.any isspace

/-- Whether the argument holds a single quote. -/
def contains_sq (a : List Char) : Bool := a.any (fun c => c == '\'')

/-- The effect of the loop on whole arguments: what the locals are after the
loop has consumed each argument of `args` and the NUL that ends it. -/
def emit_args : cmdline_vars → List (List Char) → cmdline_vars
  | st, [] => st
  | st, a :: rest =>
    let hw := st.has_white || contains_white a
    let hs := st.has_sq || contains_sq a
    emit_args
      { cmdline := append_token st.cmdline (render_token hw hs (st.token ++ a))
        token := []
        has_white := hw
        has_sq := hs } rest

/-- Backslash-escaping as the specification words it: every backslash and every
single quote is preceded by a backslash, every other character is kept. -/
def escape_spec (a : List Char) : List Char :=
  a.flatMap (fun d => if d = '\'' ∨ d = '\\' then ['\\', d] else [d])

/-- The rendering of one argument as the specification words it, decided by the
argument's own content. -/
def render_spec (a : List Char) : List Char :=
  if contains_sq a then ['@', '\''] ++ escape_spec a ++ ['\'']
  else if contains_white a then ['\''] ++ escape_spec a ++ ['\'']
  else a

/-- The command line as the specification words it: the renderings joined with
single spaces. -/
def cmdline_spec (args : List (List Char)) : List Char :=
  [' '].intercalate (args.map render_spec)

/-! ## Return codes and identifiers -/

/-- The type of every return code (`cpl_return_t`, a C `int`). -/
abbrev cpl_return_t := Int

/-- The type of object and relation identifiers. -/
abbrev cpl_id_t := Nat

/-- The type of session identifiers. -/
abbrev cpl_session_t := Nat

/-- A C string. -/
abbrev c_string := List Char

/-- An invalid ID signifying no object (line 53). -/
def CPL_NONE : cpl_id_t := 0

/-- Modelled from the spec: the named constants of the public header `cpl.h`,
which is not under `src/`. The return codes are those named in sections 4 and 7
(plain success, `DuplicateIgnored`, `NoData`, the distinguished "created"
success, and the failure kinds); the three last fields are the "tolerate
empty" lookup flag and the two traversal directions of sections 4.3 and 4.5.
The operations below take the constants as a parameter, so no theorem depends
on the numbers the header assigns. -/
structure cpl_codes where
  CPL_OK : cpl_return_t
  CPL_S_DUPLICATE_IGNORED : cpl_return_t
  CPL_S_NO_DATA : cpl_return_t
  CPL_S_OBJECT_CREATED : cpl_return_t
  CPL_E_INVALID_ARGUMENT : cpl_return_t
  CPL_E_INSUFFICIENT_RESOURCES : cpl_return_t
  CPL_E_ALREADY_INITIALIZED : cpl_return_t
  CPL_E_NOT_INITIALIZED : cpl_return_t
  CPL_E_INTERNAL_ERROR : cpl_return_t
  CPL_E_NOT_FOUND : cpl_return_t
  CPL_E_PLATFORM_ERROR : cpl_return_t
  CPL_L_NO_FAIL : Int
  CPL_D_ANCESTORS : Int
  CPL_D_DESCENDANTS : Int

/-- Modelled from the spec: the macro `CPL_IS_OK` of `cpl.h`, which is not under
`src/`. Section 4.7: non-negative codes are successes, negative codes are
failures (lines 400-405 test `code >= 0` under `CPL_IS_OK(code)`). -/
def CPL_IS_OK (r : cpl_return_t) : Bool := decide (0 ≤ r)

/-- Modelled from the spec: one assignment of the constants of `cpl.h` that
respects section 4.7 (successes `0..3`, failures negative, all distinct), for
evaluating the operations on concrete inputs. -/
def cpl_h : cpl_codes :=
  { CPL_OK := 0
    CPL_S_DUPLICATE_IGNORED := 1
    CPL_S_NO_DATA := 2
    CPL_S_OBJECT_CREATED := 3
    CPL_E_INVALID_ARGUMENT := -1
    CPL_E_INSUFFICIENT_RESOURCES := -2
    CPL_E_ALREADY_INITIALIZED := -5
    CPL_E_NOT_INITIALIZED := -6
    CPL_E_INTERNAL_ERROR := -10
    CPL_E_NOT_FOUND := -12
    CPL_E_PLATFORM_ERROR := -14
    CPL_L_NO_FAIL := 1
    CPL_D_ANCESTORS := 0
    CPL_D_DESCENDANTS := 1 }

/-! ## The backend and the process-wide state -/

/-- The session detail record; the fields are those `cpl_free_session_info`
releases (lines 755-758) together with the identifying ones. -/
structure cpl_session_info_t where
  id : cpl_session_t
  mac_address : Option c_string
  user : c_string
  pid : Int
  program : c_string
  cmdline : c_string
  start_time : Nat

/-- The object detail record; the fields are those
`cpl_cb_collect_object_info_vector` copies (lines 1005-1011). -/
structure cpl_object_info_t where
  id : cpl_id_t
  creation_session : cpl_session_t
  creation_time : Nat
  originator : c_string
  name : c_string
  type : c_string
  container_id : cpl_id_t

/-- A call made through one of the function pointers of the attached backend,
with the arguments the facade passed. -/
inductive cpl_db_call where
  | destroy
  | create_session (mac_address : Option c_string) (user : c_string) (pid : Int)
      (program cmdline : c_string)
  | create_object (originator name type : c_string) (container : cpl_id_t)
      (session : cpl_session_t)
  | lookup_object (originator name type : c_string)
  | lookup_object_ext (originator name type : c_string) (flags : Int)
  | add_object_property (id : cpl_id_t) (key value : c_string)
  | add_relation_property (id : cpl_id_t) (key value : c_string)
  | add_relation (from_id to_id : cpl_id_t) (type : Int) (container : cpl_id_t)
  | get_session_info (id : cpl_session_t)
  | get_all_objects (flags : Int)
  | get_object_info (id : cpl_id_t)
  | get_object_relations (id : cpl_id_t) (direction flags : Int)
  | get_object_properties (id : cpl_id_t) (key : Option c_string)
  | lookup_object_by_property (key value : c_string)
  | get_relation_properties (id : cpl_id_t) (key : Option c_string)
  | delete_bundle (id : cpl_id_t)
  | get_bundle_objects (id : cpl_id_t)
  | get_bundle_relations (id : cpl_id_t)
  deriving DecidableEq

/-- What the library does to the world outside its own variables: calls of the
locking subsystem, of the shared semaphore, and of the backend. -/
inductive cpl_event where
  | lock_init
  | lock_cleanup
  | semaphore_open
  | semaphore_close
  | semaphore_wait
  | semaphore_post
  | db (call : cpl_db_call)
  deriving DecidableEq

/-- The backend (`cpl_db_backend_t`): a table of function pointers. `β` is the
state of the store the functions act on, `ι` the type of iterator callbacks and
`κ` the type of the caller's iterator context. A function that has an output
parameter returns the value it writes there. -/
structure cpl_db_backend_t (β ι κ : Type) where
  cpl_db_destroy : β → β
  cpl_db_create_session : β → Option c_string → c_string → Int → c_string → c_string →
    cpl_return_t × cpl_session_t × β
  cpl_db_create_object : β → c_string → c_string → c_string → cpl_id_t → cpl_session_t →
    cpl_return_t × cpl_id_t × β
  cpl_db_lookup_object : β → c_string → c_string → c_string → cpl_return_t × cpl_id_t × β
  cpl_db_lookup_object_ext : β → c_string → c_string → c_string → Int → ι → κ →
    cpl_return_t × β
  cpl_db_add_object_property : β → cpl_id_t → c_string → c_string → cpl_return_t × β
  cpl_db_add_relation_property : β → cpl_id_t → c_string → c_string → cpl_return_t × β
  cpl_db_add_relation : β → cpl_id_t → cpl_id_t → Int → cpl_id_t →
    cpl_return_t × cpl_id_t × β
  cpl_db_get_session_info : β → cpl_session_t →
    cpl_return_t × Option cpl_session_info_t × β
  cpl_db_get_all_objects : β → Int → ι → κ → cpl_return_t × β
  cpl_db_get_object_info : β → cpl_id_t → cpl_return_t × Option cpl_object_info_t × β
  cpl_db_get_object_relations : β → cpl_id_t → Int → Int → ι → κ → cpl_return_t × β
  cpl_db_get_object_properties : β → cpl_id_t → Option c_string → ι → κ → cpl_return_t × β
  cpl_db_lookup_object_by_property : β → c_string → c_string → ι → κ → cpl_return_t × β
  cpl_db_get_relation_properties : β → cpl_id_t → Option c_string → ι → κ →
    cpl_return_t × β
  cpl_db_delete_bundle : β → cpl_id_t → cpl_return_t × β
  cpl_db_get_bundle_objects : β → cpl_id_t → ι → κ → cpl_return_t × β
  cpl_db_get_bundle_relations : β → cpl_id_t → ι → κ → cpl_return_t × β

/-- A handle of the shared semaphore (`cpl_shared_semaphore_t`); the `NULL`
handle is `none` of `Option cpl_shared_semaphore_t`. -/
abbrev cpl_shared_semaphore_t := Nat

/-- The private state of the translation unit (lines 110-131), the state `db`
of the store behind the backend pointers, and the record `trace` of the calls
the library has made so far, oldest first. -/
structure cpl_world (β ι κ : Type) where
  cpl_initialized : Bool
  cpl_lookup_or_create_object_semaphore : Option cpl_shared_semaphore_t
  cpl_db_backend : Option (cpl_db_backend_t β ι κ)
  cpl_session : cpl_session_t
  db : β
  trace : List cpl_event

/-- The state when the library is loaded: the initialisers of lines 113-131. -/
def cpl_world_init {β ι κ : Type} (db : β) : cpl_world β ι κ :=
  { cpl_initialized := false
    cpl_lookup_or_create_object_semaphore := none
    cpl_db_backend := none
    cpl_session := CPL_NONE
    db := db
    trace := [] }

/-- Record one call in the trace. -/
def cpl_world.log {β ι κ : Type} (w : cpl_world β ι κ) (e : cpl_event) : cpl_world β ι κ :=
  { w with trace := w.trace ++ [e] }

/-- The statement `if (p != NULL) *p = v;` on an output cell. -/
def store {α : Type} (p : Option α) (v : α) : Option α :=
  p.map (fun _ => v)

/-! ## Initialization and cleanup -/

/-- Modelled from the spec: the type `cpl_mac_address_t` of `cpl-platform.h`,
which is not under `src/`: the six bytes of a hardware address. -/
structure cpl_mac_address_t where
  b0 : Fin 256
  b1 : Fin 256
  b2 : Fin 256
  b3 : Fin 256
  b4 : Fin 256
  b5 : Fin 256

/-- One lower-case hexadecimal digit. -/
def hex_digit (n : Nat) : Char :=
  if n < 10 then Char.ofNat (48 + n) else Char.ofNat (87 + n)

/-- The conversion `%02x` of `snprintf` on one byte. -/
def hex02 (b : Fin 256) : List Char :=
  [hex_digit (b.val / 16), hex_digit (b.val % 16)]

/-- Lines 319-320: `snprintf(mac_string, 32, "%02x:%02x:%02x:%02x:%02x:%02x", ...)`;
at most 31 characters are kept. -/
def mac_string (mac : cpl_mac_address_t) : c_string :=
  (hex02 mac.b0 ++ [':'] ++ hex02 mac.b1 ++ [':'] ++ hex02 mac.b2 ++ [':'] ++
    hex02 mac.b3 ++ [':'] ++ hex02 mac.b4 ++ [':'] ++ hex02 mac.b5).take 31

/-- What the operating system and the platform layer answer during one call of
`cpl_attach` (branch for systems other than Apple, lines 261-273 and 316, and
the locking calls of lines 171 and 348). -/
structure cpl_platform where
  /-- The result of `cpl_lock_initialize()`. -/
  lock_initialize_ret : cpl_return_t
  /-- The value of `getenv("USER")`; `none` is `NULL`. -/
  user : Option c_string
  /-- The value of `getpid()`. -/
  pid : Int
  /-- The value of `program_invocation_name`; `none` is `NULL`. -/
  program_invocation_name : Option c_string
  /-- The content of `/proc/self/cmdline`; `none` when `fopen` returns `NULL`. -/
  proc_self_cmdline : Option (List Char)
  /-- Whether `new char[4096 + 4]` yields a pointer other than `NULL`. -/
  cmdbuf_allocated : Bool
  /-- The address `cpl_platform_get_mac_address` stores when it returns `0`;
  `none` when it returns another value. -/
  mac_address : Option cpl_mac_address_t
  /-- The handle `cpl_shared_semaphore_open` returns; `none` is `NULL`. -/
  semaphore_open : Option cpl_shared_semaphore_t

variable {β ι κ : Type}

/-- Initialize the library and attach it to the database backend
(`cpl_attach`, lines 159-360, branch for systems other than Apple). -/
def cpl_attach (K : cpl_codes) (P : cpl_platform) (backend : Option (cpl_db_backend_t β ι κ))
    (w : cpl_world β ι κ) : cpl_return_t × cpl_world β ι κ :=
  match backend with
  | none => (K.CPL_E_INVALID_ARGUMENT, w)
  | some b =>
    if w.cpl_initialized then (K.CPL_E_ALREADY_INITIALIZED, w)
    else if w.cpl_db_backend.isSome then (K.CPL_E_INTERNAL_ERROR, w)
    else
      let w₁ := { w with cpl_db_backend := some b }
      -- Initialize the locking subsystem
      let w₂ := w₁.log cpl_event.lock_init
      let ret := P.lock_initialize_ret
      if !CPL_IS_OK ret then (ret, { w₂ with cpl_db_backend := none })
      else
        -- Create the session
        match P.user with
        | none => (K.CPL_E_PLATFORM_ERROR, w₂)
        | some user =>
          match P.program_invocation_name with
          | none => (K.CPL_E_PLATFORM_ERROR, w₂)
          | some program =>
            match P.proc_self_cmdline with
            | none => (K.CPL_E_PLATFORM_ERROR, w₂)
            | some file =>
              if !P.cmdbuf_allocated then (K.CPL_E_INSUFFICIENT_RESOURCES, w₂)
              else
                let cmdline := cmdline_reconstruct file
                let mac_string_ptr := P.mac_address.map mac_string
                -- the output argument of the call is the literal `NULL`: the
                -- session id the backend produces (second component) is stored nowhere
                let r := b.cpl_db_create_session w₂.db mac_string_ptr user P.pid program cmdline
                let w₃ := ({ w₂ with db := r.2.2 }).log
                  (cpl_event.db (cpl_db_call.create_session mac_string_ptr user P.pid program cmdline))
                if !CPL_IS_OK r.1 then (r.1, { w₃ with cpl_db_backend := none })
                else
                  -- Initialize the locks
                  let w₄ := { w₃.log cpl_event.semaphore_open with
                    cpl_lookup_or_create_object_semaphore := P.semaphore_open }
                  match P.semaphore_open with
                  | none => (K.CPL_E_PLATFORM_ERROR, { w₄ with cpl_db_backend := none })
                  | some _ => (K.CPL_OK, { w₄ with cpl_initialized := true })

/-- Perform the cleanup and detach the library from the database backend
(`cpl_detach`, lines 369-382). -/
def cpl_detach (K : cpl_codes) (w : cpl_world β ι κ) :
    Option (cpl_return_t × cpl_world β ι κ) :=
  if !w.cpl_initialized then some (K.CPL_E_NOT_INITIALIZED, w)
  else
    let w₁ := { w with cpl_initialized := false }
    match w₁.cpl_db_backend with
    | none => none
    | some b =>
      let w₂ := ({ w₁ with db := b.cpl_db_destroy w₁.db }).log (cpl_event.db cpl_db_call.destroy)
      let w₃ := { w₂ with cpl_db_backend := none }
      let w₄ := w₃.log cpl_event.semaphore_close
      let w₅ := w₄.log cpl_event.lock_cleanup
      some (K.CPL_OK, w₅)

/-! ## Disclosed provenance API

Modelled from the spec: the three checking macros of `cpl-private.h`, which is
not under `src/`, are written out where the source uses them.
`CPL_ENSURE_NOT_NULL(p)` returns `CPL_E_INVALID_ARGUMENT` when `p` is `NULL`,
`CPL_ENSURE_NOT_NONE(id)` returns `CPL_E_INVALID_ARGUMENT` when `id` is
`CPL_NONE` (sections 4.1, 4.3 and 7: a validation failure is
`InvalidArgument`), and `CPL_RUNTIME_VERIFY(ret)` returns `ret` when it is not
a success (section 4.3: errors the backend reports pass through unchanged). -/

/-- Create an object (`cpl_create_object`, lines 429-465). -/
def cpl_create_object (K : cpl_codes) (originator name type : Option c_string)
    (container : cpl_id_t) (out_id : Option cpl_id_t) (w : cpl_world β ι κ) :
    Option (cpl_return_t × Option cpl_id_t × cpl_world β ι κ) :=
  if !w.cpl_initialized then some (K.CPL_E_NOT_INITIALIZED, out_id, w)
  else
    match originator, name, type with
    | none, _, _ => some (K.CPL_E_INVALID_ARGUMENT, out_id, w)
    | some _, none, _ => some (K.CPL_E_INVALID_ARGUMENT, out_id, w)
    | some _, some _, none => some (K.CPL_E_INVALID_ARGUMENT, out_id, w)
    | some o, some n, some t =>
      match w.cpl_db_backend with
      | none => none
      | some b =>
        let r := b.cpl_db_create_object w.db o n t container w.cpl_session
        let w₁ := ({ w with db := r.2.2 }).log
          (cpl_event.db (cpl_db_call.create_object o n t container w.cpl_session))
        if !CPL_IS_OK r.1 then some (r.1, out_id, w₁)
        else some (K.CPL_S_OBJECT_CREATED, store out_id r.2.1, w₁)

/-- Look up an object by name (`cpl_lookup_object`, lines 478-509). -/
def cpl_lookup_object (K : cpl_codes) (originator name type : Option c_string)
    (out_id : Option cpl_id_t) (w : cpl_world β ι κ) :
    Option (cpl_return_t × Option cpl_id_t × cpl_world β ι κ) :=
  if !w.cpl_initialized then some (K.CPL_E_NOT_INITIALIZED, out_id, w)
  else
    match originator, name, type with
    | none, _, _ => some (K.CPL_E_INVALID_ARGUMENT, out_id, w)
    | some _, none, _ => some (K.CPL_E_INVALID_ARGUMENT, out_id, w)
    | some _, some _, none => some (K.CPL_E_INVALID_ARGUMENT, out_id, w)
    | some o, some n, some t =>
      match w.cpl_db_backend with
      | none => none
      | some b =>
        let r := b.cpl_db_lookup_object w.db o n t
        let w₁ := ({ w with db := r.2.2 }).log (cpl_event.db (cpl_db_call.lookup_object o n t))
        if !CPL_IS_OK r.1 then some (r.1, out_id, w₁)
        else some (K.CPL_OK, store out_id r.2.1, w₁)

/-- Look up all objects of a name (`cpl_lookup_object_ext`, lines 524-560). -/
def cpl_lookup_object_ext (K : cpl_codes) (originator name type : Option c_string)
    (flags : Int) (iterator : Option ι) (context : κ) (w : cpl_world β ι κ) :
    Option (cpl_return_t × cpl_world β ι κ) :=
  if !w.cpl_initialized then some (K.CPL_E_NOT_INITIALIZED, w)
  else
    match originator, name, type, iterator with
    | none, _, _, _ => some (K.CPL_E_INVALID_ARGUMENT, w)
    | some _, none, _, _ => some (K.CPL_E_INVALID_ARGUMENT, w)
    | some _, some _, none, _ => some (K.CPL_E_INVALID_ARGUMENT, w)
    | some _, some _, some _, none => some (K.CPL_E_INVALID_ARGUMENT, w)
    | some o, some n, some t, some it =>
      match w.cpl_db_backend with
      | none => none
      | some b =>
        let r := b.cpl_db_lookup_object_ext w.db o n t flags it context
        let w₁ := ({ w with db := r.2 }).log
          (cpl_event.db (cpl_db_call.lookup_object_ext o n t flags))
        if r.1 = K.CPL_E_NOT_FOUND ∧ Int.land flags K.CPL_L_NO_FAIL = K.CPL_L_NO_FAIL then
          some (K.CPL_S_NO_DATA, w₁)
        else some (r.1, w₁)

/-- Look up an object or create it if it does not exist
(`cpl_lookup_or_create_object`, lines 575-597). -/
def cpl_lookup_or_create_object (K : cpl_codes) (originator name type : Option c_string)
    (container : cpl_id_t) (out_id : Option cpl_id_t) (w : cpl_world β ι κ) :
    Option (cpl_return_t × Option cpl_id_t × cpl_world β ι κ) :=
  if !w.cpl_initialized then some (K.CPL_E_NOT_INITIALIZED, out_id, w)
  else
    let w₁ := w.log cpl_event.semaphore_wait
    match cpl_lookup_object K originator name type out_id w₁ with
    | none => none
    | some (r, out₁, w₂) =>
      if r ≠ K.CPL_E_NOT_FOUND then some (r, out₁, w₂.log cpl_event.semaphore_post)
      else
        match cpl_create_object K originator name type container out₁ w₂ with
        | none => none
        | some (r₁, out₂, w₃) =>
          let r₂ := if CPL_IS_OK r₁ then K.CPL_S_OBJECT_CREATED else r₁
          some (r₂, out₂, w₃.log cpl_event.semaphore_post)

/-- Add a property to the given object (`cpl_add_object_property`, lines 608-630). -/
def cpl_add_object_property (K : cpl_codes) (id : cpl_id_t) (key value : Option c_string)
    (w : cpl_world β ι κ) : Option (cpl_return_t × cpl_world β ι κ) :=
  if !w.cpl_initialized then some (K.CPL_E_NOT_INITIALIZED, w)
  else if id = CPL_NONE then some (K.CPL_E_INVALID_ARGUMENT, w)
  else
    match key, value with
    | none, _ => some (K.CPL_E_INVALID_ARGUMENT, w)
    | some _, none => some (K.CPL_E_INVALID_ARGUMENT, w)
    | some k, some v =>
      match w.cpl_db_backend with
      | none => none
      | some b =>
        let r := b.cpl_db_add_object_property w.db id k v
        some (r.1, ({ w with db := r.2 }).log
          (cpl_event.db (cpl_db_call.add_object_property id k v)))

/-- Add a property to the given relation (`cpl_add_relation_property`, lines 632-651). -/
def cpl_add_relation_property (K : cpl_codes) (id : cpl_id_t) (key value : Option c_string)
    (w : cpl_world β ι κ) : Option (cpl_return_t × cpl_world β ι κ) :=
  if !w.cpl_initialized then some (K.CPL_E_NOT_INITIALIZED, w)
  else if id = CPL_NONE then some (K.CPL_E_INVALID_ARGUMENT, w)
  else
    match key, value with
    | none, _ => some (K.CPL_E_INVALID_ARGUMENT, w)
    | some _, none => some (K.CPL_E_INVALID_ARGUMENT, w)
    | some k, some v =>
      match w.cpl_db_backend with
      | none => none
      | some b =>
        let r := b.cpl_db_add_relation_property w.db id k v
        some (r.1, ({ w with db := r.2 }).log
          (cpl_event.db (cpl_db_call.add_relation_property id k v)))

/-- Add a dependency (`cpl_add_relation`, lines 661-698). -/
def cpl_add_relation (K : cpl_codes) (from_id to_id : cpl_id_t) (type : Int)
    (container : cpl_id_t) (out_id : Option cpl_id_t) (w : cpl_world β ι κ) :
    Option (cpl_return_t × Option cpl_id_t × cpl_world β ι κ) :=
  if !w.cpl_initialized then some (K.CPL_E_NOT_INITIALIZED, out_id, w)
  else if from_id = CPL_NONE then some (K.CPL_E_INVALID_ARGUMENT, out_id, w)
  else if to_id = CPL_NONE then some (K.CPL_E_INVALID_ARGUMENT, out_id, w)
  else if container = CPL_NONE then some (K.CPL_E_INVALID_ARGUMENT, out_id, w)
  else
    match w.cpl_db_backend with
    | none => none
    | some b =>
      let r := b.cpl_db_add_relation w.db from_id to_id type container
      let w₁ := ({ w with db := r.2.2 }).log
        (cpl_event.db (cpl_db_call.add_relation from_id to_id type container))
      if !CPL_IS_OK r.1 then some (r.1, out_id, w₁)
      else some (K.CPL_OK, store out_id r.2.1, w₁)

/-! ## Provenance access API -/

/-- Get the ID of the current session (`cpl_get_current_session`, lines 711-718). -/
def cpl_get_current_session (K : cpl_codes) (out_session : Option cpl_session_t)
    (w : cpl_world β ι κ) : Option (cpl_return_t × Option cpl_session_t × cpl_world β ι κ) :=
  if !w.cpl_initialized then some (K.CPL_E_NOT_INITIALIZED, out_session, w)
  else some (K.CPL_OK, store out_session w.cpl_session, w)

/-- What a backend call leaves in the cell `*out_info`: the record it stored,
or the old content when it stored nothing. -/
def store_info {α : Type} (cell written : Option α) : Option α :=
  match written with
  | some i => some i
  | none => cell

/-- Get information about the given provenance session
(`cpl_get_session_info`, lines 728-741). The argument `out_info` is `none` for
a `NULL` pointer and otherwise the content of the cell it points to. -/
def cpl_get_session_info (K : cpl_codes) (id : cpl_session_t)
    (out_info : Option (Option cpl_session_info_t)) (w : cpl_world β ι κ) :
    Option (cpl_return_t × Option (Option cpl_session_info_t) × cpl_world β ι κ) :=
  if !w.cpl_initialized then some (K.CPL_E_NOT_INITIALIZED, out_info, w)
  else if id = CPL_NONE then some (K.CPL_E_INVALID_ARGUMENT, out_info, w)
  else
    match out_info with
    | none => some (K.CPL_E_INVALID_ARGUMENT, out_info, w)
    | some cell =>
      match w.cpl_db_backend with
      | none => none
      | some b =>
        let r := b.cpl_db_get_session_info w.db id
        some (r.1, some (store_info cell r.2.1),
          ({ w with db := r.2.2 }).log (cpl_event.db (cpl_db_call.get_session_info id)))

/-- Get all objects in the database (`cpl_get_all_objects`, lines 773-783). -/
def cpl_get_all_objects (K : cpl_codes) (flags : Int) (iterator : Option ι) (context : κ)
    (w : cpl_world β ι κ) : Option (cpl_return_t × cpl_world β ι κ) :=
  if !w.cpl_initialized then some (K.CPL_E_NOT_INITIALIZED, w)
  else
    match iterator with
    | none => some (K.CPL_E_INVALID_ARGUMENT, w)
    | some it =>
      match w.cpl_db_backend with
      | none => none
      | some b =>
        let r := b.cpl_db_get_all_objects w.db flags it context
        some (r.1, ({ w with db := r.2 }).log (cpl_event.db (cpl_db_call.get_all_objects flags)))

/-- Get information about the given provenance object
(`cpl_get_object_info`, lines 793-805). -/
def cpl_get_object_info (K : cpl_codes) (id : cpl_id_t)
    (out_info : Option (Option cpl_object_info_t)) (w : cpl_world β ι κ) :
    Option (cpl_return_t × Option (Option cpl_object_info_t) × cpl_world β ι κ) :=
  if !w.cpl_initialized then some (K.CPL_E_NOT_INITIALIZED, out_info, w)
  else if id = CPL_NONE then some (K.CPL_E_INVALID_ARGUMENT, out_info, w)
  else
    match out_info with
    | none => some (K.CPL_E_INVALID_ARGUMENT, out_info, w)
    | some cell =>
      match w.cpl_db_backend with
      | none => none
      | some b =>
        let r := b.cpl_db_get_object_info w.db id
        some (r.1, some (store_info cell r.2.1),
          ({ w with db := r.2.2 }).log (cpl_event.db (cpl_db_call.get_object_info id)))

/-- Iterate over the ancestors or the descendants of a provenance object
(`cpl_get_object_relations`, lines 841-867). -/
def cpl_get_object_relations (K : cpl_codes) (id : cpl_id_t) (direction flags : Int)
    (iterator : Option ι) (context : κ) (w : cpl_world β ι κ) :
    Option (cpl_return_t × cpl_world β ι κ) :=
  if !w.cpl_initialized then some (K.CPL_E_NOT_INITIALIZED, w)
  else if id = CPL_NONE then some (K.CPL_E_INVALID_ARGUMENT, w)
  else
    match iterator with
    | none => some (K.CPL_E_INVALID_ARGUMENT, w)
    | some it =>
      if direction ≠ K.CPL_D_ANCESTORS ∧ direction ≠ K.CPL_D_DESCENDANTS then
        some (K.CPL_E_INVALID_ARGUMENT, w)
      else
        match w.cpl_db_backend with
        | none => none
        | some b =>
          let r := b.cpl_db_get_object_relations w.db id direction flags it context
          let w₁ := ({ w with db := r.2 }).log
            (cpl_event.db (cpl_db_call.get_object_relations id direction flags))
          if r.1 = K.CPL_S_NO_DATA then some (K.CPL_OK, w₁) else some (r.1, w₁)

/-- Get the properties of the given provenance object
(`cpl_get_object_properties`, lines 879-896). -/
def cpl_get_object_properties (K : cpl_codes) (id : cpl_id_t) (key : Option c_string)
    (iterator : Option ι) (context : κ) (w : cpl_world β ι κ) :
    Option (cpl_return_t × cpl_world β ι κ) :=
  if !w.cpl_initialized then some (K.CPL_E_NOT_INITIALIZED, w)
  else if id = CPL_NONE then some (K.CPL_E_INVALID_ARGUMENT, w)
  else
    match iterator with
    | none => some (K.CPL_E_INVALID_ARGUMENT, w)
    | some it =>
      match w.cpl_db_backend with
      | none => none
      | some b =>
        let r := b.cpl_db_get_object_properties w.db id key it context
        some (r.1, ({ w with db := r.2 }).log
          (cpl_event.db (cpl_db_call.get_object_properties id key)))

/-- Look up an object based on a property value
(`cpl_lookup_object_by_property`, lines 908-925). -/
def cpl_lookup_object_by_property (K : cpl_codes) (key value : Option c_string)
    (iterator : Option ι) (context : κ) (w : cpl_world β ι κ) :
    Option (cpl_return_t × cpl_world β ι κ) :=
  if !w.cpl_initialized then some (K.CPL_E_NOT_INITIALIZED, w)
  else
    match iterator, key, value with
    | none, _, _ => some (K.CPL_E_INVALID_ARGUMENT, w)
    | some _, none, _ => some (K.CPL_E_INVALID_ARGUMENT, w)
    | some _, some _, none => some (K.CPL_E_INVALID_ARGUMENT, w)
    | some it, some k, some v =>
      match w.cpl_db_backend with
      | none => none
      | some b =>
        let r := b.cpl_db_lookup_object_by_property w.db k v it context
        some (r.1, ({ w with db := r.2 }).log
          (cpl_event.db (cpl_db_call.lookup_object_by_property k v)))

/-- Get the properties of the given relation
(`cpl_get_relation_properties`, lines 930-945). -/
def cpl_get_relation_properties (K : cpl_codes) (id : cpl_id_t) (key : Option c_string)
    (iterator : Option ι) (context : κ) (w : cpl_world β ι κ) :
    Option (cpl_return_t × cpl_world β ι κ) :=
  if !w.cpl_initialized then some (K.CPL_E_NOT_INITIALIZED, w)
  else if id = CPL_NONE then some (K.CPL_E_INVALID_ARGUMENT, w)
  else
    match iterator with
    | none => some (K.CPL_E_INVALID_ARGUMENT, w)
    | some it =>
      match w.cpl_db_backend with
      | none => none
      | some b =>
        let r := b.cpl_db_get_relation_properties w.db id key it context
        some (r.1, ({ w with db := r.2 }).log
          (cpl_event.db (cpl_db_call.get_relation_properties id key)))

/-- Delete a bundle (`cpl_delete_bundle`, lines 947-954). -/
def cpl_delete_bundle (K : cpl_codes) (id : cpl_id_t) (w : cpl_world β ι κ) :
    Option (cpl_return_t × cpl_world β ι κ) :=
  if !w.cpl_initialized then some (K.CPL_E_NOT_INITIALIZED, w)
  else if id = CPL_NONE then some (K.CPL_E_INVALID_ARGUMENT, w)
  else
    match w.cpl_db_backend with
    | none => none
    | some b =>
      let r := b.cpl_db_delete_bundle w.db id
      some (r.1, ({ w with db := r.2 }).log (cpl_event.db (cpl_db_call.delete_bundle id)))

/-- Stream the objects of a bundle (`cpl_get_bundle_objects`, lines 956-967). -/
def cpl_get_bundle_objects (K : cpl_codes) (id : cpl_id_t) (iterator : Option ι) (context : κ)
    (w : cpl_world β ι κ) : Option (cpl_return_t × cpl_world β ι κ) :=
  if !w.cpl_initialized then some (K.CPL_E_NOT_INITIALIZED, w)
  else if id = CPL_NONE then some (K.CPL_E_INVALID_ARGUMENT, w)
  else
    match iterator with
    | none => some (K.CPL_E_INVALID_ARGUMENT, w)
    | some it =>
      match w.cpl_db_backend with
      | none => none
      | some b =>
        let r := b.cpl_db_get_bundle_objects w.db id it context
        some (r.1, ({ w with db := r.2 }).log (cpl_event.db (cpl_db_call.get_bundle_objects id)))

/-- Stream the relations of a bundle (`cpl_get_bundle_relations`, lines 969-980). -/
def cpl_get_bundle_relations (K : cpl_codes) (id : cpl_id_t) (iterator : Option ι)
    (context : κ) (w : cpl_world β ι κ) : Option (cpl_return_t × cpl_world β ι κ) :=
  if !w.cpl_initialized then some (K.CPL_E_NOT_INITIALIZED, w)
  else if id = CPL_NONE then some (K.CPL_E_INVALID_ARGUMENT, w)
  else
    match iterator with
    | none => some (K.CPL_E_INVALID_ARGUMENT, w)
    | some it =>
      match w.cpl_db_backend with
      | none => none
      | some b =>
        let r := b.cpl_db_get_bundle_relations w.db id it context
        some (r.1, ({ w with db := r.2 }).log
          (cpl_event.db (cpl_db_call.get_bundle_relations id)))

/-! ## The data operations as one family -/

/-- A call of one of the eighteen data operations of the public API, with its
arguments. -/
inductive cpl_data_op (ι κ : Type) where
  | create_object (originator name type : Option c_string) (container : cpl_id_t)
      (out_id : Option cpl_id_t)
  | lookup_object (originator name type : Option c_string) (out_id : Option cpl_id_t)
  | lookup_object_ext (originator name type : Option c_string) (flags : Int)
      (iterator : Option ι) (context : κ)
  | lookup_or_create_object (originator name type : Option c_string) (container : cpl_id_t)
      (out_id : Option cpl_id_t)
  | add_object_property (id : cpl_id_t) (key value : Option c_string)
  | add_relation_property (id : cpl_id_t) (key value : Option c_string)
  | add_relation (from_id to_id : cpl_id_t) (type : Int) (container : cpl_id_t)
      (out_id : Option cpl_id_t)
  | get_current_session (out_session : Option cpl_session_t)
  | get_session_info (id : cpl_session_t) (out_info : Option (Option cpl_session_info_t))
  | get_all_objects (flags : Int) (iterator : Option ι) (context : κ)
  | get_object_info (id : cpl_id_t) (out_info : Option (Option cpl_object_info_t))
  | get_object_relations (id : cpl_id_t) (direction flags : Int) (iterator : Option ι)
      (context : κ)
  | get_object_properties (id : cpl_id_t) (key : Option c_string) (iterator : Option ι)
      (context : κ)
  | get_relation_properties (id : cpl_id_t) (key : Option c_string) (iterator : Option ι)
      (context : κ)
  | lookup_object_by_property (key value : Option c_string) (iterator : Option ι) (context : κ)
  | delete_bundle (id : cpl_id_t)
  | get_bundle_objects (id : cpl_id_t) (iterator : Option ι) (context : κ)
  | get_bundle_relations (id : cpl_id_t) (iterator : Option ι) (context : κ)

/-- Drop the content of the output cell from the result of an operation. -/
def forget_out {α ω : Type} (r : Option (cpl_return_t × α × ω)) : Option (cpl_return_t × ω) :=
  r.map (fun x => (x.1, x.2.2))

/-- The return code and the world after the data operation `op`; `none` when
the operation dereferences a `NULL` backend pointer. -/
def cpl_data_call (K : cpl_codes) (op : cpl_data_op ι κ) (w : cpl_world β ι κ) :
    Option (cpl_return_t × cpl_world β ι κ) :=
  match op with
  | cpl_data_op.create_object o n t c out =>
    forget_out (cpl_create_object K o n t c out w)
  | cpl_data_op.lookup_object o n t out => forget_out (cpl_lookup_object K o n t out w)
  | cpl_data_op.lookup_object_ext o n t f it ctx => cpl_lookup_object_ext K o n t f it ctx w
  | cpl_data_op.lookup_or_create_object o n t c out =>
    forget_out (cpl_lookup_or_create_object K o n t c out w)
  | cpl_data_op.add_object_property id k v => cpl_add_object_property K id k v w
  | cpl_data_op.add_relation_property id k v => cpl_add_relation_property K id k v w
  | cpl_data_op.add_relation a b t c out => forget_out (cpl_add_relation K a b t c out w)
  | cpl_data_op.get_current_session out => forget_out (cpl_get_current_session K out w)
  | cpl_data_op.get_session_info id out => forget_out (cpl_get_session_info K id out w)
  | cpl_data_op.get_all_objects f it ctx => cpl_get_all_objects K f it ctx w
  | cpl_data_op.get_object_info id out => forget_out (cpl_get_object_info K id out w)
  | cpl_data_op.get_object_relations id d f it ctx =>
    cpl_get_object_relations K id d f it ctx w
  | cpl_data_op.get_object_properties id k it ctx => cpl_get_object_properties K id k it ctx w
  | cpl_data_op.get_relation_properties id k it ctx =>
    cpl_get_relation_properties K id k it ctx w
  | cpl_data_op.lookup_object_by_property k v it ctx =>
    cpl_lookup_object_by_property K k v it ctx w
  | cpl_data_op.delete_bundle id => cpl_delete_bundle K id w
  | cpl_data_op.get_bundle_objects id it ctx => cpl_get_bundle_objects K id it ctx w
  | cpl_data_op.get_bundle_relations id it ctx => cpl_get_bundle_relations K id it ctx w

/-! ## Concrete inputs -/

/-- A backend for evaluating the operations: every function returns the code
`ret` and, where it has an output, the identifier `id`; the store is a counter
of the calls received. -/
def const_backend (ret : cpl_return_t) (id : Nat) : cpl_db_backend_t Nat Unit Unit :=
  { cpl_db_destroy := fun n => n + 1
    cpl_db_create_session := fun n _ _ _ _ _ => (ret, id, n + 1)
    cpl_db_create_object := fun n _ _ _ _ _ => (ret, id, n + 1)
    cpl_db_lookup_object := fun n _ _ _ => (ret, id, n + 1)
    cpl_db_lookup_object_ext := fun n _ _ _ _ _ _ => (ret, n + 1)
    cpl_db_add_object_property := fun n _ _ _ => (ret, n + 1)
    cpl_db_add_relation_property := fun n _ _ _ => (ret, n + 1)
    cpl_db_add_relation := fun n _ _ _ _ => (ret, id, n + 1)
    cpl_db_get_session_info := fun n _ => (ret, none, n + 1)
    cpl_db_get_all_objects := fun n _ _ _ => (ret, n + 1)
    cpl_db_get_object_info := fun n _ => (ret, none, n + 1)
    cpl_db_get_object_relations := fun n _ _ _ _ _ => (ret, n + 1)
    cpl_db_get_object_properties := fun n _ _ _ _ => (ret, n + 1)
    cpl_db_lookup_object_by_property := fun n _ _ _ _ => (ret, n + 1)
    cpl_db_get_relation_properties := fun n _ _ _ _ => (ret, n + 1)
    cpl_db_delete_bundle := fun n _ => (ret, n + 1)
    cpl_db_get_bundle_objects := fun n _ _ _ => (ret, n + 1)
    cpl_db_get_bundle_relations := fun n _ _ _ => (ret, n + 1) }

/-- A platform on which every step of `cpl_attach` succeeds. -/
def good_platform : cpl_platform :=
  { lock_initialize_ret := 0
    user := some "alice".toList
    pid := 4242
    program_invocation_name := some "/usr/bin/prog".toList
    proc_self_cmdline := some (raw_argv ["prog".toList])
    cmdbuf_allocated := true
    mac_address := none
    semaphore_open := some 1 }

/-- The world before the first call of the library, over a store with no call
received. -/
def world₀ : cpl_world Nat Unit Unit := cpl_world_init 0

/-- The world after a first `cpl_attach` that succeeds, with a backend whose
`create_session` reports success and produces the session id `7`. -/
def attached₀ : cpl_world Nat Unit Unit :=
  (cpl_attach cpl_h good_platform (some (const_backend 0 7)) world₀).2

/-- The world after a first `cpl_attach` that succeeds, with a backend of which
every function reports `CPL_S_DUPLICATE_IGNORED` and the identifier `5`. -/
def attached₁ : cpl_world Nat Unit Unit :=
  (cpl_attach cpl_h good_platform (some (const_backend 1 5)) world₀).2

/-- Every step of `cpl_attach` that depends on the platform succeeds (the
hardware address, which is optional, apart). -/
def cpl_platform.ok (P : cpl_platform) : Bool :=
  CPL_IS_OK P.lock_initialize_ret && P.user.isSome && P.program_invocation_name.isSome &&
    P.proc_self_cmdline.isSome && P.cmdbuf_allocated && P.semaphore_open.isSome

/-! ## Helpers: error strings -/

/-- Modelled from the spec: the string macros `__CPL_S_STR__0 .. __CPL_S_STR__3`
and `__CPL_E_STR__0 .. __CPL_E_STR__17` of `cpl.h`, which is not under `src/`:
`S k` is the description of the success code `k` and `E k` the description of
the error code `-k` (section 4.7: a stable description table). The texts are a
parameter. -/
structure cpl_str_macros where
  S : Nat → c_string
  E : Nat → c_string

/-- Success code strings (the array `CPL_S_STR`, lines 63-68). -/
def CPL_S_STR (M : cpl_str_macros) : List c_string :=
  [M.S 0, M.S 1, M.S 2, M.S 3]

/-- Error code strings (the array `CPL_E_STR`, lines 78-97). -/
def CPL_E_STR (M : cpl_str_macros) : List c_string :=
  [M.E 0, M.E 1, M.E 2, M.E 3, M.E 4, M.E 5, M.E 6, M.E 7, M.E 8, M.E 9, M.E 10, M.E 11,
    M.E 12, M.E 13, M.E 14, M.E 15, M.E 16, M.E 17]

/-- The last success code number (line 58). -/
def CPL_S_LAST_SUCCESS : Int := 3

/-- The last error code number (line 73). -/
def CPL_E_LAST_ERROR : Int := -17

/-- Return the string version of the given error (or success) code
(`cpl_error_string`, lines 397-408). An array access is a lookup in the list;
`none` stands for an access outside the array. -/
def cpl_error_string (M : cpl_str_macros) (code : cpl_return_t) : Option c_string :=
  if CPL_IS_OK code then
    if code ≥ 0 ∧ code ≤ CPL_S_LAST_SUCCESS then (CPL_S_STR M)[code.toNat]?
    else some "Success (unknown success code)".toList
  else
    if code ≤ 0 ∧ code ≥ CPL_E_LAST_ERROR then (CPL_E_STR M)[(-code).toNat]?
    else some "Unknown error".toList

/-- Descriptions for evaluating `cpl_error_string`: the code's own number
after a letter. -/
def example_macros : cpl_str_macros :=
  { S := fun k => 'S' :: (Nat.repr k).toList
    E := fun k => 'E' :: (Nat.repr k).toList }

/-! ## Helpers: the world after one backend call, invalid arguments -/

/-- The world after exactly one call `c` of the backend that leaves the store
in the state `db`. -/
def cpl_world.after_call {β ι κ : Type} (w : cpl_world β ι κ) (db : β) (c : cpl_db_call) :
    cpl_world β ι κ :=
  ({ w with db := db }).log (cpl_event.db c)

/-- The invalid arguments as the specification lists them: a `CPL_NONE` id, a
`CPL_NONE` end or container of a relation, an absent originator, name or type,
an absent key or value, an absent callback of a streaming operation, and a
direction that is neither of the two valid ones. -/
def cpl_invalid_argument {ι κ : Type} (K : cpl_codes) : cpl_data_op ι κ → Bool
  | cpl_data_op.create_object o n t _ _ => o.isNone || n.isNone || t.isNone
  | cpl_data_op.lookup_object o n t _ => o.isNone || n.isNone || t.isNone
  | cpl_data_op.lookup_object_ext o n t _ it _ =>
    o.isNone || n.isNone || t.isNone || it.isNone
  | cpl_data_op.lookup_or_create_object _ _ _ _ _ => false
  | cpl_data_op.add_object_property id k v => id == CPL_NONE || k.isNone || v.isNone
  | cpl_data_op.add_relation_property id k v => id == CPL_NONE || k.isNone || v.isNone
  | cpl_data_op.add_relation a b _ c _ => a == CPL_NONE || b == CPL_NONE || c == CPL_NONE
  | cpl_data_op.get_current_session _ => false
  | cpl_data_op.get_session_info id _ => id == CPL_NONE
  | cpl_data_op.get_all_objects _ it _ => it.isNone
  | cpl_data_op.get_object_info id _ => id == CPL_NONE
  | cpl_data_op.get_object_relations id d _ it _ =>
    id == CPL_NONE || it.isNone || (d != K.CPL_D_ANCESTORS && d != K.CPL_D_DESCENDANTS)
  | cpl_data_op.get_object_properties id _ it _ => id == CPL_NONE || it.isNone
  | cpl_data_op.get_relation_properties id _ it _ => id == CPL_NONE || it.isNone
  | cpl_data_op.lookup_object_by_property k v it _ => k.isNone || v.isNone || it.isNone
  | cpl_data_op.delete_bundle id => id == CPL_NONE
  | cpl_data_op.get_bundle_objects id it _ => id == CPL_NONE || it.isNone
  | cpl_data_op.get_bundle_relations id it _ => id == CPL_NONE || it.isNone

/-! ## Concrete inputs: a backend that stores objects and relations -/

/-- The store of `mem_backend`: the objects with their keys, newest first, the
relations as (id, from, to, type, container), the next free identifier, and the
number of times the backend has invoked an iterator callback. -/
structure mem_store where
  objects : List ((c_string × c_string × c_string) × cpl_id_t)
  relations : List (cpl_id_t × cpl_id_t × cpl_id_t × Int × cpl_id_t)
  next_id : cpl_id_t
  callbacks : Nat

/-- The empty store; identifiers start at `1`. -/
def mem_store₀ : mem_store :=
  { objects := [], relations := [], next_id := 1, callbacks := 0 }

/-- The relations of `s` that a traversal from `id` in direction `d` yields. -/
def mem_store.rows (K : cpl_codes) (s : mem_store) (id : cpl_id_t) (d : Int) :
    List (cpl_id_t × cpl_id_t × cpl_id_t × Int × cpl_id_t) :=
  s.relations.filter (fun r => if d = K.CPL_D_ANCESTORS then r.2.2.1 == id else r.2.1 == id)

/-- A small backend for evaluating the operations: `lookup_object` answers
`CPL_E_NOT_FOUND` while no object has the key and the newest object of the key
otherwise, `add_relation` ignores a duplicate edge and answers its id,
`get_object_relations` answers `CPL_S_NO_DATA` without a callback when there is
no row and invokes the callback once per row otherwise. -/
def mem_backend (K : cpl_codes) : cpl_db_backend_t mem_store Unit Unit :=
  { cpl_db_destroy := fun s => s
    cpl_db_create_session := fun s _ _ _ _ _ =>
      (K.CPL_OK, s.next_id, { s with next_id := s.next_id + 1 })
    cpl_db_create_object := fun s o n t _ _ =>
      (K.CPL_OK, s.next_id,
        { s with objects := ((o, n, t), s.next_id) :: s.objects, next_id := s.next_id + 1 })
    cpl_db_lookup_object := fun s o n t =>
      match s.objects.lookup (o, n, t) with
      | some i => (K.CPL_OK, i, s)
      | none => (K.CPL_E_NOT_FOUND, CPL_NONE, s)
    cpl_db_lookup_object_ext := fun s o n t _ _ _ =>
      let rows := s.objects.filter (fun e => e.1 == (o, n, t))
      if rows.isEmpty then (K.CPL_E_NOT_FOUND, s)
      else (K.CPL_OK, { s with callbacks := s.callbacks + rows.length })
    cpl_db_add_object_property := fun s _ _ _ => (K.CPL_OK, s)
    cpl_db_add_relation_property := fun s _ _ _ => (K.CPL_OK, s)
    cpl_db_add_relation := fun s a b t c =>
      match s.relations.find? (fun r => r.2 == (a, b, t, c)) with
      | some r => (K.CPL_S_DUPLICATE_IGNORED, r.1, s)
      | none =>
        (K.CPL_OK, s.next_id,
          { s with relations := (s.next_id, a, b, t, c) :: s.relations
                   next_id := s.next_id + 1 })
    cpl_db_get_session_info := fun s _ => (K.CPL_E_NOT_FOUND, none, s)
    cpl_db_get_all_objects := fun s _ _ _ =>
      (K.CPL_OK, { s with callbacks := s.callbacks + s.objects.length })
    cpl_db_get_object_info := fun s _ => (K.CPL_E_NOT_FOUND, none, s)
    cpl_db_get_object_relations := fun s id d _ _ _ =>
      if (s.rows K id d).isEmpty then (K.CPL_S_NO_DATA, s)
      else (K.CPL_OK, { s with callbacks := s.callbacks + (s.rows K id d).length })
    cpl_db_get_object_properties := fun s _ _ _ _ => (K.CPL_S_NO_DATA, s)
    cpl_db_lookup_object_by_property := fun s _ _ _ _ => (K.CPL_E_NOT_FOUND, s)
    cpl_db_get_relation_properties := fun s _ _ _ _ => (K.CPL_S_NO_DATA, s)
    cpl_db_delete_bundle := fun s _ => (K.CPL_OK, s)
    cpl_db_get_bundle_objects := fun s _ _ _ => (K.CPL_S_NO_DATA, s)
    cpl_db_get_bundle_relations := fun s _ _ _ => (K.CPL_S_NO_DATA, s) }

/-- The world after a first `cpl_attach` that succeeds with `mem_backend` on
the empty store. -/
def attached₂ : cpl_world mem_store Unit Unit :=
  (cpl_attach cpl_h good_platform (some (mem_backend cpl_h)) (cpl_world_init mem_store₀)).2

/-- A backend whose `create_session` succeeds with the session id `7` and of
which every other function reports the code `f` and the identifier `9`. -/
def failing_backend (f : cpl_return_t) : cpl_db_backend_t Nat Unit Unit :=
  { const_backend f 9 with cpl_db_create_session := fun n _ _ _ _ _ => (0, 7, n + 1) }

/-- The world after a first `cpl_attach` that succeeds with `failing_backend (-3)`. -/
def attached₃ : cpl_world Nat Unit Unit :=
  (cpl_attach cpl_h good_platform (some (failing_backend (-3))) world₀).2

/-- The world after a first `cpl_attach` that succeeds, with a backend of which
every function reports `CPL_S_NO_DATA`. -/
def attached₄ : cpl_world Nat Unit Unit :=
  (cpl_attach cpl_h good_platform (some (const_backend 2 9)) world₀).2

/-! ## The loop by index, the text after the first token, sequences of calls -/

/-- The loop `for (size_t i = 0; i <= l; i++)` of lines 279-306 from the index
`i` on, reading `_cmdbuf[i]` at every iteration. The result holds the locals
after the loop and the number of iterations made, starting the count at
`steps`; `none` stands for a read outside the part of the buffer that has been
written. -/
def cmdline_for (cmdbuf : List Char) (l i : Nat) (st : cmdline_vars) (steps : Nat) :
    Option (cmdline_vars × Nat) :=
  if i ≤ l then
    match cmdbuf[i]? with
    | none => none
    | some c => cmdline_for cmdbuf l (i + 1) (cmdline_step st c) (steps + 1)
  else some (st, steps)
termination_by l + 1 - i

/-- Lines 271-307 with the loop written by index: `fread` stores at most 4096
bytes of `file` in `_cmdbuf`, `l` is their number, `_cmdbuf[l]` is set to NUL
and the loop runs from `i = 0`. -/
def cmdline_run (file : List Char) : Option (cmdline_vars × Nat) :=
  cmdline_for (file.take 4096 ++ ['\x00']) (file.take 4096).length 0 cmdline_init 0

/-- What the loop appends to a `_cmdline` that is not empty while it consumes
the arguments `args` and then the terminator, from the values `hw`, `hs` of the
two flags: a space and the rendered token for every argument, and a space and
the rendering of the empty token at the end. -/
def tail_text (hw hs : Bool) : List (List Char) → List Char
  | [] => ' ' :: render_token hw hs []
  | a :: rest =>
    ' ' :: render_token (hw || contains_white a) (hs || contains_sq a) a ++
      tail_text (hw || contains_white a) (hs || contains_sq a) rest

/-- One call of the public API of the library: `cpl_attach` with what the
platform answers during it, `cpl_detach`, or a data operation. -/
inductive cpl_api (β ι κ : Type) where
  | attach (P : cpl_platform) (backend : Option (cpl_db_backend_t β ι κ))
  | detach
  | data (op : cpl_data_op ι κ)

/-- The return code and the world after one call of the API; `none` when the
call dereferences a `NULL` backend pointer. -/
def cpl_api_call (K : cpl_codes) (c : cpl_api β ι κ) (w : cpl_world β ι κ) :
    Option (cpl_return_t × cpl_world β ι κ) :=
  match c with
  | cpl_api.attach P backend => some (cpl_attach K P backend w)
  | cpl_api.detach => cpl_detach K w
  | cpl_api.data op => cpl_data_call K op w

/-- The world after a sequence of calls of the API, made one after the other;
`none` when one of them dereferences a `NULL` backend pointer. -/
def cpl_run (K : cpl_codes) : List (cpl_api β ι κ) → cpl_world β ι κ →
    Option (cpl_world β ι κ)
  | [], w => some w
  | c :: rest, w =>
    match cpl_api_call K c w with
    | none => none
    | some r => cpl_run K rest r.2

/-- The sixteen lower-case hexadecimal digits. -/
def hex_digits : List Char := "0123456789abcdef".toList

/-- A platform on which every step of `cpl_attach` succeeds and the hardware
address `00:1b:21:ab:cd:ef` is found. -/
def mac_platform : cpl_platform :=
  { good_platform with
    mac_address := some { b0 := 0x00, b1 := 0x1b, b2 := 0x21, b3 := 0xab, b4 := 0xcd, b5 := 0xef } }

/-- One byte as the specification words it: two lower-case hexadecimal digits,
the high one first. -/
def hex02_spec (b : Fin 256) : List Char :=
  [hex_digits.getD (b.val / 16) '0', hex_digits.getD (b.val % 16) '0']

/-- The hardware address as the specification words it: its six bytes, each
written with two lower-case hexadecimal digits, separated by colons. -/
def mac_spec (mac : cpl_mac_address_t) : c_string :=
  [':'].intercalate
    [hex02_spec mac.b0, hex02_spec mac.b1, hex02_spec mac.b2, hex02_spec mac.b3,
      hex02_spec mac.b4, hex02_spec mac.b5]

end CPL

/-! # Theorems -/

namespace CPL

/-! ## Command-line reconstruction -/

theorem escape_fold (t acc : List Char) :
    t.foldl (fun s d => (if d == '\'' || d == '\\' then s ++ ['\\'] else s) ++ [d]) acc
      = acc ++ escape_spec t := by
  induction t generalizing acc with
  | nil => simp [escape_spec]
  | cons d t ih =>
    rw [List.foldl_cons, ih]
    by_cases h : d = '\'' ∨ d = '\\'
    · rcases h with h | h <;> subst h <;> simp [escape_spec]
    · have h1 : (d == '\'' || d == '\\') = false := by
        simp only [Bool.or_eq_false_iff, beq_eq_false_iff_ne, ne_eq]
        exact ⟨fun e => h (Or.inl e), fun e => h (Or.inr e)⟩
      simp [escape_spec, h, h1]

theorem strlen_of_no_nul (t : List Char) (h : '\x00' ∉ t) : strlen t = t.length := by
  unfold strlen
  congr 1
  rw [List.takeWhile_eq_self_iff]
  intro c hc
  simp only [bne_iff_ne, ne_eq]
  rintro rfl
  exact h hc

/-- On a token without NUL the inner loop of the source computes the escaping
of the specification. -/
theorem escape_token_eq (t : List Char) (h : '\x00' ∉ t) : escape_token t = escape_spec t := by
  unfold escape_token
  rw [strlen_of_no_nul t h, List.take_length, escape_fold]
  simp

/-- The iterations on the characters of one argument only extend the token and
raise the flags. -/
theorem scan_arg (a : List Char) (h : '\x00' ∉ a) (st : cmdline_vars) :
    a.foldl cmdline_step st =
      { st with token := st.token ++ a
                has_white := st.has_white || contains_white a
                has_sq := st.has_sq || contains_sq a } := by
  induction a generalizing st with
  | nil => simp [contains_white, contains_sq]
  | cons c a ih =>
    have hc : c ≠ '\x00' := fun e => h (by simp [e])
    have ha : '\x00' ∉ a := fun e => h (by simp [e])
    rw [List.foldl_cons, ih ha]
    simp [cmdline_step, hc, contains_white, contains_sq, Bool.or_assoc]

/-- The iteration on a NUL appends the rendered token and empties it; the two
flags keep their values. -/
theorem flush_token (st : cmdline_vars) :
    cmdline_step st '\x00' =
      { st with cmdline := append_token st.cmdline (render_token st.has_white st.has_sq st.token)
                token := [] } := by
  rfl

/-- The loop on the raw encoding of an argument vector acts argument by
argument as `emit_args` says. -/
theorem emit_raw (args : List (List Char)) (h : ∀ a ∈ args, '\x00' ∉ a) (st : cmdline_vars) :
    (raw_argv args).foldl cmdline_step st = emit_args st args := by
  induction args generalizing st with
  | nil => rfl
  | cons a rest ih =>
    have ha : '\x00' ∉ a := h a (by simp)
    have hr : ∀ b ∈ rest, '\x00' ∉ b := fun b hb => h b (by simp [hb])
    have e : raw_argv (a :: rest) = a ++ ('\x00' :: raw_argv rest) := by
      simp [raw_argv]
    rw [e, List.foldl_append, List.foldl_cons, scan_arg a ha, flush_token, ih hr]
    rfl

theorem raw_argv_append (xs ys : List (List Char)) :
    raw_argv (xs ++ ys) = raw_argv xs ++ raw_argv ys := by
  simp [raw_argv]

theorem emit_args_token (args : List (List Char)) (st : cmdline_vars) (h : st.token = []) :
    (emit_args st args).token = [] := by
  induction args generalizing st with
  | nil => simpa [emit_args] using h
  | cons a rest ih => exact ih _ rfl

/-- What the whole loop leaves on a raw argument vector that fits in the
buffer: the arguments are consumed one by one, and the iteration on the
terminator `_cmdbuf[l]` appends one more token, rendered from the empty
string. -/
theorem cmdline_loop_raw (args : List (List Char)) (h : ∀ a ∈ args, '\x00' ∉ a)
    (hfit : (raw_argv args).length ≤ 4096) :
    cmdline_loop (raw_argv args) = cmdline_step (emit_args cmdline_init args) '\x00' := by
  unfold cmdline_loop
  simp only [List.take_of_length_le hfit]
  rw [List.foldl_append, emit_raw args h]
  rfl

/-- C1: on the three argument vectors of the specification the loop of
`cpl_attach` does not produce the listed strings: the iteration on the
terminator appends one more token, so `["prog"]` gives `prog` followed by a
space, `["a", "b c"]` gives `a 'b c' ''` and `["it's"]` gives `@'it\'s' @''`,
while the renderings the specification describes are `prog`, `a 'b c'` and
`@'it\'s'`. -/
theorem cmdline_examples_evaluated :
    (cmdline_reconstruct (raw_argv ["prog".toList]) = "prog ".toList ∧
      cmdline_spec ["prog".toList] = "prog".toList) ∧
    (cmdline_reconstruct (raw_argv ["a".toList, "b c".toList]) = "a 'b c' ''".toList ∧
      cmdline_spec ["a".toList, "b c".toList] = "a 'b c'".toList) ∧
    (cmdline_reconstruct (raw_argv ["it's".toList]) = "@'it\\'s' @''".toList ∧
      cmdline_spec ["it's".toList] = "@'it\\'s'".toList) := by
  decide

/-- C2: the rendering of an argument depends on the arguments before it: the
flags `has_white` and `has_sq` are not cleared when a token is finished, so the
argument `a`, which holds neither whitespace nor a single quote, is emitted as
`'a'` after the argument `b c` and as `@'a'` after the argument `it's`, and
unchanged when it comes first. -/
theorem cmdline_flags_carry_over :
    contains_white "a".toList = false ∧ contains_sq "a".toList = false ∧
    cmdline_reconstruct (raw_argv ["a".toList, "b c".toList]) = "a 'b c' ''".toList ∧
    cmdline_reconstruct (raw_argv ["b c".toList, "a".toList]) = "'b c' 'a' ''".toList ∧
    cmdline_reconstruct (raw_argv ["it's".toList, "a".toList]) = "@'it\\'s' @'a' @''".toList := by
  decide

/-- C4: the command line is not the renderings joined with single spaces: for
the vector `["prog"]` a separator follows the last argument, for `["x", "y"]`
likewise, and for a vector that starts with an empty argument the separator
after that argument is missing. -/
theorem cmdline_separator_after_last :
    cmdline_reconstruct (raw_argv ["prog".toList]) = "prog ".toList ∧
    cmdline_reconstruct (raw_argv ["x".toList, "y".toList]) = "x y ".toList ∧
    cmdline_spec ["x".toList, "y".toList] = "x y".toList ∧
    cmdline_reconstruct (raw_argv ["".toList, "y".toList]) = "y ".toList ∧
    cmdline_spec ["".toList, "y".toList] = " y".toList := by
  decide

/-- For every raw argument vector that fits in the buffer, the command line is
the text accumulated from the arguments followed by one more token, rendered
from the empty string under the final values of the two flags. -/
theorem cmdline_reconstruct_raw_argv (args : List (List Char)) (h : ∀ a ∈ args, '\x00' ∉ a)
    (hfit : (raw_argv args).length ≤ 4096) :
    cmdline_reconstruct (raw_argv args) =
      append_token (emit_args cmdline_init args).cmdline
        (render_token (emit_args cmdline_init args).has_white
          (emit_args cmdline_init args).has_sq []) := by
  unfold cmdline_reconstruct
  rw [cmdline_loop_raw args h hfit, flush_token, emit_args_token args _ rfl]

/-! ## Lifecycle -/

section lifecycle

variable {β ι κ : Type}

/-- The guard `CPL_ENSURE_INITIALIZED` of every data operation: without the
attached flag the operation returns `CPL_E_NOT_INITIALIZED` and the world is
the one it was called in. -/
theorem data_call_guard (K : cpl_codes) (op : cpl_data_op ι κ) (w : cpl_world β ι κ)
    (h : w.cpl_initialized = false) :
    cpl_data_call K op w = some (K.CPL_E_NOT_INITIALIZED, w) := by
  cases op <;>
    simp [cpl_data_call, forget_out, cpl_create_object, cpl_lookup_object, cpl_lookup_object_ext,
      cpl_lookup_or_create_object, cpl_add_object_property, cpl_add_relation_property,
      cpl_add_relation, cpl_get_current_session, cpl_get_session_info, cpl_get_all_objects,
      cpl_get_object_info, cpl_get_object_relations, cpl_get_object_properties,
      cpl_get_relation_properties, cpl_lookup_object_by_property, cpl_delete_bundle,
      cpl_get_bundle_objects, cpl_get_bundle_relations, h]

/-- `cpl_attach` never assigns the variable `cpl_session`. -/
theorem attach_keeps_session (K : cpl_codes) (P : cpl_platform)
    (backend : Option (cpl_db_backend_t β ι κ)) (w : cpl_world β ι κ) :
    (cpl_attach K P backend w).2.cpl_session = w.cpl_session := by
  obtain ⟨lk, user, pid, prog, file, alloc, mac, sem⟩ := P
  cases backend <;> cases user <;> cases prog <;> cases file <;> cases sem <;> cases alloc <;>
    simp only [cpl_attach, cpl_world.log] <;> (repeat' split) <;> rfl

/-- From a world that is not attached and whose backend slot is empty, on a
platform on which every step succeeds and with a backend whose
`create_session` reports a success, `cpl_attach` returns `CPL_OK`, sets the
attached flag and leaves the backend in the slot. -/
theorem attach_accepted (K : cpl_codes) (P : cpl_platform) (b : cpl_db_backend_t β ι κ)
    (w : cpl_world β ι κ) (h1 : w.cpl_initialized = false) (h2 : w.cpl_db_backend = none)
    (hP : P.ok = true)
    (hb : ∀ db mac user pid program cmdline,
      CPL_IS_OK (b.cpl_db_create_session db mac user pid program cmdline).1 = true) :
    (cpl_attach K P (some b) w).1 = K.CPL_OK ∧
    (cpl_attach K P (some b) w).2.cpl_initialized = true ∧
    (cpl_attach K P (some b) w).2.cpl_db_backend = some b := by
  obtain ⟨lk, user, pid, prog, file, alloc, mac, sem⟩ := P
  simp only [cpl_platform.ok, Bool.and_eq_true, Option.isSome_iff_exists] at hP
  obtain ⟨⟨⟨⟨⟨hlk, u, hu⟩, pr, hpr⟩, f, hf⟩, halloc⟩, sm, hsm⟩ := hP
  subst hu hpr hf hsm
  simp [cpl_attach, h1, h2, hlk, halloc, hb, cpl_world.log]

/-- The three failure paths of `cpl_attach` that do unwind: once the user
name, the program path, the content of `/proc/self/cmdline` and the buffer are
there, an attach that does not set the attached flag (the locking subsystem
fails to initialise, the backend's `create_session` fails, or the shared
semaphore cannot be opened) returns with the slot empty. -/
theorem attach_failure_resets_slot (K : cpl_codes) (P : cpl_platform)
    (b : cpl_db_backend_t β ι κ) (w : cpl_world β ι κ)
    (h1 : w.cpl_initialized = false) (h2 : w.cpl_db_backend = none)
    (hu : P.user.isSome = true) (hp : P.program_invocation_name.isSome = true)
    (hf : P.proc_self_cmdline.isSome = true) (ha : P.cmdbuf_allocated = true)
    (hfail : (cpl_attach K P (some b) w).2.cpl_initialized = false) :
    (cpl_attach K P (some b) w).2.cpl_db_backend = none := by
  obtain ⟨lk, user, pid, prog, file, alloc, mac, sem⟩ := P
  simp only [Option.isSome_iff_exists] at hu hp hf
  obtain ⟨u, hu⟩ := hu
  obtain ⟨pr, hp⟩ := hp
  obtain ⟨f, hf⟩ := hf
  simp only at ha
  subst hu hp hf ha
  revert hfail
  by_cases hlk : CPL_IS_OK lk = true
  · by_cases hcs : CPL_IS_OK (b.cpl_db_create_session w.db (mac.map mac_string) u pid pr
        (cmdline_reconstruct f)).1 = true
    · cases sem <;> simp [cpl_attach, h1, h2, hlk, hcs, cpl_world.log]
    · simp [cpl_attach, h1, h2, hlk, hcs, cpl_world.log]
  · simp [cpl_attach, h1, h2, hlk]

/-- C5: `cpl_attach` on an attached library, with any backend `b` that is not
`NULL`, returns `CPL_E_ALREADY_INITIALIZED` and leaves the world as it was: no
call is added to the trace, the store is untouched, the attached flag is still
set, the slot still holds the first backend `b₁`, the session id is the same,
and every data operation does afterwards what it would have done before. -/
theorem attach_when_attached (K : cpl_codes) (P : cpl_platform) (b b₁ : cpl_db_backend_t β ι κ)
    (w : cpl_world β ι κ) (h : w.cpl_initialized = true) (hb : w.cpl_db_backend = some b₁) :
    cpl_attach K P (some b) w = (K.CPL_E_ALREADY_INITIALIZED, w) ∧
    (cpl_attach K P (some b) w).2.trace = w.trace ∧
    (cpl_attach K P (some b) w).2.db = w.db ∧
    (cpl_attach K P (some b) w).2.cpl_initialized = true ∧
    (cpl_attach K P (some b) w).2.cpl_db_backend = some b₁ ∧
    (cpl_attach K P (some b) w).2.cpl_session = w.cpl_session ∧
    ∀ op : cpl_data_op ι κ,
      cpl_data_call K op (cpl_attach K P (some b) w).2 = cpl_data_call K op w := by
  have e : cpl_attach K P (some b) w = (K.CPL_E_ALREADY_INITIALIZED, w) := by
    simp [cpl_attach, h]
  rw [e]
  exact ⟨rfl, rfl, rfl, h, hb, rfl, fun _ => rfl⟩

/-- C5 at a concrete input: a second attach, with another backend, on the world
left by a first attach that succeeded. -/
theorem attach_when_attached_witness :
    attached₀.cpl_initialized = true ∧
    attached₀.cpl_db_backend = some (const_backend 0 7) ∧
    cpl_attach cpl_h good_platform (some (const_backend (-3) 9)) attached₀ =
      (cpl_h.CPL_E_ALREADY_INITIALIZED, attached₀) ∧
    (cpl_attach cpl_h good_platform (some (const_backend (-3) 9)) attached₀).2.trace =
      attached₀.trace ∧
    (cpl_attach cpl_h good_platform (some (const_backend (-3) 9)) attached₀).2.db =
      attached₀.db ∧
    (cpl_attach cpl_h good_platform (some (const_backend (-3) 9)) attached₀).2.cpl_initialized
      = true ∧
    (cpl_attach cpl_h good_platform (some (const_backend (-3) 9)) attached₀).2.cpl_db_backend
      = some (const_backend 0 7) ∧
    (cpl_attach cpl_h good_platform (some (const_backend (-3) 9)) attached₀).2.cpl_session
      = attached₀.cpl_session ∧
    ∀ op : cpl_data_op Unit Unit,
      cpl_data_call cpl_h op
          (cpl_attach cpl_h good_platform (some (const_backend (-3) 9)) attached₀).2 =
        cpl_data_call cpl_h op attached₀ :=
  ⟨rfl, rfl,
    attach_when_attached cpl_h good_platform (const_backend (-3) 9) (const_backend 0 7)
      attached₀ rfl rfl⟩

/-- C6: four of the failures of `cpl_attach` after it has accepted the backend
return without emptying the slot. When the locking subsystem initialises and
then the user name is missing, or the program path is missing, or
`/proc/self/cmdline` cannot be opened, or the buffer cannot be allocated,
`cpl_attach` returns its error with the slot still holding the backend, and
every following `cpl_attach`, whatever its backend and platform, returns
`CPL_E_INTERNAL_ERROR`. -/
theorem attach_failure_keeps_slot (K : cpl_codes) (P : cpl_platform)
    (b : cpl_db_backend_t β ι κ) (w : cpl_world β ι κ)
    (h1 : w.cpl_initialized = false) (h2 : w.cpl_db_backend = none)
    (h3 : CPL_IS_OK P.lock_initialize_ret = true)
    (h4 : P.user = none ∨ P.program_invocation_name = none ∨ P.proc_self_cmdline = none ∨
      P.cmdbuf_allocated = false) :
    ((cpl_attach K P (some b) w).1 = K.CPL_E_PLATFORM_ERROR ∨
      (cpl_attach K P (some b) w).1 = K.CPL_E_INSUFFICIENT_RESOURCES) ∧
    (cpl_attach K P (some b) w).2.cpl_initialized = false ∧
    (cpl_attach K P (some b) w).2.cpl_db_backend = some b ∧
    ∀ (P₁ : cpl_platform) (b₁ : cpl_db_backend_t β ι κ),
      cpl_attach K P₁ (some b₁) (cpl_attach K P (some b) w).2 =
        (K.CPL_E_INTERNAL_ERROR, (cpl_attach K P (some b) w).2) := by
  have key : ((cpl_attach K P (some b) w).1 = K.CPL_E_PLATFORM_ERROR ∨
      (cpl_attach K P (some b) w).1 = K.CPL_E_INSUFFICIENT_RESOURCES) ∧
      (cpl_attach K P (some b) w).2.cpl_initialized = false ∧
      (cpl_attach K P (some b) w).2.cpl_db_backend = some b := by
    obtain ⟨lk, user, pid, prog, file, alloc, mac, sem⟩ := P
    simp only at h3 h4
    cases user <;> cases prog <;> cases file <;> cases alloc <;>
      simp_all [cpl_attach, cpl_world.log]
  refine ⟨key.1, key.2.1, key.2.2, ?_⟩
  intro P₁ b₁
  generalize cpl_attach K P (some b) w = r at key
  simp [cpl_attach, key.2.1, key.2.2]

/-- C6 at the failing input: `USER` is not set. The first attach returns
`CPL_E_PLATFORM_ERROR` and keeps the backend in the slot; the next attach, on a
platform on which every step succeeds, returns `CPL_E_INTERNAL_ERROR`. -/
theorem attach_failure_keeps_slot_witness :
    world₀.cpl_initialized = false ∧ world₀.cpl_db_backend = none ∧
    CPL_IS_OK ({ good_platform with user := none } : cpl_platform).lock_initialize_ret = true ∧
    (({ good_platform with user := none } : cpl_platform).user = none ∨
      ({ good_platform with user := none } : cpl_platform).program_invocation_name = none ∨
      ({ good_platform with user := none } : cpl_platform).proc_self_cmdline = none ∨
      ({ good_platform with user := none } : cpl_platform).cmdbuf_allocated = false) ∧
    (cpl_attach cpl_h { good_platform with user := none } (some (const_backend 0 7)) world₀).1
      = cpl_h.CPL_E_PLATFORM_ERROR ∧
    (cpl_attach cpl_h { good_platform with user := none } (some (const_backend 0 7))
      world₀).2.cpl_db_backend = some (const_backend 0 7) ∧
    cpl_attach cpl_h good_platform (some (const_backend 0 7))
        (cpl_attach cpl_h { good_platform with user := none } (some (const_backend 0 7))
          world₀).2 =
      (cpl_h.CPL_E_INTERNAL_ERROR,
        (cpl_attach cpl_h { good_platform with user := none } (some (const_backend 0 7))
          world₀).2) :=
  ⟨rfl, rfl, rfl, Or.inl rfl, rfl,
    (attach_failure_keeps_slot cpl_h { good_platform with user := none } (const_backend 0 7)
      world₀ rfl rfl rfl (Or.inl rfl)).2.2.1,
    (attach_failure_keeps_slot cpl_h { good_platform with user := none } (const_backend 0 7)
      world₀ rfl rfl rfl (Or.inl rfl)).2.2.2 good_platform (const_backend 0 7)⟩

/-- C7: each of the eighteen data operations, called while the library is not
attached, returns `CPL_E_NOT_INITIALIZED` whatever its arguments are, and the
world after the call is the world before it: the trace has no new call of the
backend or of the semaphore and the store is untouched. -/
theorem data_ops_require_attach (K : cpl_codes) (op : cpl_data_op ι κ) (w : cpl_world β ι κ)
    (h : w.cpl_initialized = false) :
    cpl_data_call K op w = some (K.CPL_E_NOT_INITIALIZED, w) ∧
    ∀ r, cpl_data_call K op w = some r → r.2.trace = w.trace ∧ r.2.db = w.db := by
  rw [data_call_guard K op w h]
  refine ⟨rfl, ?_⟩
  intro r hr
  cases hr
  exact ⟨rfl, rfl⟩

/-- C7 at a concrete input: `cpl_lookup_or_create_object` with `NULL` for every
pointer, before any attach. -/
theorem data_ops_require_attach_witness :
    world₀.cpl_initialized = false ∧
    cpl_data_call cpl_h (cpl_data_op.lookup_or_create_object none none none 0 none) world₀ =
      some (cpl_h.CPL_E_NOT_INITIALIZED, world₀) ∧
    ∀ r, cpl_data_call cpl_h (cpl_data_op.lookup_or_create_object none none none 0 none) world₀
        = some r → r.2.trace = world₀.trace ∧ r.2.db = world₀.db :=
  ⟨rfl, data_ops_require_attach cpl_h
    (cpl_data_op.lookup_or_create_object none none none 0 none) world₀ rfl⟩

/-- C8: `cpl_detach` on a world `u` that is not attached returns
`CPL_E_NOT_INITIALIZED` and changes nothing (the backend's destroy is not
called). On an attached world `w` whose slot holds `b` it returns `CPL_OK`;
the calls it makes are the backend's destroy, once, then the closing of the
semaphore and the cleanup of the locking subsystem; afterwards the attached
flag is false and the slot is empty, every data operation returns
`CPL_E_NOT_INITIALIZED`, a second `cpl_detach` returns `CPL_E_NOT_INITIALIZED`,
and `cpl_attach` with a backend whose `create_session` succeeds, on a platform
on which every step succeeds, returns `CPL_OK` and attaches that backend. -/
theorem detach_resets (K : cpl_codes) (u w : cpl_world β ι κ) (b : cpl_db_backend_t β ι κ)
    (hu : u.cpl_initialized = false)
    (h : w.cpl_initialized = true) (hb : w.cpl_db_backend = some b) :
    cpl_detach K u = some (K.CPL_E_NOT_INITIALIZED, u) ∧
    ∃ w₁, cpl_detach K w = some (K.CPL_OK, w₁) ∧
      w₁.cpl_initialized = false ∧ w₁.cpl_db_backend = none ∧
      w₁.db = b.cpl_db_destroy w.db ∧
      w₁.trace = w.trace ++ [cpl_event.db cpl_db_call.destroy, cpl_event.semaphore_close,
        cpl_event.lock_cleanup] ∧
      w₁.trace.count (cpl_event.db cpl_db_call.destroy) =
        w.trace.count (cpl_event.db cpl_db_call.destroy) + 1 ∧
      (∀ op : cpl_data_op ι κ, cpl_data_call K op w₁ = some (K.CPL_E_NOT_INITIALIZED, w₁)) ∧
      cpl_detach K w₁ = some (K.CPL_E_NOT_INITIALIZED, w₁) ∧
      ∀ (P : cpl_platform) (b₁ : cpl_db_backend_t β ι κ), P.ok = true →
        (∀ db mac user pid program cmdline,
          CPL_IS_OK (b₁.cpl_db_create_session db mac user pid program cmdline).1 = true) →
        (cpl_attach K P (some b₁) w₁).1 = K.CPL_OK ∧
        (cpl_attach K P (some b₁) w₁).2.cpl_initialized = true ∧
        (cpl_attach K P (some b₁) w₁).2.cpl_db_backend = some b₁ := by
  refine ⟨by simp [cpl_detach, hu], ?_⟩
  refine ⟨_, by simp [cpl_detach, h, hb]; rfl, rfl, rfl, rfl, ?_, ?_, ?_, ?_, ?_⟩
  · simp [cpl_world.log]
  · simp [cpl_world.log, List.count_append]
  · intro op
    exact data_call_guard K op _ rfl
  · simp [cpl_detach, cpl_world.log]
  · intro P b₁ hP hb₁
    exact attach_accepted K P b₁ _ rfl rfl hP hb₁

/-- C8 at concrete inputs: `cpl_detach` before any attach, and `cpl_detach`
after a first attach that succeeded. -/
theorem detach_resets_witness :
    world₀.cpl_initialized = false ∧ attached₀.cpl_initialized = true ∧
    attached₀.cpl_db_backend = some (const_backend 0 7) ∧
    cpl_detach cpl_h world₀ = some (cpl_h.CPL_E_NOT_INITIALIZED, world₀) ∧
    ∃ w₁, cpl_detach cpl_h attached₀ = some (cpl_h.CPL_OK, w₁) ∧
      w₁.cpl_initialized = false ∧ w₁.cpl_db_backend = none ∧
      w₁.db = (const_backend 0 7).cpl_db_destroy attached₀.db ∧
      w₁.trace = attached₀.trace ++ [cpl_event.db cpl_db_call.destroy,
        cpl_event.semaphore_close, cpl_event.lock_cleanup] ∧
      w₁.trace.count (cpl_event.db cpl_db_call.destroy) =
        attached₀.trace.count (cpl_event.db cpl_db_call.destroy) + 1 ∧
      (∀ op : cpl_data_op Unit Unit,
        cpl_data_call cpl_h op w₁ = some (cpl_h.CPL_E_NOT_INITIALIZED, w₁)) ∧
      cpl_detach cpl_h w₁ = some (cpl_h.CPL_E_NOT_INITIALIZED, w₁) ∧
      ∀ (P : cpl_platform) (b₁ : cpl_db_backend_t Nat Unit Unit), P.ok = true →
        (∀ db mac user pid program cmdline,
          CPL_IS_OK (b₁.cpl_db_create_session db mac user pid program cmdline).1 = true) →
        (cpl_attach cpl_h P (some b₁) w₁).1 = cpl_h.CPL_OK ∧
        (cpl_attach cpl_h P (some b₁) w₁).2.cpl_initialized = true ∧
        (cpl_attach cpl_h P (some b₁) w₁).2.cpl_db_backend = some b₁ :=
  ⟨rfl, rfl, rfl, detach_resets cpl_h world₀ attached₀ (const_backend 0 7) rfl rfl rfl⟩

/-- C9: the session id the backend produces is not recorded. With a backend
whose `create_session` succeeds and produces the id `7`, `cpl_attach` returns
`CPL_OK`; afterwards `cpl_get_current_session` returns `CPL_OK` and stores
`CPL_NONE`, and `cpl_create_object` passes `CPL_NONE` to the backend as the
creation session. -/
theorem session_id_not_recorded :
    (cpl_attach cpl_h good_platform (some (const_backend 0 7)) world₀).1 = cpl_h.CPL_OK ∧
    attached₀.cpl_initialized = true ∧
    attached₀.trace = [cpl_event.lock_init,
      cpl_event.db (cpl_db_call.create_session none "alice".toList 4242 "/usr/bin/prog".toList
        "prog ".toList),
      cpl_event.semaphore_open] ∧
    ((const_backend 0 7).cpl_db_create_session 0 none "alice".toList 4242
      "/usr/bin/prog".toList "prog ".toList).2.1 = 7 ∧
    attached₀.cpl_session = CPL_NONE ∧
    (cpl_get_current_session cpl_h (some 99) attached₀).map (fun r => (r.1, r.2.1)) =
      some (cpl_h.CPL_OK, some CPL_NONE) ∧
    (cpl_create_object cpl_h (some "o".toList) (some "n".toList) (some "t".toList) CPL_NONE
        (some 0) attached₀).map (fun r => (r.1, r.2.1, r.2.2.trace.getLast?)) =
      some (cpl_h.CPL_S_OBJECT_CREATED, some 7,
        some (cpl_event.db (cpl_db_call.create_object "o".toList "n".toList "t".toList
          CPL_NONE CPL_NONE))) := by
  refine ⟨rfl, rfl, rfl, rfl, rfl, rfl, rfl⟩

/-- C10: when the backend's `add_relation` reports `CPL_S_DUPLICATE_IGNORED`
(a success) with the id of the existing edge, `cpl_add_relation`, attached and
with `from`, `to` and `container` different from `CPL_NONE`, stores that id
and returns `CPL_OK`, not `CPL_S_DUPLICATE_IGNORED`. -/
theorem add_relation_duplicate_returns_ok (K : cpl_codes) (b : cpl_db_backend_t β ι κ)
    (w : cpl_world β ι κ) (from_id to_id : cpl_id_t) (type : Int) (container : cpl_id_t)
    (out_id : Option cpl_id_t)
    (h : w.cpl_initialized = true) (hb : w.cpl_db_backend = some b)
    (hf : from_id ≠ CPL_NONE) (ht : to_id ≠ CPL_NONE) (hc : container ≠ CPL_NONE)
    (hdup : (b.cpl_db_add_relation w.db from_id to_id type container).1 =
      K.CPL_S_DUPLICATE_IGNORED)
    (hs : 0 ≤ K.CPL_S_DUPLICATE_IGNORED) :
    cpl_add_relation K from_id to_id type container out_id w =
      some (K.CPL_OK,
        store out_id (b.cpl_db_add_relation w.db from_id to_id type container).2.1,
        ({ w with db := (b.cpl_db_add_relation w.db from_id to_id type container).2.2 }).log
          (cpl_event.db (cpl_db_call.add_relation from_id to_id type container))) := by
  simp [cpl_add_relation, h, hb, hf, ht, hc, hdup, CPL_IS_OK, hs]

/-- C10 at the failing input: the backend answers `CPL_S_DUPLICATE_IGNORED`
with the existing id `5`; the facade stores `5` and returns `CPL_OK`, which is
another code. -/
theorem add_relation_duplicate_returns_ok_witness :
    attached₁.cpl_initialized = true ∧ attached₁.cpl_db_backend = some (const_backend 1 5) ∧
    (1 : cpl_id_t) ≠ CPL_NONE ∧ (2 : cpl_id_t) ≠ CPL_NONE ∧ (3 : cpl_id_t) ≠ CPL_NONE ∧
    ((const_backend 1 5).cpl_db_add_relation attached₁.db 1 2 0 3).1 =
      cpl_h.CPL_S_DUPLICATE_IGNORED ∧
    0 ≤ cpl_h.CPL_S_DUPLICATE_IGNORED ∧
    cpl_h.CPL_OK ≠ cpl_h.CPL_S_DUPLICATE_IGNORED ∧
    store (some 0) ((const_backend 1 5).cpl_db_add_relation attached₁.db 1 2 0 3).2.1 = some 5 ∧
    cpl_add_relation cpl_h 1 2 0 3 (some 0) attached₁ =
      some (cpl_h.CPL_OK,
        store (some 0) ((const_backend 1 5).cpl_db_add_relation attached₁.db 1 2 0 3).2.1,
        ({ attached₁ with
            db := ((const_backend 1 5).cpl_db_add_relation attached₁.db 1 2 0 3).2.2 }).log
          (cpl_event.db (cpl_db_call.add_relation 1 2 0 3))) :=
  ⟨rfl, rfl, by decide, by decide, by decide, rfl, by decide, by decide, rfl,
    add_relation_duplicate_returns_ok cpl_h (const_backend 1 5) attached₁ 1 2 0 3 (some 0)
      rfl rfl (by decide) (by decide) (by decide) rfl (by decide)⟩

/-! ## Object creation and lookup -/

theorem CPL_IS_OK_of_neg (r : cpl_return_t) (h : r < 0) : CPL_IS_OK r = false := by
  simp [CPL_IS_OK, h]

theorem CPL_IS_OK_of_nonneg (r : cpl_return_t) (h : 0 ≤ r) : CPL_IS_OK r = true := by
  simp [CPL_IS_OK, h]

/-- `cpl_create_object` on an attached library with the three strings present:
one call of the backend, then `CPL_S_OBJECT_CREATED` with the id stored on a
success, and the backend's code with the output cell untouched otherwise. -/
theorem create_object_attached (K : cpl_codes) (b : cpl_db_backend_t β ι κ)
    (w : cpl_world β ι κ) (o n t : c_string) (container : cpl_id_t) (out_id : Option cpl_id_t)
    (h : w.cpl_initialized = true) (hb : w.cpl_db_backend = some b) :
    cpl_create_object K (some o) (some n) (some t) container out_id w =
      some (if CPL_IS_OK (b.cpl_db_create_object w.db o n t container w.cpl_session).1
              then K.CPL_S_OBJECT_CREATED
              else (b.cpl_db_create_object w.db o n t container w.cpl_session).1,
            if CPL_IS_OK (b.cpl_db_create_object w.db o n t container w.cpl_session).1
              then store out_id (b.cpl_db_create_object w.db o n t container w.cpl_session).2.1
              else out_id,
            w.after_call (b.cpl_db_create_object w.db o n t container w.cpl_session).2.2
              (cpl_db_call.create_object o n t container w.cpl_session)) := by
  cases hok : CPL_IS_OK (b.cpl_db_create_object w.db o n t container w.cpl_session).1 <;>
    simp [cpl_create_object, h, hb, cpl_world.after_call, hok]

/-- `cpl_lookup_object` on an attached library with the three strings present:
one call of the backend, then `CPL_OK` with the id stored on a success, and the
backend's code with the output cell untouched otherwise. -/
theorem lookup_object_attached (K : cpl_codes) (b : cpl_db_backend_t β ι κ)
    (w : cpl_world β ι κ) (o n t : c_string) (out_id : Option cpl_id_t)
    (h : w.cpl_initialized = true) (hb : w.cpl_db_backend = some b) :
    cpl_lookup_object K (some o) (some n) (some t) out_id w =
      some (if CPL_IS_OK (b.cpl_db_lookup_object w.db o n t).1 then K.CPL_OK
              else (b.cpl_db_lookup_object w.db o n t).1,
            if CPL_IS_OK (b.cpl_db_lookup_object w.db o n t).1
              then store out_id (b.cpl_db_lookup_object w.db o n t).2.1 else out_id,
            w.after_call (b.cpl_db_lookup_object w.db o n t).2.2
              (cpl_db_call.lookup_object o n t)) := by
  cases hok : CPL_IS_OK (b.cpl_db_lookup_object w.db o n t).1 <;>
    simp [cpl_lookup_object, h, hb, cpl_world.after_call, hok]

/-- When one of the three strings is absent, `cpl_lookup_object` and
`cpl_create_object` on an attached library return `CPL_E_INVALID_ARGUMENT` and
change nothing. -/
theorem lookup_create_null (K : cpl_codes) (w : cpl_world β ι κ)
    (o n t : Option c_string) (container : cpl_id_t) (out_id : Option cpl_id_t)
    (h : w.cpl_initialized = true) (hnull : o = none ∨ n = none ∨ t = none) :
    cpl_lookup_object K o n t out_id w = some (K.CPL_E_INVALID_ARGUMENT, out_id, w) ∧
    cpl_create_object K o n t container out_id w =
      some (K.CPL_E_INVALID_ARGUMENT, out_id, w) := by
  cases o <;> cases n <;> cases t <;> simp_all [cpl_lookup_object, cpl_create_object]

/-- C11: `cpl_create_object`, attached and with originator, name and type
present, calls the backend's `create_object` once, with the container as it
was given (`CPL_NONE` included) and the current session. When the backend
reports any success code the facade returns `CPL_S_OBJECT_CREATED` and stores
the backend's id; when the backend reports a failure (a negative code) the
facade returns that code and writes no id. -/
theorem create_object_result (K : cpl_codes) (b : cpl_db_backend_t β ι κ)
    (w : cpl_world β ι κ) (o n t : c_string) (container : cpl_id_t) (out_id : Option cpl_id_t)
    (h : w.cpl_initialized = true) (hb : w.cpl_db_backend = some b) :
    (0 ≤ (b.cpl_db_create_object w.db o n t container w.cpl_session).1 →
      cpl_create_object K (some o) (some n) (some t) container out_id w =
        some (K.CPL_S_OBJECT_CREATED,
          store out_id (b.cpl_db_create_object w.db o n t container w.cpl_session).2.1,
          w.after_call (b.cpl_db_create_object w.db o n t container w.cpl_session).2.2
            (cpl_db_call.create_object o n t container w.cpl_session))) ∧
    ((b.cpl_db_create_object w.db o n t container w.cpl_session).1 < 0 →
      cpl_create_object K (some o) (some n) (some t) container out_id w =
        some ((b.cpl_db_create_object w.db o n t container w.cpl_session).1, out_id,
          w.after_call (b.cpl_db_create_object w.db o n t container w.cpl_session).2.2
            (cpl_db_call.create_object o n t container w.cpl_session))) := by
  rw [create_object_attached K b w o n t container out_id h hb]
  constructor
  · intro hok
    simp [CPL_IS_OK_of_nonneg _ hok]
  · intro hneg
    simp [CPL_IS_OK_of_neg _ hneg]

/-- C11 at concrete inputs: with a `CPL_NONE` container, a backend that answers
plain success with the id `7` gives `CPL_S_OBJECT_CREATED` and the id `7` in
the output cell; a backend that answers the failure `-3` gives `-3` and leaves
the content `0` of the output cell. -/
theorem create_object_result_witness :
    attached₀.cpl_initialized = true ∧ attached₀.cpl_db_backend = some (const_backend 0 7) ∧
    attached₃.cpl_initialized = true ∧
    attached₃.cpl_db_backend = some (failing_backend (-3)) ∧
    (0 ≤ ((const_backend 0 7).cpl_db_create_object attached₀.db "o".toList "n".toList
      "t".toList CPL_NONE attached₀.cpl_session).1) ∧
    ((failing_backend (-3)).cpl_db_create_object attached₃.db "o".toList "n".toList
      "t".toList CPL_NONE attached₃.cpl_session).1 < 0 ∧
    cpl_create_object cpl_h (some "o".toList) (some "n".toList) (some "t".toList) CPL_NONE
        (some 0) attached₀ =
      some (cpl_h.CPL_S_OBJECT_CREATED, some 7,
        attached₀.after_call 2
          (cpl_db_call.create_object "o".toList "n".toList "t".toList CPL_NONE CPL_NONE)) ∧
    cpl_create_object cpl_h (some "o".toList) (some "n".toList) (some "t".toList) CPL_NONE
        (some 0) attached₃ =
      some (-3, some 0,
        attached₃.after_call 2
          (cpl_db_call.create_object "o".toList "n".toList "t".toList CPL_NONE CPL_NONE)) :=
  ⟨rfl, rfl, rfl, rfl, by decide, by decide,
    (create_object_result cpl_h (const_backend 0 7) attached₀ "o".toList "n".toList "t".toList
      CPL_NONE (some 0) rfl rfl).1 (by decide),
    (create_object_result cpl_h (failing_backend (-3)) attached₃ "o".toList "n".toList
      "t".toList CPL_NONE (some 0) rfl rfl).2 (by decide)⟩

/-! ## Lookup or create -/

/-- Lookup succeeded: `cpl_lookup_or_create_object` returns `CPL_OK` with the
found id; the calls are the wait, the backend's lookup, the post. -/
theorem lookup_or_create_found (K : cpl_codes) (b : cpl_db_backend_t β ι κ)
    (w : cpl_world β ι κ) (o n t : c_string) (container : cpl_id_t) (out_id : Option cpl_id_t)
    (h : w.cpl_initialized = true) (hb : w.cpl_db_backend = some b)
    (hok : 0 ≤ K.CPL_OK) (hnf : K.CPL_E_NOT_FOUND < 0)
    (hL : 0 ≤ (b.cpl_db_lookup_object w.db o n t).1) :
    cpl_lookup_or_create_object K (some o) (some n) (some t) container out_id w =
      some (K.CPL_OK, store out_id (b.cpl_db_lookup_object w.db o n t).2.1,
        (((w.log cpl_event.semaphore_wait).after_call (b.cpl_db_lookup_object w.db o n t).2.2
          (cpl_db_call.lookup_object o n t)).log cpl_event.semaphore_post)) := by
  have hne : K.CPL_OK ≠ K.CPL_E_NOT_FOUND := by
    intro e
    rw [e] at hok
    exact absurd hnf (not_lt.mpr hok)
  have hw : (w.log cpl_event.semaphore_wait).db = w.db := rfl
  unfold cpl_lookup_or_create_object
  simp only [h, Bool.not_true, Bool.false_eq_true, if_false]
  rw [lookup_object_attached K b (w.log cpl_event.semaphore_wait) o n t out_id h hb, hw]
  simp [CPL_IS_OK_of_nonneg _ hL, hne]

/-- Lookup failed with a code other than `CPL_E_NOT_FOUND`: that code is
returned, the output cell is untouched and `create_object` is not called. -/
theorem lookup_or_create_lookup_failed (K : cpl_codes) (b : cpl_db_backend_t β ι κ)
    (w : cpl_world β ι κ) (o n t : c_string) (container : cpl_id_t) (out_id : Option cpl_id_t)
    (h : w.cpl_initialized = true) (hb : w.cpl_db_backend = some b)
    (hL : (b.cpl_db_lookup_object w.db o n t).1 < 0)
    (hne : (b.cpl_db_lookup_object w.db o n t).1 ≠ K.CPL_E_NOT_FOUND) :
    cpl_lookup_or_create_object K (some o) (some n) (some t) container out_id w =
      some ((b.cpl_db_lookup_object w.db o n t).1, out_id,
        (((w.log cpl_event.semaphore_wait).after_call (b.cpl_db_lookup_object w.db o n t).2.2
          (cpl_db_call.lookup_object o n t)).log cpl_event.semaphore_post)) := by
  have hw : (w.log cpl_event.semaphore_wait).db = w.db := rfl
  unfold cpl_lookup_or_create_object
  simp only [h, Bool.not_true, Bool.false_eq_true, if_false]
  rw [lookup_object_attached K b (w.log cpl_event.semaphore_wait) o n t out_id h hb, hw]
  simp [CPL_IS_OK_of_neg _ hL, hne]

/-- Lookup answered `CPL_E_NOT_FOUND`: the backend's `create_object` is called
once, on the store the lookup left; a success gives `CPL_S_OBJECT_CREATED` with
the new id, a failure gives the failure code and leaves the output cell. -/
theorem lookup_or_create_not_found (K : cpl_codes) (b : cpl_db_backend_t β ι κ)
    (w : cpl_world β ι κ) (o n t : c_string) (container : cpl_id_t) (out_id : Option cpl_id_t)
    (h : w.cpl_initialized = true) (hb : w.cpl_db_backend = some b)
    (hnf : K.CPL_E_NOT_FOUND < 0)
    (hL : (b.cpl_db_lookup_object w.db o n t).1 = K.CPL_E_NOT_FOUND) :
    cpl_lookup_or_create_object K (some o) (some n) (some t) container out_id w =
      some (
        if CPL_IS_OK (b.cpl_db_create_object (b.cpl_db_lookup_object w.db o n t).2.2 o n t
            container w.cpl_session).1 then K.CPL_S_OBJECT_CREATED
        else (b.cpl_db_create_object (b.cpl_db_lookup_object w.db o n t).2.2 o n t
            container w.cpl_session).1,
        if CPL_IS_OK (b.cpl_db_create_object (b.cpl_db_lookup_object w.db o n t).2.2 o n t
            container w.cpl_session).1 then
          store out_id (b.cpl_db_create_object (b.cpl_db_lookup_object w.db o n t).2.2 o n t
            container w.cpl_session).2.1
        else out_id,
        ((((w.log cpl_event.semaphore_wait).after_call (b.cpl_db_lookup_object w.db o n t).2.2
          (cpl_db_call.lookup_object o n t)).after_call
            (b.cpl_db_create_object (b.cpl_db_lookup_object w.db o n t).2.2 o n t
              container w.cpl_session).2.2
            (cpl_db_call.create_object o n t container w.cpl_session)).log
          cpl_event.semaphore_post)) := by
  have hw : (w.log cpl_event.semaphore_wait).db = w.db := rfl
  have hLneg : (b.cpl_db_lookup_object w.db o n t).1 < 0 := by rw [hL]; exact hnf
  have hnok := CPL_IS_OK_of_neg _ hLneg
  unfold cpl_lookup_or_create_object
  simp only [h, Bool.not_true, Bool.false_eq_true, if_false]
  rw [lookup_object_attached K b (w.log cpl_event.semaphore_wait) o n t out_id h hb, hw]
  simp only [hnok, Bool.false_eq_true, if_false]
  rw [if_neg (by simp [hL])]
  rw [create_object_attached K b ((w.log cpl_event.semaphore_wait).after_call
    (b.cpl_db_lookup_object w.db o n t).2.2 (cpl_db_call.lookup_object o n t)) o n t container
    out_id h hb]
  cases hC : CPL_IS_OK (b.cpl_db_create_object (b.cpl_db_lookup_object w.db o n t).2.2 o n t
      container w.cpl_session).1 <;>
    simp [cpl_world.after_call, cpl_world.log, hC]

/-- An absent originator, name or type: `cpl_lookup_or_create_object` returns
`CPL_E_INVALID_ARGUMENT`; the only calls are the wait and the post. -/
theorem lookup_or_create_null (K : cpl_codes) (w : cpl_world β ι κ)
    (o n t : Option c_string) (container : cpl_id_t) (out_id : Option cpl_id_t)
    (h : w.cpl_initialized = true) (hinv : K.CPL_E_INVALID_ARGUMENT < 0)
    (hnull : o = none ∨ n = none ∨ t = none) :
    cpl_lookup_or_create_object K o n t container out_id w =
      some (K.CPL_E_INVALID_ARGUMENT, out_id,
        (w.log cpl_event.semaphore_wait).log cpl_event.semaphore_post) := by
  unfold cpl_lookup_or_create_object
  simp only [h, Bool.not_true, Bool.false_eq_true, if_false]
  rw [(lookup_create_null K (w.log cpl_event.semaphore_wait) o n t container out_id h hnull).1]
  simp only
  rw [(lookup_create_null K (w.log cpl_event.semaphore_wait) o n t container out_id h hnull).2]
  simp [CPL_IS_OK_of_neg _ hinv]

/-- C12: `cpl_lookup_or_create_object` on an attached library, where failures
are negative codes and `CPL_OK` is not. With `L` the answer of the backend's
`lookup_object` and `C` the answer of its `create_object` on the store the
lookup left: if `L` is a success the result is `CPL_OK` with the found id and
`create_object` is not called; if `L` is `CPL_E_NOT_FOUND` and `C` is a success
the result is `CPL_S_OBJECT_CREATED` with the new id; if `L` is
`CPL_E_NOT_FOUND` and `C` is a failure the result is that failure; if `L` is a
failure other than `CPL_E_NOT_FOUND` the result is `L` and `create_object` is
not called; and if the originator, the name or the type is absent the result is
`CPL_E_INVALID_ARGUMENT` and the backend is not called at all. -/
theorem lookup_or_create_result (K : cpl_codes) (b : cpl_db_backend_t β ι κ)
    (w : cpl_world β ι κ) (o n t : c_string) (o₁ n₁ t₁ : Option c_string)
    (container : cpl_id_t) (out_id : Option cpl_id_t)
    (h : w.cpl_initialized = true) (hb : w.cpl_db_backend = some b)
    (hok : 0 ≤ K.CPL_OK) (hnf : K.CPL_E_NOT_FOUND < 0) (hinv : K.CPL_E_INVALID_ARGUMENT < 0) :
    (0 ≤ (b.cpl_db_lookup_object w.db o n t).1 →
      cpl_lookup_or_create_object K (some o) (some n) (some t) container out_id w =
        some (K.CPL_OK, store out_id (b.cpl_db_lookup_object w.db o n t).2.1,
          (((w.log cpl_event.semaphore_wait).after_call (b.cpl_db_lookup_object w.db o n t).2.2
            (cpl_db_call.lookup_object o n t)).log cpl_event.semaphore_post))) ∧
    ((b.cpl_db_lookup_object w.db o n t).1 = K.CPL_E_NOT_FOUND →
      0 ≤ (b.cpl_db_create_object (b.cpl_db_lookup_object w.db o n t).2.2 o n t container
        w.cpl_session).1 →
      cpl_lookup_or_create_object K (some o) (some n) (some t) container out_id w =
        some (K.CPL_S_OBJECT_CREATED,
          store out_id (b.cpl_db_create_object (b.cpl_db_lookup_object w.db o n t).2.2 o n t
            container w.cpl_session).2.1,
          ((((w.log cpl_event.semaphore_wait).after_call
            (b.cpl_db_lookup_object w.db o n t).2.2 (cpl_db_call.lookup_object o n t)).after_call
              (b.cpl_db_create_object (b.cpl_db_lookup_object w.db o n t).2.2 o n t
                container w.cpl_session).2.2
              (cpl_db_call.create_object o n t container w.cpl_session)).log
            cpl_event.semaphore_post))) ∧
    ((b.cpl_db_lookup_object w.db o n t).1 = K.CPL_E_NOT_FOUND →
      (b.cpl_db_create_object (b.cpl_db_lookup_object w.db o n t).2.2 o n t container
        w.cpl_session).1 < 0 →
      cpl_lookup_or_create_object K (some o) (some n) (some t) container out_id w =
        some ((b.cpl_db_create_object (b.cpl_db_lookup_object w.db o n t).2.2 o n t
            container w.cpl_session).1, out_id,
          ((((w.log cpl_event.semaphore_wait).after_call
            (b.cpl_db_lookup_object w.db o n t).2.2 (cpl_db_call.lookup_object o n t)).after_call
              (b.cpl_db_create_object (b.cpl_db_lookup_object w.db o n t).2.2 o n t
                container w.cpl_session).2.2
              (cpl_db_call.create_object o n t container w.cpl_session)).log
            cpl_event.semaphore_post))) ∧
    ((b.cpl_db_lookup_object w.db o n t).1 < 0 →
      (b.cpl_db_lookup_object w.db o n t).1 ≠ K.CPL_E_NOT_FOUND →
      cpl_lookup_or_create_object K (some o) (some n) (some t) container out_id w =
        some ((b.cpl_db_lookup_object w.db o n t).1, out_id,
          (((w.log cpl_event.semaphore_wait).after_call (b.cpl_db_lookup_object w.db o n t).2.2
            (cpl_db_call.lookup_object o n t)).log cpl_event.semaphore_post))) ∧
    ((o₁ = none ∨ n₁ = none ∨ t₁ = none) →
      cpl_lookup_or_create_object K o₁ n₁ t₁ container out_id w =
        some (K.CPL_E_INVALID_ARGUMENT, out_id,
          (w.log cpl_event.semaphore_wait).log cpl_event.semaphore_post)) := by
  refine ⟨?_, ?_, ?_, ?_, ?_⟩
  · exact lookup_or_create_found K b w o n t container out_id h hb hok hnf
  · intro hL hC
    rw [lookup_or_create_not_found K b w o n t container out_id h hb hnf hL]
    simp [CPL_IS_OK_of_nonneg _ hC]
  · intro hL hC
    rw [lookup_or_create_not_found K b w o n t container out_id h hb hnf hL]
    simp [CPL_IS_OK_of_neg _ hC]
  · exact lookup_or_create_lookup_failed K b w o n t container out_id h hb
  · exact lookup_or_create_null K w o₁ n₁ t₁ container out_id h hinv

/-- C12 at concrete inputs: with the storing backend on an empty store the
lookup answers `CPL_E_NOT_FOUND`, the creation succeeds, and the result is
`CPL_S_OBJECT_CREATED` with the new id `2`; with an absent name the result is
`CPL_E_INVALID_ARGUMENT`. -/
theorem lookup_or_create_result_witness :
    attached₂.cpl_initialized = true ∧ attached₂.cpl_db_backend = some (mem_backend cpl_h) ∧
    0 ≤ cpl_h.CPL_OK ∧ cpl_h.CPL_E_NOT_FOUND < 0 ∧ cpl_h.CPL_E_INVALID_ARGUMENT < 0 ∧
    ((mem_backend cpl_h).cpl_db_lookup_object attached₂.db "o".toList "n".toList
      "t".toList).1 = cpl_h.CPL_E_NOT_FOUND ∧
    (cpl_lookup_or_create_object cpl_h (some "o".toList) (some "n".toList) (some "t".toList)
        CPL_NONE (some 0) attached₂).map (fun r => (r.1, r.2.1, r.2.2.trace.drop 3)) =
      some (cpl_h.CPL_S_OBJECT_CREATED, some 2,
        [cpl_event.semaphore_wait,
          cpl_event.db (cpl_db_call.lookup_object "o".toList "n".toList "t".toList),
          cpl_event.db (cpl_db_call.create_object "o".toList "n".toList "t".toList CPL_NONE
            CPL_NONE),
          cpl_event.semaphore_post]) ∧
    cpl_lookup_or_create_object cpl_h (some "o".toList) none (some "t".toList) CPL_NONE
        (some 0) attached₂ =
      some (cpl_h.CPL_E_INVALID_ARGUMENT, some 0,
        (attached₂.log cpl_event.semaphore_wait).log cpl_event.semaphore_post) :=
  ⟨rfl, rfl, by decide, by decide, by decide, rfl,
    by
      rw [(lookup_or_create_result cpl_h (mem_backend cpl_h) attached₂ "o".toList "n".toList
        "t".toList (some "o".toList) none (some "t".toList) CPL_NONE (some 0) rfl rfl
        (by decide) (by decide) (by decide)).2.1 rfl (by decide)]
      rfl,
    (lookup_or_create_result cpl_h (mem_backend cpl_h) attached₂ "o".toList "n".toList
      "t".toList (some "o".toList) none (some "t".toList) CPL_NONE (some 0) rfl rfl
      (by decide) (by decide) (by decide)).2.2.2.2 (Or.inr (Or.inl rfl))⟩

/-- Calls of the backend are neither a wait nor a post on the semaphore. -/
theorem count_sem_in_db_calls (calls : List cpl_db_call) :
    (calls.map cpl_event.db).count cpl_event.semaphore_wait = 0 ∧
    (calls.map cpl_event.db).count cpl_event.semaphore_post = 0 := by
  induction calls with
  | nil => simp
  | cons c cs ih => simp [List.count_cons, ih]

/-- The trace of `cpl_lookup_or_create_object` on an attached library: one
wait, then at most two calls of the backend, then one post. -/
theorem lookup_or_create_trace (K : cpl_codes) (b : cpl_db_backend_t β ι κ)
    (w : cpl_world β ι κ) (o n t : Option c_string) (container : cpl_id_t)
    (out_id : Option cpl_id_t)
    (h : w.cpl_initialized = true) (hb : w.cpl_db_backend = some b) :
    ∃ r, ∃ calls : List cpl_db_call, cpl_lookup_or_create_object K o n t container out_id w = some r ∧
      calls.length ≤ 2 ∧
      r.2.2.trace = w.trace ++ [cpl_event.semaphore_wait] ++ calls.map cpl_event.db ++
        [cpl_event.semaphore_post] := by
  by_cases hnull : o = none ∨ n = none ∨ t = none
  · have e := lookup_create_null K (w.log cpl_event.semaphore_wait) o n t container out_id h hnull
    unfold cpl_lookup_or_create_object
    simp only [h, Bool.not_true, Bool.false_eq_true, if_false]
    rw [e.1]
    by_cases hne : K.CPL_E_INVALID_ARGUMENT ≠ K.CPL_E_NOT_FOUND
    · simp only [if_pos hne]
      exact ⟨_, [], rfl, by simp, by simp [cpl_world.log]⟩
    · simp only [if_neg hne]
      rw [e.2]
      exact ⟨_, [], rfl, by simp, by simp [cpl_world.log]⟩
  · obtain ⟨o, rfl⟩ : ∃ x, o = some x := by
      cases o with
      | none => exact absurd (Or.inl rfl) hnull
      | some x => exact ⟨x, rfl⟩
    obtain ⟨n, rfl⟩ : ∃ x, n = some x := by
      cases n with
      | none => exact absurd (Or.inr (Or.inl rfl)) hnull
      | some x => exact ⟨x, rfl⟩
    obtain ⟨t, rfl⟩ : ∃ x, t = some x := by
      cases t with
      | none => exact absurd (Or.inr (Or.inr rfl)) hnull
      | some x => exact ⟨x, rfl⟩
    have hw : (w.log cpl_event.semaphore_wait).db = w.db := rfl
    unfold cpl_lookup_or_create_object
    simp only [h, Bool.not_true, Bool.false_eq_true, if_false]
    rw [lookup_object_attached K b (w.log cpl_event.semaphore_wait) o n t out_id h hb, hw]
    by_cases hne : (if CPL_IS_OK (b.cpl_db_lookup_object w.db o n t).1 = true then K.CPL_OK
        else (b.cpl_db_lookup_object w.db o n t).1) ≠ K.CPL_E_NOT_FOUND
    · simp only [if_pos hne]
      exact ⟨_, [cpl_db_call.lookup_object o n t], rfl, by simp,
        by simp [cpl_world.log, cpl_world.after_call]⟩
    · simp only [if_neg hne]
      rw [create_object_attached K b ((w.log cpl_event.semaphore_wait).after_call
        (b.cpl_db_lookup_object w.db o n t).2.2 (cpl_db_call.lookup_object o n t)) o n t
        container _ h hb]
      exact ⟨_, [cpl_db_call.lookup_object o n t,
          cpl_db_call.create_object o n t container w.cpl_session], rfl, by simp,
        by simp [cpl_world.log, cpl_world.after_call]⟩

/-- C13: `cpl_lookup_or_create_object` leaves the semaphore as it found it.
On a world `u` that is not attached it returns with the trace unchanged: the
semaphore is not waited on. On an attached world `w` the calls it adds to the
trace are one wait, then the calls of the backend (at most two), then one
post: the wait and the post each occur once more than before, and every
backend call lies between them, whatever the arguments and the answers of the
backend are. -/
theorem lookup_or_create_lock_balanced (K : cpl_codes) (b : cpl_db_backend_t β ι κ)
    (u w : cpl_world β ι κ) (o n t : Option c_string) (container : cpl_id_t)
    (out_id : Option cpl_id_t)
    (hu : u.cpl_initialized = false)
    (h : w.cpl_initialized = true) (hb : w.cpl_db_backend = some b) :
    (∃ r, cpl_lookup_or_create_object K o n t container out_id u = some r ∧
      r.2.2.trace = u.trace) ∧
    ∃ r, ∃ calls : List cpl_db_call, cpl_lookup_or_create_object K o n t container out_id w = some r ∧
      calls.length ≤ 2 ∧
      r.2.2.trace = w.trace ++ [cpl_event.semaphore_wait] ++ calls.map cpl_event.db ++
        [cpl_event.semaphore_post] ∧
      r.2.2.trace.count cpl_event.semaphore_wait =
        w.trace.count cpl_event.semaphore_wait + 1 ∧
      r.2.2.trace.count cpl_event.semaphore_post =
        w.trace.count cpl_event.semaphore_post + 1 := by
  constructor
  · exact ⟨(K.CPL_E_NOT_INITIALIZED, out_id, u), by simp [cpl_lookup_or_create_object, hu],
      rfl⟩
  · obtain ⟨r, calls, hr, hlen, htr⟩ := lookup_or_create_trace K b w o n t container out_id h hb
    refine ⟨r, calls, hr, hlen, htr, ?_, ?_⟩
    · rw [htr]
      simp [List.count_append, (count_sem_in_db_calls calls).1]
    · rw [htr]
      simp [List.count_append, (count_sem_in_db_calls calls).2]

/-- C13 at concrete inputs: before any attach, and on the storing backend with
an empty store (lookup, then creation). -/
theorem lookup_or_create_lock_balanced_witness :
    world₀.cpl_initialized = false ∧
    attached₂.cpl_initialized = true ∧ attached₂.cpl_db_backend = some (mem_backend cpl_h) ∧
    (∃ r, cpl_lookup_or_create_object cpl_h (some "o".toList) (some "n".toList)
        (some "t".toList) CPL_NONE (some 0) world₀ = some r ∧ r.2.2.trace = world₀.trace) ∧
    ∃ r, ∃ calls : List cpl_db_call, cpl_lookup_or_create_object cpl_h (some "o".toList) (some "n".toList)
        (some "t".toList) CPL_NONE (some 0) attached₂ = some r ∧
      calls.length ≤ 2 ∧
      r.2.2.trace = attached₂.trace ++ [cpl_event.semaphore_wait] ++ calls.map cpl_event.db ++
        [cpl_event.semaphore_post] ∧
      r.2.2.trace.count cpl_event.semaphore_wait =
        attached₂.trace.count cpl_event.semaphore_wait + 1 ∧
      r.2.2.trace.count cpl_event.semaphore_post =
        attached₂.trace.count cpl_event.semaphore_post + 1 :=
  ⟨rfl, rfl, rfl,
    (lookup_or_create_lock_balanced cpl_h (const_backend 0 7) world₀ attached₀
      (some "o".toList) (some "n".toList) (some "t".toList) CPL_NONE (some 0) rfl rfl rfl).1,
    (lookup_or_create_lock_balanced cpl_h (mem_backend cpl_h) (cpl_world_init mem_store₀)
      attached₂ (some "o".toList) (some "n".toList) (some "t".toList) CPL_NONE (some 0)
      rfl rfl rfl).2⟩

/-- C14: two consecutive calls of `cpl_lookup_or_create_object` with the same
key on an attached library, against a backend whose `lookup_object` answers
`CPL_E_NOT_FOUND` before the creation and, after a `create_object` that
succeeded with the id `i`, answers a success with that id `i`. The first call
returns `CPL_S_OBJECT_CREATED` with `i`, the second returns `CPL_OK` with the
same `i`, and the calls of the two together are: wait, lookup, create, post,
wait, lookup, post, so that `create_object` is invoked once in total. -/
theorem lookup_or_create_idempotent (K : cpl_codes) (b : cpl_db_backend_t β ι κ)
    (w : cpl_world β ι κ) (o n t : c_string) (container : cpl_id_t) (v₀ v₁ i x : cpl_id_t)
    (db₁ db₂ db₃ : β) (rc rl : cpl_return_t)
    (h : w.cpl_initialized = true) (hb : w.cpl_db_backend = some b)
    (hok : 0 ≤ K.CPL_OK) (hnf : K.CPL_E_NOT_FOUND < 0)
    (h1 : b.cpl_db_lookup_object w.db o n t = (K.CPL_E_NOT_FOUND, x, db₁))
    (h2 : b.cpl_db_create_object db₁ o n t container w.cpl_session = (rc, i, db₂))
    (hrc : 0 ≤ rc)
    (h3 : b.cpl_db_lookup_object db₂ o n t = (rl, i, db₃)) (hrl : 0 ≤ rl) :
    ∃ w₁ w₂,
      cpl_lookup_or_create_object K (some o) (some n) (some t) container (some v₀) w =
        some (K.CPL_S_OBJECT_CREATED, some i, w₁) ∧
      cpl_lookup_or_create_object K (some o) (some n) (some t) container (some v₁) w₁ =
        some (K.CPL_OK, some i, w₂) ∧
      w₂.trace = w.trace ++
        [cpl_event.semaphore_wait, cpl_event.db (cpl_db_call.lookup_object o n t),
          cpl_event.db (cpl_db_call.create_object o n t container w.cpl_session),
          cpl_event.semaphore_post,
          cpl_event.semaphore_wait, cpl_event.db (cpl_db_call.lookup_object o n t),
          cpl_event.semaphore_post] ∧
      w₂.trace.count (cpl_event.db (cpl_db_call.create_object o n t container w.cpl_session)) =
        w.trace.count (cpl_event.db (cpl_db_call.create_object o n t container w.cpl_session))
          + 1 := by
  have e1 := lookup_or_create_not_found K b w o n t container (some v₀) h hb hnf
    (by rw [h1])
  simp only [h1, h2, CPL_IS_OK_of_nonneg _ hrc, if_true, store, Option.map_some'] at e1
  have e2 := lookup_or_create_found K b _ o n t container (some v₁)
    (show ((((w.log cpl_event.semaphore_wait).after_call db₁
      (cpl_db_call.lookup_object o n t)).after_call db₂
      (cpl_db_call.create_object o n t container w.cpl_session)).log
      cpl_event.semaphore_post).cpl_initialized = true from h)
    (show ((((w.log cpl_event.semaphore_wait).after_call db₁
      (cpl_db_call.lookup_object o n t)).after_call db₂
      (cpl_db_call.create_object o n t container w.cpl_session)).log
      cpl_event.semaphore_post).cpl_db_backend = some b from hb) hok hnf
    (by
      show 0 ≤ (b.cpl_db_lookup_object db₂ o n t).1
      rw [h3]; exact hrl)
  have hdb : ((((w.log cpl_event.semaphore_wait).after_call db₁
      (cpl_db_call.lookup_object o n t)).after_call db₂
      (cpl_db_call.create_object o n t container w.cpl_session)).log
      cpl_event.semaphore_post).db = db₂ := rfl
  rw [hdb, h3] at e2
  refine ⟨_, _, e1, e2, ?_, ?_⟩
  · simp [cpl_world.after_call, cpl_world.log]
  · simp [cpl_world.after_call, cpl_world.log, List.count_append, List.count_cons]

/-- C14 at a concrete input: the storing backend on an empty store; the id of
both calls is `2`. -/
theorem lookup_or_create_idempotent_witness :
    attached₂.cpl_initialized = true ∧ attached₂.cpl_db_backend = some (mem_backend cpl_h) ∧
    0 ≤ cpl_h.CPL_OK ∧ cpl_h.CPL_E_NOT_FOUND < 0 ∧
    ∃ w₁ w₂,
      cpl_lookup_or_create_object cpl_h (some "o".toList) (some "n".toList) (some "t".toList)
          CPL_NONE (some 0) attached₂ = some (cpl_h.CPL_S_OBJECT_CREATED, some 2, w₁) ∧
      cpl_lookup_or_create_object cpl_h (some "o".toList) (some "n".toList) (some "t".toList)
          CPL_NONE (some 0) w₁ = some (cpl_h.CPL_OK, some 2, w₂) ∧
      w₂.trace = attached₂.trace ++
        [cpl_event.semaphore_wait,
          cpl_event.db (cpl_db_call.lookup_object "o".toList "n".toList "t".toList),
          cpl_event.db (cpl_db_call.create_object "o".toList "n".toList "t".toList CPL_NONE
            attached₂.cpl_session),
          cpl_event.semaphore_post,
          cpl_event.semaphore_wait,
          cpl_event.db (cpl_db_call.lookup_object "o".toList "n".toList "t".toList),
          cpl_event.semaphore_post] ∧
      w₂.trace.count (cpl_event.db (cpl_db_call.create_object "o".toList "n".toList
          "t".toList CPL_NONE attached₂.cpl_session)) =
        attached₂.trace.count (cpl_event.db (cpl_db_call.create_object "o".toList "n".toList
          "t".toList CPL_NONE attached₂.cpl_session)) + 1 :=
  ⟨rfl, rfl, by decide, by decide,
    lookup_or_create_idempotent cpl_h (mem_backend cpl_h) attached₂ "o".toList "n".toList
      "t".toList CPL_NONE 0 0 2 CPL_NONE
      attached₂.db
      { attached₂.db with
        objects := (("o".toList, "n".toList, "t".toList), 2) :: attached₂.db.objects
        next_id := 3 }
      { attached₂.db with
        objects := (("o".toList, "n".toList, "t".toList), 2) :: attached₂.db.objects
        next_id := 3 }
      0 0 rfl rfl (by decide) (by decide) rfl rfl (by decide) rfl (by decide)⟩

/-! ## Normalised results and argument checks -/

/-- C15, as stated, fails: the facade returns `CPL_S_NO_DATA` although the
backend did not answer `CPL_E_NOT_FOUND` and `CPL_L_NO_FAIL` is not set, namely
when the backend itself answers `CPL_S_NO_DATA`, which is passed through. -/
theorem lookup_object_ext_passes_no_data :
    attached₄.cpl_initialized = true ∧ attached₄.cpl_db_backend = some (const_backend 2 9) ∧
    ((const_backend 2 9).cpl_db_lookup_object_ext attached₄.db "o".toList "n".toList
      "t".toList 0 () ()).1 = cpl_h.CPL_S_NO_DATA ∧
    ((const_backend 2 9).cpl_db_lookup_object_ext attached₄.db "o".toList "n".toList
      "t".toList 0 () ()).1 ≠ cpl_h.CPL_E_NOT_FOUND ∧
    Int.land 0 cpl_h.CPL_L_NO_FAIL ≠ cpl_h.CPL_L_NO_FAIL ∧
    (cpl_lookup_object_ext cpl_h (some "o".toList) (some "n".toList) (some "t".toList) 0
        (some ()) () attached₄).map (fun x => x.1) = some cpl_h.CPL_S_NO_DATA ∧
    ¬ ((cpl_lookup_object_ext cpl_h (some "o".toList) (some "n".toList) (some "t".toList) 0
          (some ()) () attached₄).map (fun x => x.1) = some cpl_h.CPL_S_NO_DATA ↔
        (((const_backend 2 9).cpl_db_lookup_object_ext attached₄.db "o".toList "n".toList
          "t".toList 0 () ()).1 = cpl_h.CPL_E_NOT_FOUND ∧
          Int.land 0 cpl_h.CPL_L_NO_FAIL = cpl_h.CPL_L_NO_FAIL)) := by
  refine ⟨rfl, rfl, rfl, by decide, by decide, rfl, ?_⟩
  intro hiff
  exact absurd (hiff.mp rfl).2 (by decide)

/-- C15, amended: `cpl_lookup_object_ext`, attached and with originator, name,
type and callback present, calls the backend once, and with `r` the backend's
code: if `r` is `CPL_E_NOT_FOUND` and `flags & CPL_L_NO_FAIL == CPL_L_NO_FAIL`
it returns `CPL_S_NO_DATA`; for every other combination of `r` and `flags` it
returns `r`, so `CPL_E_NOT_FOUND` stays `CPL_E_NOT_FOUND` when the flag is not
fully set; hence the result is `CPL_S_NO_DATA` exactly when `r` is
`CPL_E_NOT_FOUND` with the flag set or `r` is itself `CPL_S_NO_DATA`. -/
theorem lookup_object_ext_result (K : cpl_codes) (b : cpl_db_backend_t β ι κ)
    (w : cpl_world β ι κ) (o n t : c_string) (flags : Int) (it : ι) (ctx : κ)
    (h : w.cpl_initialized = true) (hb : w.cpl_db_backend = some b) :
    ((b.cpl_db_lookup_object_ext w.db o n t flags it ctx).1 = K.CPL_E_NOT_FOUND →
      Int.land flags K.CPL_L_NO_FAIL = K.CPL_L_NO_FAIL →
      cpl_lookup_object_ext K (some o) (some n) (some t) flags (some it) ctx w =
        some (K.CPL_S_NO_DATA,
          w.after_call (b.cpl_db_lookup_object_ext w.db o n t flags it ctx).2
            (cpl_db_call.lookup_object_ext o n t flags))) ∧
    (¬ ((b.cpl_db_lookup_object_ext w.db o n t flags it ctx).1 = K.CPL_E_NOT_FOUND ∧
        Int.land flags K.CPL_L_NO_FAIL = K.CPL_L_NO_FAIL) →
      cpl_lookup_object_ext K (some o) (some n) (some t) flags (some it) ctx w =
        some ((b.cpl_db_lookup_object_ext w.db o n t flags it ctx).1,
          w.after_call (b.cpl_db_lookup_object_ext w.db o n t flags it ctx).2
            (cpl_db_call.lookup_object_ext o n t flags))) ∧
    ((b.cpl_db_lookup_object_ext w.db o n t flags it ctx).1 = K.CPL_E_NOT_FOUND →
      Int.land flags K.CPL_L_NO_FAIL ≠ K.CPL_L_NO_FAIL →
      cpl_lookup_object_ext K (some o) (some n) (some t) flags (some it) ctx w =
        some (K.CPL_E_NOT_FOUND,
          w.after_call (b.cpl_db_lookup_object_ext w.db o n t flags it ctx).2
            (cpl_db_call.lookup_object_ext o n t flags))) ∧
    ((cpl_lookup_object_ext K (some o) (some n) (some t) flags (some it) ctx w).map
        (fun x => x.1) = some K.CPL_S_NO_DATA ↔
      (((b.cpl_db_lookup_object_ext w.db o n t flags it ctx).1 = K.CPL_E_NOT_FOUND ∧
          Int.land flags K.CPL_L_NO_FAIL = K.CPL_L_NO_FAIL) ∨
        (b.cpl_db_lookup_object_ext w.db o n t flags it ctx).1 = K.CPL_S_NO_DATA)) := by
  refine ⟨?_, ?_, ?_, ?_⟩
  · intro h1 h2
    simp [cpl_lookup_object_ext, h, hb, h1, h2, cpl_world.after_call]
  · intro h1
    simp only [cpl_lookup_object_ext, h, hb, cpl_world.after_call]
    simp [if_neg h1]
  · intro h1 h2
    simp [cpl_lookup_object_ext, h, hb, h1, h2, cpl_world.after_call]
  · by_cases hA : (b.cpl_db_lookup_object_ext w.db o n t flags it ctx).1 = K.CPL_E_NOT_FOUND ∧
        Int.land flags K.CPL_L_NO_FAIL = K.CPL_L_NO_FAIL
    · simp only [cpl_lookup_object_ext, h, hb]
      simp [if_pos hA, hA.1, hA.2]
    · simp only [cpl_lookup_object_ext, h, hb]
      simp [if_neg hA, hA]

/-- The amended C15 at concrete inputs: the storing backend on an empty store answers
`CPL_E_NOT_FOUND`; with the flags `3` (which contain `CPL_L_NO_FAIL`) the
facade returns `CPL_S_NO_DATA`, with the flags `2` it returns
`CPL_E_NOT_FOUND`. -/
theorem lookup_object_ext_result_witness :
    attached₂.cpl_initialized = true ∧ attached₂.cpl_db_backend = some (mem_backend cpl_h) ∧
    ((mem_backend cpl_h).cpl_db_lookup_object_ext attached₂.db "o".toList "n".toList
      "t".toList 3 () ()).1 = cpl_h.CPL_E_NOT_FOUND ∧
    Int.land 3 cpl_h.CPL_L_NO_FAIL = cpl_h.CPL_L_NO_FAIL ∧
    Int.land 2 cpl_h.CPL_L_NO_FAIL ≠ cpl_h.CPL_L_NO_FAIL ∧
    cpl_lookup_object_ext cpl_h (some "o".toList) (some "n".toList) (some "t".toList) 3
        (some ()) () attached₂ =
      some (cpl_h.CPL_S_NO_DATA,
        attached₂.after_call attached₂.db
          (cpl_db_call.lookup_object_ext "o".toList "n".toList "t".toList 3)) ∧
    cpl_lookup_object_ext cpl_h (some "o".toList) (some "n".toList) (some "t".toList) 2
        (some ()) () attached₂ =
      some (cpl_h.CPL_E_NOT_FOUND,
        attached₂.after_call attached₂.db
          (cpl_db_call.lookup_object_ext "o".toList "n".toList "t".toList 2)) :=
  ⟨rfl, rfl, rfl, by decide, by decide,
    (lookup_object_ext_result cpl_h (mem_backend cpl_h) attached₂ "o".toList "n".toList
      "t".toList 3 () () rfl rfl).1 rfl (by decide),
    (lookup_object_ext_result cpl_h (mem_backend cpl_h) attached₂ "o".toList "n".toList
      "t".toList 2 () () rfl rfl).2.2.1 rfl (by decide)⟩

/-- C16: `cpl_get_object_relations`, attached, with an id other than
`CPL_NONE`, a callback, and the direction `CPL_D_ANCESTORS` or
`CPL_D_DESCENDANTS`, where `CPL_OK` and `CPL_S_NO_DATA` are different codes.
All the facade does is one call of the backend's `get_object_relations`, to
which it hands the callback and the context; it returns `CPL_OK` when the
backend answers `CPL_S_NO_DATA` or `CPL_OK`, the backend's code unchanged
otherwise, and never `CPL_S_NO_DATA`. -/
theorem get_object_relations_result (K : cpl_codes) (b : cpl_db_backend_t β ι κ)
    (w : cpl_world β ι κ) (id : cpl_id_t) (direction flags : Int) (it : ι) (ctx : κ)
    (h : w.cpl_initialized = true) (hb : w.cpl_db_backend = some b)
    (hid : id ≠ CPL_NONE)
    (hd : direction = K.CPL_D_ANCESTORS ∨ direction = K.CPL_D_DESCENDANTS)
    (hne : K.CPL_OK ≠ K.CPL_S_NO_DATA) :
    (∃ r, cpl_get_object_relations K id direction flags (some it) ctx w =
      some (r, w.after_call (b.cpl_db_get_object_relations w.db id direction flags it ctx).2
        (cpl_db_call.get_object_relations id direction flags)) ∧ r ≠ K.CPL_S_NO_DATA) ∧
    (((b.cpl_db_get_object_relations w.db id direction flags it ctx).1 = K.CPL_S_NO_DATA ∨
        (b.cpl_db_get_object_relations w.db id direction flags it ctx).1 = K.CPL_OK) →
      cpl_get_object_relations K id direction flags (some it) ctx w =
        some (K.CPL_OK,
          w.after_call (b.cpl_db_get_object_relations w.db id direction flags it ctx).2
            (cpl_db_call.get_object_relations id direction flags))) ∧
    ((b.cpl_db_get_object_relations w.db id direction flags it ctx).1 ≠ K.CPL_S_NO_DATA →
      cpl_get_object_relations K id direction flags (some it) ctx w =
        some ((b.cpl_db_get_object_relations w.db id direction flags it ctx).1,
          w.after_call (b.cpl_db_get_object_relations w.db id direction flags it ctx).2
            (cpl_db_call.get_object_relations id direction flags))) := by
  have hdir : ¬ (direction ≠ K.CPL_D_ANCESTORS ∧ direction ≠ K.CPL_D_DESCENDANTS) := by
    rintro ⟨h1, h2⟩
    rcases hd with e | e
    · exact h1 e
    · exact h2 e
  have key : cpl_get_object_relations K id direction flags (some it) ctx w =
      some (if (b.cpl_db_get_object_relations w.db id direction flags it ctx).1 = K.CPL_S_NO_DATA
          then K.CPL_OK else (b.cpl_db_get_object_relations w.db id direction flags it ctx).1,
        w.after_call (b.cpl_db_get_object_relations w.db id direction flags it ctx).2
          (cpl_db_call.get_object_relations id direction flags)) := by
    simp only [cpl_get_object_relations, h, hb, cpl_world.after_call, if_neg hid, if_neg hdir]
    by_cases hr : (b.cpl_db_get_object_relations w.db id direction flags it ctx).1 =
        K.CPL_S_NO_DATA <;> simp [hr]
  rw [key]
  refine ⟨⟨_, rfl, ?_⟩, ?_, ?_⟩
  · by_cases hr : (b.cpl_db_get_object_relations w.db id direction flags it ctx).1 =
        K.CPL_S_NO_DATA
    · simp [hr, hne]
    · simp [hr]
  · rintro (hr | hr)
    · simp [hr]
    · by_cases hr' : (b.cpl_db_get_object_relations w.db id direction flags it ctx).1 =
          K.CPL_S_NO_DATA
      · simp [hr']
      · simp [hr', hr]
  · intro hr
    simp [hr]

/-- C16 at a concrete input: the object `5` has no edge in the storing
backend, which answers `CPL_S_NO_DATA` without invoking the callback; the
facade returns `CPL_OK` and the count of callback invocations is still `0`. -/
theorem get_object_relations_result_witness :
    attached₂.cpl_initialized = true ∧ attached₂.cpl_db_backend = some (mem_backend cpl_h) ∧
    (5 : cpl_id_t) ≠ CPL_NONE ∧
    ((0 : Int) = cpl_h.CPL_D_ANCESTORS ∨ (0 : Int) = cpl_h.CPL_D_DESCENDANTS) ∧
    cpl_h.CPL_OK ≠ cpl_h.CPL_S_NO_DATA ∧
    ((mem_backend cpl_h).cpl_db_get_object_relations attached₂.db 5 0 0 () ()).1 =
      cpl_h.CPL_S_NO_DATA ∧
    ((mem_backend cpl_h).cpl_db_get_object_relations attached₂.db 5 0 0 () ()).2.callbacks
      = 0 ∧
    cpl_get_object_relations cpl_h 5 0 0 (some ()) () attached₂ =
      some (cpl_h.CPL_OK,
        attached₂.after_call
          ((mem_backend cpl_h).cpl_db_get_object_relations attached₂.db 5 0 0 () ()).2
          (cpl_db_call.get_object_relations 5 0 0)) :=
  ⟨rfl, rfl, by decide, Or.inl rfl, by decide, rfl, rfl,
    (get_object_relations_result cpl_h (mem_backend cpl_h) attached₂ 5 0 0 () () rfl rfl
      (by decide) (Or.inl rfl) (by decide)).2.1 (Or.inl rfl)⟩

/-- C17: every facade operation, attached and given one of the invalid
arguments the specification lists, returns `CPL_E_INVALID_ARGUMENT`, and the
world after the call is the world before it: no backend operation is called. -/
theorem invalid_argument_rejected (K : cpl_codes) (op : cpl_data_op ι κ) (w : cpl_world β ι κ)
    (h : w.cpl_initialized = true) (hinv : cpl_invalid_argument K op = true) :
    cpl_data_call K op w = some (K.CPL_E_INVALID_ARGUMENT, w) := by
  cases op with
  | create_object o n t c out =>
    cases o <;> cases n <;> cases t <;>
      simp_all [cpl_invalid_argument, cpl_data_call, forget_out, cpl_create_object]
  | lookup_object o n t out =>
    cases o <;> cases n <;> cases t <;>
      simp_all [cpl_invalid_argument, cpl_data_call, forget_out, cpl_lookup_object]
  | lookup_object_ext o n t f it ctx =>
    cases o <;> cases n <;> cases t <;> cases it <;>
      simp_all [cpl_invalid_argument, cpl_data_call, cpl_lookup_object_ext]
  | lookup_or_create_object o n t c out => simp [cpl_invalid_argument] at hinv
  | add_object_property id k v =>
    by_cases hid : id = CPL_NONE <;> cases k <;> cases v <;>
      simp_all [cpl_invalid_argument, cpl_data_call, cpl_add_object_property]
  | add_relation_property id k v =>
    by_cases hid : id = CPL_NONE <;> cases k <;> cases v <;>
      simp_all [cpl_invalid_argument, cpl_data_call, cpl_add_relation_property]
  | add_relation a b t c out =>
    by_cases ha : a = CPL_NONE <;> by_cases hb : b = CPL_NONE <;>
      by_cases hc : c = CPL_NONE <;>
      simp_all [cpl_invalid_argument, cpl_data_call, forget_out, cpl_add_relation]
  | get_current_session out => simp [cpl_invalid_argument] at hinv
  | get_session_info id out =>
    simp_all [cpl_invalid_argument, cpl_data_call, forget_out, cpl_get_session_info]
  | get_all_objects f it ctx =>
    cases it <;> simp_all [cpl_invalid_argument, cpl_data_call, cpl_get_all_objects]
  | get_object_info id out =>
    simp_all [cpl_invalid_argument, cpl_data_call, forget_out, cpl_get_object_info]
  | get_object_relations id d f it ctx =>
    by_cases hid : id = CPL_NONE <;> cases it <;>
      simp_all [cpl_invalid_argument, cpl_data_call, cpl_get_object_relations]
  | get_object_properties id k it ctx =>
    by_cases hid : id = CPL_NONE <;> cases it <;>
      simp_all [cpl_invalid_argument, cpl_data_call, cpl_get_object_properties]
  | get_relation_properties id k it ctx =>
    by_cases hid : id = CPL_NONE <;> cases it <;>
      simp_all [cpl_invalid_argument, cpl_data_call, cpl_get_relation_properties]
  | lookup_object_by_property k v it ctx =>
    cases k <;> cases v <;> cases it <;>
      simp_all [cpl_invalid_argument, cpl_data_call, cpl_lookup_object_by_property]
  | delete_bundle id =>
    simp_all [cpl_invalid_argument, cpl_data_call, cpl_delete_bundle]
  | get_bundle_objects id it ctx =>
    by_cases hid : id = CPL_NONE <;> cases it <;>
      simp_all [cpl_invalid_argument, cpl_data_call, cpl_get_bundle_objects]
  | get_bundle_relations id it ctx =>
    by_cases hid : id = CPL_NONE <;> cases it <;>
      simp_all [cpl_invalid_argument, cpl_data_call, cpl_get_bundle_relations]

/-- C17 at concrete inputs: a direction that is neither of the two valid ones
in `cpl_get_object_relations`, and a `CPL_NONE` container in
`cpl_add_relation`. -/
theorem invalid_argument_rejected_witness :
    attached₀.cpl_initialized = true ∧
    cpl_invalid_argument cpl_h
      (cpl_data_op.get_object_relations 5 7 0 (some ()) () : cpl_data_op Unit Unit) = true ∧
    cpl_invalid_argument cpl_h
      (cpl_data_op.add_relation 1 2 0 CPL_NONE (some 0) : cpl_data_op Unit Unit) = true ∧
    cpl_data_call cpl_h (cpl_data_op.get_object_relations 5 7 0 (some ()) ()) attached₀ =
      some (cpl_h.CPL_E_INVALID_ARGUMENT, attached₀) ∧
    cpl_data_call cpl_h (cpl_data_op.add_relation 1 2 0 CPL_NONE (some 0)) attached₀ =
      some (cpl_h.CPL_E_INVALID_ARGUMENT, attached₀) :=
  ⟨rfl, by decide, by decide,
    invalid_argument_rejected cpl_h (cpl_data_op.get_object_relations 5 7 0 (some ()) ())
      attached₀ rfl (by decide),
    invalid_argument_rejected cpl_h (cpl_data_op.add_relation 1 2 0 CPL_NONE (some 0))
      attached₀ rfl (by decide)⟩

/-! ## Failure codes of the backend -/

/-- C18, as stated, fails: in `cpl_lookup_or_create_object` the backend's
`lookup_object` answers the failure code `CPL_E_NOT_FOUND` and the facade does
not return it: it goes on to call `create_object` and returns
`CPL_S_OBJECT_CREATED`. -/
theorem lookup_or_create_not_found_not_returned :
    attached₂.cpl_initialized = true ∧
    ((mem_backend cpl_h).cpl_db_lookup_object attached₂.db "o".toList "n".toList
      "t".toList).1 = cpl_h.CPL_E_NOT_FOUND ∧
    cpl_h.CPL_E_NOT_FOUND < 0 ∧
    (cpl_lookup_or_create_object cpl_h (some "o".toList) (some "n".toList) (some "t".toList)
        CPL_NONE (some 0) attached₂).map (fun r => (r.1, r.2.2.trace.drop 3)) =
      some (cpl_h.CPL_S_OBJECT_CREATED,
        [cpl_event.semaphore_wait,
          cpl_event.db (cpl_db_call.lookup_object "o".toList "n".toList "t".toList),
          cpl_event.db (cpl_db_call.create_object "o".toList "n".toList "t".toList CPL_NONE
            CPL_NONE),
          cpl_event.semaphore_post]) ∧
    cpl_h.CPL_S_OBJECT_CREATED ≠ cpl_h.CPL_E_NOT_FOUND := by
  refine ⟨rfl, rfl, by decide, rfl, by decide⟩

/-- C18, amended. On an attached library, where `CPL_S_NO_DATA` is a success
code and `CPL_E_NOT_FOUND` a failure code, each of the sixteen operations that
delegate to one backend operation, called with valid arguments, calls that
backend operation once and returns its failure code unchanged; the one
exception is `CPL_E_NOT_FOUND` in `cpl_lookup_object_ext` when
`CPL_L_NO_FAIL` is set, which becomes `CPL_S_NO_DATA`. (The operations without
a fixed success code return the backend's code whatever it is.)
`cpl_lookup_or_create_object` returns the failure code of the backend's
`lookup_object` unchanged unless it is `CPL_E_NOT_FOUND`; on
`CPL_E_NOT_FOUND` it calls the backend's `create_object` once and returns the
failure code of that call unchanged; neither backend operation is called
twice. -/
theorem backend_failure_passes_through (K : cpl_codes) (b : cpl_db_backend_t β ι κ)
    (w : cpl_world β ι κ)
    (h : w.cpl_initialized = true) (hb : w.cpl_db_backend = some b)
    (hnd : 0 ≤ K.CPL_S_NO_DATA) (hnf : K.CPL_E_NOT_FOUND < 0) :
    (∀ o n t c out, (b.cpl_db_create_object w.db o n t c w.cpl_session).1 < 0 →
      cpl_create_object K (some o) (some n) (some t) c out w =
        some ((b.cpl_db_create_object w.db o n t c w.cpl_session).1, out,
          w.after_call (b.cpl_db_create_object w.db o n t c w.cpl_session).2.2
            (cpl_db_call.create_object o n t c w.cpl_session))) ∧
    (∀ o n t out, (b.cpl_db_lookup_object w.db o n t).1 < 0 →
      cpl_lookup_object K (some o) (some n) (some t) out w =
        some ((b.cpl_db_lookup_object w.db o n t).1, out,
          w.after_call (b.cpl_db_lookup_object w.db o n t).2.2
            (cpl_db_call.lookup_object o n t))) ∧
    (∀ o n t flags it ctx,
      ¬ ((b.cpl_db_lookup_object_ext w.db o n t flags it ctx).1 = K.CPL_E_NOT_FOUND ∧
        Int.land flags K.CPL_L_NO_FAIL = K.CPL_L_NO_FAIL) →
      cpl_lookup_object_ext K (some o) (some n) (some t) flags (some it) ctx w =
        some ((b.cpl_db_lookup_object_ext w.db o n t flags it ctx).1,
          w.after_call (b.cpl_db_lookup_object_ext w.db o n t flags it ctx).2
            (cpl_db_call.lookup_object_ext o n t flags))) ∧
    (∀ o n t flags it ctx,
      (b.cpl_db_lookup_object_ext w.db o n t flags it ctx).1 = K.CPL_E_NOT_FOUND →
      Int.land flags K.CPL_L_NO_FAIL = K.CPL_L_NO_FAIL →
      cpl_lookup_object_ext K (some o) (some n) (some t) flags (some it) ctx w =
        some (K.CPL_S_NO_DATA,
          w.after_call (b.cpl_db_lookup_object_ext w.db o n t flags it ctx).2
            (cpl_db_call.lookup_object_ext o n t flags))) ∧
    (∀ id k v, id ≠ CPL_NONE →
      cpl_add_object_property K id (some k) (some v) w =
        some ((b.cpl_db_add_object_property w.db id k v).1,
          w.after_call (b.cpl_db_add_object_property w.db id k v).2
            (cpl_db_call.add_object_property id k v))) ∧
    (∀ id k v, id ≠ CPL_NONE →
      cpl_add_relation_property K id (some k) (some v) w =
        some ((b.cpl_db_add_relation_property w.db id k v).1,
          w.after_call (b.cpl_db_add_relation_property w.db id k v).2
            (cpl_db_call.add_relation_property id k v))) ∧
    (∀ from_id to_id type c out, from_id ≠ CPL_NONE → to_id ≠ CPL_NONE → c ≠ CPL_NONE →
      (b.cpl_db_add_relation w.db from_id to_id type c).1 < 0 →
      cpl_add_relation K from_id to_id type c out w =
        some ((b.cpl_db_add_relation w.db from_id to_id type c).1, out,
          w.after_call (b.cpl_db_add_relation w.db from_id to_id type c).2.2
            (cpl_db_call.add_relation from_id to_id type c))) ∧
    (∀ id cell, id ≠ CPL_NONE →
      cpl_get_session_info K id (some cell) w =
        some ((b.cpl_db_get_session_info w.db id).1,
          some (store_info cell (b.cpl_db_get_session_info w.db id).2.1),
          w.after_call (b.cpl_db_get_session_info w.db id).2.2
            (cpl_db_call.get_session_info id))) ∧
    (∀ flags it ctx,
      cpl_get_all_objects K flags (some it) ctx w =
        some ((b.cpl_db_get_all_objects w.db flags it ctx).1,
          w.after_call (b.cpl_db_get_all_objects w.db flags it ctx).2
            (cpl_db_call.get_all_objects flags))) ∧
    (∀ id cell, id ≠ CPL_NONE →
      cpl_get_object_info K id (some cell) w =
        some ((b.cpl_db_get_object_info w.db id).1,
          some (store_info cell (b.cpl_db_get_object_info w.db id).2.1),
          w.after_call (b.cpl_db_get_object_info w.db id).2.2
            (cpl_db_call.get_object_info id))) ∧
    (∀ id d flags it ctx, id ≠ CPL_NONE →
      (d = K.CPL_D_ANCESTORS ∨ d = K.CPL_D_DESCENDANTS) →
      (b.cpl_db_get_object_relations w.db id d flags it ctx).1 < 0 →
      cpl_get_object_relations K id d flags (some it) ctx w =
        some ((b.cpl_db_get_object_relations w.db id d flags it ctx).1,
          w.after_call (b.cpl_db_get_object_relations w.db id d flags it ctx).2
            (cpl_db_call.get_object_relations id d flags))) ∧
    (∀ id key it ctx, id ≠ CPL_NONE →
      cpl_get_object_properties K id key (some it) ctx w =
        some ((b.cpl_db_get_object_properties w.db id key it ctx).1,
          w.after_call (b.cpl_db_get_object_properties w.db id key it ctx).2
            (cpl_db_call.get_object_properties id key))) ∧
    (∀ id key it ctx, id ≠ CPL_NONE →
      cpl_get_relation_properties K id key (some it) ctx w =
        some ((b.cpl_db_get_relation_properties w.db id key it ctx).1,
          w.after_call (b.cpl_db_get_relation_properties w.db id key it ctx).2
            (cpl_db_call.get_relation_properties id key))) ∧
    (∀ k v it ctx,
      cpl_lookup_object_by_property K (some k) (some v) (some it) ctx w =
        some ((b.cpl_db_lookup_object_by_property w.db k v it ctx).1,
          w.after_call (b.cpl_db_lookup_object_by_property w.db k v it ctx).2
            (cpl_db_call.lookup_object_by_property k v))) ∧
    (∀ id, id ≠ CPL_NONE →
      cpl_delete_bundle K id w =
        some ((b.cpl_db_delete_bundle w.db id).1,
          w.after_call (b.cpl_db_delete_bundle w.db id).2 (cpl_db_call.delete_bundle id))) ∧
    (∀ id it ctx, id ≠ CPL_NONE →
      cpl_get_bundle_objects K id (some it) ctx w =
        some ((b.cpl_db_get_bundle_objects w.db id it ctx).1,
          w.after_call (b.cpl_db_get_bundle_objects w.db id it ctx).2
            (cpl_db_call.get_bundle_objects id))) ∧
    (∀ id it ctx, id ≠ CPL_NONE →
      cpl_get_bundle_relations K id (some it) ctx w =
        some ((b.cpl_db_get_bundle_relations w.db id it ctx).1,
          w.after_call (b.cpl_db_get_bundle_relations w.db id it ctx).2
            (cpl_db_call.get_bundle_relations id))) ∧
    (∀ o n t c out, (b.cpl_db_lookup_object w.db o n t).1 < 0 →
      (b.cpl_db_lookup_object w.db o n t).1 ≠ K.CPL_E_NOT_FOUND →
      cpl_lookup_or_create_object K (some o) (some n) (some t) c out w =
        some ((b.cpl_db_lookup_object w.db o n t).1, out,
          (((w.log cpl_event.semaphore_wait).after_call (b.cpl_db_lookup_object w.db o n t).2.2
            (cpl_db_call.lookup_object o n t)).log cpl_event.semaphore_post))) ∧
    (∀ o n t c out, (b.cpl_db_lookup_object w.db o n t).1 = K.CPL_E_NOT_FOUND →
      (b.cpl_db_create_object (b.cpl_db_lookup_object w.db o n t).2.2 o n t c
        w.cpl_session).1 < 0 →
      cpl_lookup_or_create_object K (some o) (some n) (some t) c out w =
        some ((b.cpl_db_create_object (b.cpl_db_lookup_object w.db o n t).2.2 o n t c
            w.cpl_session).1, out,
          ((((w.log cpl_event.semaphore_wait).after_call
            (b.cpl_db_lookup_object w.db o n t).2.2 (cpl_db_call.lookup_object o n t)).after_call
              (b.cpl_db_create_object (b.cpl_db_lookup_object w.db o n t).2.2 o n t c
                w.cpl_session).2.2
              (cpl_db_call.create_object o n t c w.cpl_session)).log
            cpl_event.semaphore_post))) := by
  refine ⟨?_, ?_, ?_, ?_, ?_, ?_, ?_, ?_, ?_, ?_, ?_, ?_, ?_, ?_, ?_, ?_, ?_, ?_, ?_⟩
  · intro o n t c out hf
    rw [create_object_attached K b w o n t c out h hb]
    simp [CPL_IS_OK_of_neg _ hf]
  · intro o n t out hf
    rw [lookup_object_attached K b w o n t out h hb]
    simp [CPL_IS_OK_of_neg _ hf]
  · intro o n t flags it ctx hA
    simp only [cpl_lookup_object_ext, h, hb, cpl_world.after_call]
    simp [if_neg hA]
  · intro o n t flags it ctx h1 h2
    simp [cpl_lookup_object_ext, h, hb, h1, h2, cpl_world.after_call]
  · intro id k v hid
    simp [cpl_add_object_property, h, hb, hid, cpl_world.after_call]
  · intro id k v hid
    simp [cpl_add_relation_property, h, hb, hid, cpl_world.after_call]
  · intro a c t d out ha hc hd hf
    simp [cpl_add_relation, h, hb, ha, hc, hd, CPL_IS_OK_of_neg _ hf, cpl_world.after_call]
  · intro id cell hid
    simp [cpl_get_session_info, h, hb, hid, cpl_world.after_call]
  · intro flags it ctx
    simp [cpl_get_all_objects, h, hb, cpl_world.after_call]
  · intro id cell hid
    simp [cpl_get_object_info, h, hb, hid, cpl_world.after_call]
  · intro id d flags it ctx hid hd hf
    have hdir : ¬ (d ≠ K.CPL_D_ANCESTORS ∧ d ≠ K.CPL_D_DESCENDANTS) := by
      rintro ⟨h1, h2⟩
      rcases hd with e | e
      · exact h1 e
      · exact h2 e
    have hne : (b.cpl_db_get_object_relations w.db id d flags it ctx).1 ≠ K.CPL_S_NO_DATA := by
      intro e
      rw [e] at hf
      exact absurd hf (not_lt.mpr hnd)
    simp only [cpl_get_object_relations, h, hb, cpl_world.after_call, if_neg hid, if_neg hdir]
    simp [hne]
  · intro id key it ctx hid
    simp [cpl_get_object_properties, h, hb, hid, cpl_world.after_call]
  · intro id key it ctx hid
    simp [cpl_get_relation_properties, h, hb, hid, cpl_world.after_call]
  · intro k v it ctx
    simp [cpl_lookup_object_by_property, h, hb, cpl_world.after_call]
  · intro id hid
    simp [cpl_delete_bundle, h, hb, hid, cpl_world.after_call]
  · intro id it ctx hid
    simp [cpl_get_bundle_objects, h, hb, hid, cpl_world.after_call]
  · intro id it ctx hid
    simp [cpl_get_bundle_relations, h, hb, hid, cpl_world.after_call]
  · intro o n t c out hf hne
    exact lookup_or_create_lookup_failed K b w o n t c out h hb hf hne
  · intro o n t c out hL hC
    rw [lookup_or_create_not_found K b w o n t c out h hb hnf hL]
    simp [CPL_IS_OK_of_neg _ hC]

/-- The amended C18 at concrete inputs, with a backend of which every data
function answers the failure code `-3`: `cpl_add_relation` returns `-3` after
one call and leaves the output cell, and `cpl_lookup_or_create_object` returns
`-3` after the lookup alone. -/
theorem backend_failure_passes_through_witness :
    attached₃.cpl_initialized = true ∧
    attached₃.cpl_db_backend = some (failing_backend (-3)) ∧
    0 ≤ cpl_h.CPL_S_NO_DATA ∧ cpl_h.CPL_E_NOT_FOUND < 0 ∧
    (1 : cpl_id_t) ≠ CPL_NONE ∧ (2 : cpl_id_t) ≠ CPL_NONE ∧ (3 : cpl_id_t) ≠ CPL_NONE ∧
    ((failing_backend (-3)).cpl_db_add_relation attached₃.db 1 2 0 3).1 < 0 ∧
    ((failing_backend (-3)).cpl_db_lookup_object attached₃.db "o".toList "n".toList
      "t".toList).1 < 0 ∧
    ((failing_backend (-3)).cpl_db_lookup_object attached₃.db "o".toList "n".toList
      "t".toList).1 ≠ cpl_h.CPL_E_NOT_FOUND ∧
    cpl_add_relation cpl_h 1 2 0 3 (some 0) attached₃ =
      some (-3, some 0, attached₃.after_call 2 (cpl_db_call.add_relation 1 2 0 3)) ∧
    cpl_lookup_or_create_object cpl_h (some "o".toList) (some "n".toList) (some "t".toList)
        CPL_NONE (some 0) attached₃ =
      some (-3, some 0,
        (((attached₃.log cpl_event.semaphore_wait).after_call 2
          (cpl_db_call.lookup_object "o".toList "n".toList "t".toList)).log
          cpl_event.semaphore_post)) :=
  ⟨rfl, rfl, by decide, by decide, by decide, by decide, by decide, by decide, by decide,
    by decide,
    (backend_failure_passes_through cpl_h (failing_backend (-3)) attached₃ rfl rfl (by decide)
      (by decide)).2.2.2.2.2.2.1 1 2 0 3 (some 0) (by decide) (by decide) (by decide)
      (by decide),
    (backend_failure_passes_through cpl_h (failing_backend (-3)) attached₃ rfl rfl (by decide)
      (by decide)).2.2.2.2.2.2.2.2.2.2.2.2.2.2.2.2.2.1 "o".toList "n".toList "t".toList
      CPL_NONE (some 0) (by decide) (by decide)⟩

end lifecycle

/-! ## Error strings -/

theorem CPL_S_STR_length (M : cpl_str_macros) : (CPL_S_STR M).length = 4 := rfl

theorem CPL_E_STR_length (M : cpl_str_macros) : (CPL_E_STR M).length = 18 := rfl

/-- C19: for every code `c` with `0 ≤ c ≤ 3` or `-17 ≤ c ≤ -1`,
`cpl_error_string` returns a description `d`: for a success code the index
`c` is below the length `4` of `CPL_S_STR` and `d` is entry `c` of that table,
for an error code the index `-c` is below the length `18` of `CPL_E_STR` and
`d` is entry `-c` of that table; and `d` is not empty when the description
macros of the header are not. -/
theorem error_string_known (M : cpl_str_macros) (c : cpl_return_t)
    (hc : (0 ≤ c ∧ c ≤ 3) ∨ (-17 ≤ c ∧ c ≤ -1))
    (hS : ∀ k, k ≤ 3 → M.S k ≠ []) (hE : ∀ k, 1 ≤ k → k ≤ 17 → M.E k ≠ []) :
    ∃ d, cpl_error_string M c = some d ∧ d ≠ [] ∧
      (0 ≤ c → c.toNat < (CPL_S_STR M).length ∧ (CPL_S_STR M)[c.toNat]? = some d ∧
        d = M.S c.toNat) ∧
      (c < 0 → (-c).toNat < (CPL_E_STR M).length ∧ (CPL_E_STR M)[(-c).toNat]? = some d ∧
        d = M.E (-c).toNat) := by
  rcases hc with ⟨h0, h3⟩ | ⟨h17, h1⟩
  · obtain ⟨k, rfl⟩ : ∃ k : Nat, c = (k : Int) := ⟨c.toNat, (Int.toNat_of_nonneg h0).symm⟩
    have hk : k ≤ 3 := by exact_mod_cast h3
    refine ⟨M.S k, ?_, hS k hk, ?_, ?_⟩
    · interval_cases k <;>
        simp [cpl_error_string, CPL_IS_OK, CPL_S_LAST_SUCCESS, CPL_S_STR]
    · intro _
      interval_cases k <;> simp [CPL_S_STR]
    · intro hneg
      exact absurd hneg (not_lt.mpr h0)
  · obtain ⟨k, rfl⟩ : ∃ k : Nat, c = -(k : Int) :=
      ⟨(-c).toNat, by rw [Int.toNat_of_nonneg (by linarith)]; ring⟩
    have hk1 : 1 ≤ k := by
      have : (1 : Int) ≤ (k : Int) := by linarith
      exact_mod_cast this
    have hk17 : k ≤ 17 := by
      have : (k : Int) ≤ 17 := by linarith
      exact_mod_cast this
    refine ⟨M.E k, ?_, hE k hk1 hk17, ?_, ?_⟩
    · interval_cases k <;>
        simp [cpl_error_string, CPL_IS_OK, CPL_E_LAST_ERROR, CPL_E_STR]
    · intro hpos
      have : (1 : Int) ≤ (k : Int) := by exact_mod_cast hk1
      exact absurd hpos (by linarith)
    · intro _
      interval_cases k <;> simp [CPL_E_STR]

/-- C19 at concrete inputs: the codes `3` and `-17`, the last of each range. -/
theorem error_string_known_witness :
    (((0 : Int) ≤ 3 ∧ (3 : Int) ≤ 3) ∨ ((-17 : Int) ≤ 3 ∧ (3 : Int) ≤ -1)) ∧
    (((0 : Int) ≤ -17 ∧ (-17 : Int) ≤ 3) ∨ ((-17 : Int) ≤ -17 ∧ (-17 : Int) ≤ -1)) ∧
    (∀ k, k ≤ 3 → example_macros.S k ≠ []) ∧
    (∀ k, 1 ≤ k → k ≤ 17 → example_macros.E k ≠ []) ∧
    (∃ d, cpl_error_string example_macros 3 = some d ∧ d ≠ [] ∧
      ((0 : Int) ≤ 3 → (3 : Int).toNat < (CPL_S_STR example_macros).length ∧
        (CPL_S_STR example_macros)[(3 : Int).toNat]? = some d ∧
        d = example_macros.S (3 : Int).toNat) ∧
      ((3 : Int) < 0 → (-(3 : Int)).toNat < (CPL_E_STR example_macros).length ∧
        (CPL_E_STR example_macros)[(-(3 : Int)).toNat]? = some d ∧
        d = example_macros.E (-(3 : Int)).toNat)) ∧
    (∃ d, cpl_error_string example_macros (-17) = some d ∧ d ≠ [] ∧
      ((0 : Int) ≤ -17 → (-17 : Int).toNat < (CPL_S_STR example_macros).length ∧
        (CPL_S_STR example_macros)[(-17 : Int).toNat]? = some d ∧
        d = example_macros.S (-17 : Int).toNat) ∧
      ((-17 : Int) < 0 → (-(-17 : Int)).toNat < (CPL_E_STR example_macros).length ∧
        (CPL_E_STR example_macros)[(-(-17 : Int)).toNat]? = some d ∧
        d = example_macros.E (-(-17 : Int)).toNat)) ∧
    cpl_error_string example_macros 3 = some "S3".toList ∧
    cpl_error_string example_macros (-17) = some "E17".toList :=
  ⟨by decide, by decide, fun k _ => by simp [example_macros],
    fun k _ _ => by simp [example_macros],
    error_string_known example_macros 3 (by decide) (fun k _ => by simp [example_macros])
      (fun k _ _ => by simp [example_macros]),
    error_string_known example_macros (-17) (by decide) (fun k _ => by simp [example_macros])
      (fun k _ _ => by simp [example_macros]),
    by decide, by decide⟩

/-- C20, as stated, fails: the two unrecognized codes `4` and `-18` do not get
the same string; the first gets `Success (unknown success code)` and the
second `Unknown error`. -/
theorem error_string_two_fallbacks :
    cpl_error_string example_macros 4 = some "Success (unknown success code)".toList ∧
    cpl_error_string example_macros (-18) = some "Unknown error".toList ∧
    cpl_error_string example_macros 4 ≠ cpl_error_string example_macros (-18) := by
  decide

/-- C20, amended: for every code `c` outside the known ranges,
`cpl_error_string` reads neither table (its result is the same for all
description macros) and returns a fixed string that depends on the sign of
`c` only: `Success (unknown success code)` for every code greater than `3`
and `Unknown error` for every code less than `-17`. -/
theorem error_string_unknown (M : cpl_str_macros) (c : cpl_return_t)
    (hc : 3 < c ∨ c < -17) :
    cpl_error_string M c =
      some (if 0 ≤ c then "Success (unknown success code)".toList
        else "Unknown error".toList) ∧
    ∀ M₁ : cpl_str_macros, cpl_error_string M₁ c = cpl_error_string M c := by
  have key : ∀ N : cpl_str_macros, cpl_error_string N c =
      some (if 0 ≤ c then "Success (unknown success code)".toList
        else "Unknown error".toList) := by
    intro N
    rcases hc with hc | hc
    · have h0 : 0 ≤ c := by linarith
      have h3 : ¬ c ≤ 3 := not_le.mpr hc
      simp [cpl_error_string, CPL_IS_OK, CPL_S_LAST_SUCCESS, h0, h3]
    · have h0 : ¬ 0 ≤ c := by
        intro h
        linarith
      have h17 : ¬ -17 ≤ c := not_le.mpr hc
      simp [cpl_error_string, CPL_IS_OK, CPL_E_LAST_ERROR, h0, h17]
  exact ⟨key M, fun M₁ => by rw [key M₁, key M]⟩

/-- The amended C20 at concrete inputs: the codes `4` and `-18`. -/
theorem error_string_unknown_witness :
    ((3 : Int) < 4 ∨ (4 : Int) < -17) ∧ ((3 : Int) < -18 ∨ (-18 : Int) < -17) ∧
    cpl_error_string example_macros 4 = some "Success (unknown success code)".toList ∧
    cpl_error_string example_macros (-18) = some "Unknown error".toList :=
  ⟨by decide, by decide,
    (error_string_unknown example_macros 4 (by decide)).1,
    (error_string_unknown example_macros (-18) (by decide)).1⟩

/-! ## The loop by index -/

/-- On a buffer of `l + 1` written characters the loop by index reads inside
the buffer, makes one iteration for every index from `i` to `l`, and leaves the
locals the fold over the remaining characters leaves. -/
theorem cmdline_for_eq (cmdbuf : List Char) (l : Nat) (hlen : cmdbuf.length = l + 1) :
    ∀ (k i : Nat) (st : cmdline_vars) (steps : Nat), l + 1 - i = k → i ≤ l + 1 →
      cmdline_for cmdbuf l i st steps =
        some ((cmdbuf.drop i).foldl cmdline_step st, steps + k) := by
  intro k
  induction k with
  | zero =>
    intro i st steps hk hi
    have hil : ¬ i ≤ l := by omega
    have hdrop : cmdbuf.drop i = [] := List.drop_of_length_le (by omega)
    rw [cmdline_for, if_neg hil, hdrop]
    rfl
  | succ k ih =>
    intro i st steps hk hi
    have hil : i ≤ l := by omega
    have hlt : i < cmdbuf.length := by omega
    rw [cmdline_for, if_pos hil, List.getElem?_eq_getElem hlt]
    simp only
    rw [ih (i + 1) (cmdline_step st cmdbuf[i]) (steps + 1) (by omega) (by omega),
      List.drop_eq_getElem_cons hlt, List.foldl_cons]
    congr 2
    omega

/-- The loop by index computes what the fold `cmdline_loop` computes, in as
many iterations as bytes were read plus one. -/
theorem cmdline_run_eq (file : List Char) :
    cmdline_run file = some (cmdline_loop file, (file.take 4096).length + 1) := by
  unfold cmdline_run
  rw [cmdline_for_eq (file.take 4096 ++ ['\x00']) (file.take 4096).length (by simp)
    ((file.take 4096).length + 1) 0 cmdline_init 0 (by omega) (by omega)]
  simp [cmdline_loop]

/-- After the loop the pending token is empty: the last iteration is the one on
the terminator. -/
theorem cmdline_loop_token (file : List Char) : (cmdline_loop file).token = [] := by
  unfold cmdline_loop
  simp only [List.foldl_append, List.foldl_cons, List.foldl_nil]
  rw [flush_token]

/-- C22: for every byte sequence `file` of length at most 4096 the loop of
lines 279-306 reads only written bytes of the buffer, ends after
`file.length + 1` iterations with the locals the function `cmdline_loop`
gives, and the pending token is then empty, so the assertion of line 307
holds; the command line handed on is a function of `file`. -/
theorem cmdline_loop_total (file : List Char) (h : file.length ≤ 4096) :
    cmdline_run file = some (cmdline_loop file, file.length + 1) ∧
    (cmdline_loop file).token = [] ∧
    (cmdline_run file).map (fun r => r.1.cmdline) = some (cmdline_reconstruct file) := by
  have e := cmdline_run_eq file
  rw [List.take_of_length_le h] at e
  exact ⟨e, cmdline_loop_token file, by rw [e]; rfl⟩

/-- C22 at concrete inputs: the empty sequence, and a sequence with two
consecutive NUL bytes that does not end in NUL. -/
theorem cmdline_loop_total_witness :
    ([] : List Char).length ≤ 4096 ∧ "a\x00\x00b".toList.length ≤ 4096 ∧
    (cmdline_run [] = some (cmdline_loop [], ([] : List Char).length + 1) ∧
      (cmdline_loop []).token = [] ∧
      (cmdline_run []).map (fun r => r.1.cmdline) = some (cmdline_reconstruct [])) ∧
    (cmdline_run "a\x00\x00b".toList =
        some (cmdline_loop "a\x00\x00b".toList, "a\x00\x00b".toList.length + 1) ∧
      (cmdline_loop "a\x00\x00b".toList).token = [] ∧
      (cmdline_run "a\x00\x00b".toList).map (fun r => r.1.cmdline) =
        some (cmdline_reconstruct "a\x00\x00b".toList)) ∧
    cmdline_reconstruct [] = [] ∧
    cmdline_reconstruct "a\x00\x00b".toList = "a  b".toList :=
  ⟨by decide, by decide, cmdline_loop_total [] (by decide),
    cmdline_loop_total "a\x00\x00b".toList (by decide), by decide, by decide⟩

/-! ## The invariant of the lifecycle -/

section invariant

variable {β ι κ : Type}

/-- `cpl_create_object` changes neither the attached flag nor the backend slot. -/
theorem create_object_keeps_lifecycle (K : cpl_codes) (o n t : Option c_string)
    (c : cpl_id_t) (out : Option cpl_id_t) (w : cpl_world β ι κ)
    (r : cpl_return_t × Option cpl_id_t × cpl_world β ι κ)
    (hr : cpl_create_object K o n t c out w = some r) :
    r.2.2.cpl_initialized = w.cpl_initialized ∧ r.2.2.cpl_db_backend = w.cpl_db_backend := by
  simp only [cpl_create_object, cpl_world.log] at hr
  repeat' split at hr
  all_goals (try simp only [Option.some.injEq] at hr)
  all_goals (first | (subst hr; exact ⟨rfl, rfl⟩) | simp_all)

/-- `cpl_lookup_object` changes neither the attached flag nor the backend slot. -/
theorem lookup_object_keeps_lifecycle (K : cpl_codes) (o n t : Option c_string)
    (out : Option cpl_id_t) (w : cpl_world β ι κ)
    (r : cpl_return_t × Option cpl_id_t × cpl_world β ι κ)
    (hr : cpl_lookup_object K o n t out w = some r) :
    r.2.2.cpl_initialized = w.cpl_initialized ∧ r.2.2.cpl_db_backend = w.cpl_db_backend := by
  simp only [cpl_lookup_object, cpl_world.log] at hr
  repeat' split at hr
  all_goals (try simp only [Option.some.injEq] at hr)
  all_goals (first | (subst hr; exact ⟨rfl, rfl⟩) | simp_all)

/-- `cpl_lookup_or_create_object` changes neither the attached flag nor the
backend slot. -/
theorem lookup_or_create_keeps_lifecycle (K : cpl_codes) (o n t : Option c_string)
    (c : cpl_id_t) (out : Option cpl_id_t) (w : cpl_world β ι κ)
    (r : cpl_return_t × Option cpl_id_t × cpl_world β ι κ)
    (hr : cpl_lookup_or_create_object K o n t c out w = some r) :
    r.2.2.cpl_initialized = w.cpl_initialized ∧ r.2.2.cpl_db_backend = w.cpl_db_backend := by
  unfold cpl_lookup_or_create_object at hr
  split at hr
  · simp only [Option.some.injEq] at hr
    subst hr
    exact ⟨rfl, rfl⟩
  · cases hL : cpl_lookup_object K o n t out (w.log cpl_event.semaphore_wait) with
    | none => simp [hL] at hr
    | some x =>
      obtain ⟨r₁, out₁, w₂⟩ := x
      have k1 := lookup_object_keeps_lifecycle K o n t out _ _ hL
      simp only [hL] at hr
      split at hr
      · simp only [Option.some.injEq] at hr
        subst hr
        exact k1
      · cases hC : cpl_create_object K o n t c out₁ w₂ with
        | none => simp [hC] at hr
        | some y =>
          obtain ⟨r₂, out₂, w₃⟩ := y
          have k2 := create_object_keeps_lifecycle K o n t c out₁ w₂ _ hC
          simp only [hC, Option.some.injEq] at hr
          subst hr
          exact ⟨k2.1.trans k1.1, k2.2.trans k1.2⟩

/-- A data operation changes neither the attached flag nor the backend slot. -/
theorem data_call_keeps_lifecycle (K : cpl_codes) (op : cpl_data_op ι κ) (w : cpl_world β ι κ)
    (r : cpl_return_t × cpl_world β ι κ) (hr : cpl_data_call K op w = some r) :
    r.2.cpl_initialized = w.cpl_initialized ∧ r.2.cpl_db_backend = w.cpl_db_backend := by
  cases op with
  | lookup_or_create_object o n t c out =>
    simp only [cpl_data_call, forget_out] at hr
    cases hx : cpl_lookup_or_create_object K o n t c out w with
    | none => simp [hx] at hr
    | some x =>
      have k := lookup_or_create_keeps_lifecycle K o n t c out w x hx
      simp only [hx, Option.map_some', Option.some.injEq] at hr
      subst hr
      exact k
  | create_object o n t c out =>
    simp only [cpl_data_call, forget_out] at hr
    cases hx : cpl_create_object K o n t c out w with
    | none => simp [hx] at hr
    | some x =>
      have k := create_object_keeps_lifecycle K o n t c out w x hx
      simp only [hx, Option.map_some', Option.some.injEq] at hr
      subst hr
      exact k
  | lookup_object o n t out =>
    simp only [cpl_data_call, forget_out] at hr
    cases hx : cpl_lookup_object K o n t out w with
    | none => simp [hx] at hr
    | some x =>
      have k := lookup_object_keeps_lifecycle K o n t out w x hx
      simp only [hx, Option.map_some', Option.some.injEq] at hr
      subst hr
      exact k
  | _ =>
    simp only [cpl_data_call, forget_out, cpl_lookup_object_ext, cpl_add_object_property,
      cpl_add_relation_property, cpl_add_relation, cpl_get_current_session,
      cpl_get_session_info, cpl_get_all_objects, cpl_get_object_info,
      cpl_get_object_relations, cpl_get_object_properties, cpl_get_relation_properties,
      cpl_lookup_object_by_property, cpl_delete_bundle, cpl_get_bundle_objects,
      cpl_get_bundle_relations, cpl_world.log] at hr
    repeat' split at hr
    all_goals (try simp only [Option.map_some', Option.map_none', Option.some.injEq] at hr)
    all_goals (first | (subst hr; exact ⟨rfl, rfl⟩) | simp_all)

/-- On an attached library whose slot holds a backend, every data operation
has a result: none dereferences a `NULL` backend pointer. -/
theorem data_call_some (K : cpl_codes) (op : cpl_data_op ι κ) (w : cpl_world β ι κ)
    (b : cpl_db_backend_t β ι κ)
    (hi : w.cpl_initialized = true) (hb : w.cpl_db_backend = some b) :
    (cpl_data_call K op w).isSome = true := by
  cases op with
  | lookup_or_create_object o n t c out =>
    obtain ⟨r, _, hr, _⟩ := lookup_or_create_trace K b w o n t c out hi hb
    simp [cpl_data_call, forget_out, hr]
  | create_object o n t c out =>
    cases o <;> cases n <;> cases t <;>
      simp [cpl_data_call, forget_out, cpl_create_object, hi, hb]
    split <;> simp
  | lookup_object o n t out =>
    cases o <;> cases n <;> cases t <;>
      simp [cpl_data_call, forget_out, cpl_lookup_object, hi, hb]
    split <;> simp
  | _ =>
    simp only [cpl_data_call, forget_out, cpl_lookup_object_ext, cpl_add_object_property,
      cpl_add_relation_property, cpl_add_relation, cpl_get_current_session,
      cpl_get_session_info, cpl_get_all_objects, cpl_get_object_info,
      cpl_get_object_relations, cpl_get_object_properties, cpl_get_relation_properties,
      cpl_lookup_object_by_property, cpl_delete_bundle, cpl_get_bundle_objects,
      cpl_get_bundle_relations, hi, hb]
    repeat' split
    all_goals simp

/-- `cpl_attach` keeps the invariant: after it, the attached flag is false or
the slot holds a backend. -/
theorem attach_keeps_invariant (K : cpl_codes) (P : cpl_platform)
    (backend : Option (cpl_db_backend_t β ι κ)) (w : cpl_world β ι κ)
    (hinv : w.cpl_initialized = false ∨ w.cpl_db_backend.isSome = true) :
    (cpl_attach K P backend w).2.cpl_initialized = false ∨
      (cpl_attach K P backend w).2.cpl_db_backend.isSome = true := by
  obtain ⟨lk, user, pid, prog, file, alloc, mac, sem⟩ := P
  cases hi : w.cpl_initialized with
  | true =>
    have hs : w.cpl_db_backend.isSome = true := by
      rcases hinv with h | h
      · rw [hi] at h; cases h
      · exact h
    cases backend <;> simp [cpl_attach, hi, hs]
  | false =>
    cases backend <;> cases user <;> cases prog <;> cases file <;> cases sem <;> cases alloc <;>
      simp only [cpl_attach, cpl_world.log, hi] <;> (repeat' split) <;> simp_all

/-- `cpl_detach` keeps the invariant. -/
theorem detach_keeps_invariant (K : cpl_codes) (w : cpl_world β ι κ)
    (r : cpl_return_t × cpl_world β ι κ) (hr : cpl_detach K w = some r) :
    r.2.cpl_initialized = false := by
  cases hi : w.cpl_initialized with
  | false =>
    simp only [cpl_detach, hi, Bool.not_false, if_true, Option.some.injEq] at hr
    subst hr
    exact hi
  | true =>
    cases hb : w.cpl_db_backend with
    | none => simp [cpl_detach, hi, hb] at hr
    | some b =>
      simp only [cpl_detach, hi, hb, cpl_world.log, Bool.not_true, Bool.false_eq_true,
        if_false, Option.some.injEq] at hr
      subst hr
      rfl

/-- Under the invariant no call of the API dereferences a `NULL` backend
pointer. -/
theorem api_call_some (K : cpl_codes) (c : cpl_api β ι κ) (w : cpl_world β ι κ)
    (hinv : w.cpl_initialized = false ∨ w.cpl_db_backend.isSome = true) :
    (cpl_api_call K c w).isSome = true := by
  cases hi : w.cpl_initialized with
  | false =>
    cases c with
    | attach P backend => rfl
    | detach => simp [cpl_api_call, cpl_detach, hi]
    | data op => simp [cpl_api_call, data_call_guard K op w hi]
  | true =>
    have hs : w.cpl_db_backend.isSome = true := by
      rcases hinv with h | h
      · rw [hi] at h; cases h
      · exact h
    obtain ⟨b, hb⟩ := Option.isSome_iff_exists.mp hs
    cases c with
    | attach P backend => rfl
    | detach => simp [cpl_api_call, cpl_detach, hi, hb]
    | data op => exact data_call_some K op w b hi hb

/-- Every call of the API keeps the invariant. -/
theorem api_call_keeps_invariant (K : cpl_codes) (c : cpl_api β ι κ) (w : cpl_world β ι κ)
    (r : cpl_return_t × cpl_world β ι κ)
    (hinv : w.cpl_initialized = false ∨ w.cpl_db_backend.isSome = true)
    (hr : cpl_api_call K c w = some r) :
    r.2.cpl_initialized = false ∨ r.2.cpl_db_backend.isSome = true := by
  cases c with
  | attach P backend =>
    simp only [cpl_api_call, Option.some.injEq] at hr
    subst hr
    exact attach_keeps_invariant K P backend w hinv
  | detach => exact Or.inl (detach_keeps_invariant K w r hr)
  | data op =>
    have k := data_call_keeps_lifecycle K op w r hr
    rw [k.1, k.2]
    exact hinv

/-- From a world that satisfies the invariant every sequence of calls runs to
its end, in a world that satisfies the invariant. -/
theorem run_keeps_invariant (K : cpl_codes) (calls : List (cpl_api β ι κ)) :
    ∀ w : cpl_world β ι κ, (w.cpl_initialized = false ∨ w.cpl_db_backend.isSome = true) →
      ∃ w₁, cpl_run K calls w = some w₁ ∧
        (w₁.cpl_initialized = false ∨ w₁.cpl_db_backend.isSome = true) := by
  induction calls with
  | nil => exact fun w hinv => ⟨w, rfl, hinv⟩
  | cons c rest ih =>
    intro w hinv
    obtain ⟨r, hr⟩ := Option.isSome_iff_exists.mp (api_call_some K c w hinv)
    obtain ⟨w₁, h1, h2⟩ := ih r.2 (api_call_keeps_invariant K c w r hinv hr)
    exact ⟨w₁, by simp [cpl_run, hr, h1], h2⟩

/-- C23: every sequence of calls of `cpl_attach`, `cpl_detach` and the data
operations, with any backends, platform answers and arguments, made from the
state in which the library is loaded, runs to its end and reaches a world in
which the attached flag is false or the backend slot holds a backend; and in
that world every further call has a result, so none dereferences an absent
backend. -/
theorem attached_implies_backend (K : cpl_codes) (db : β) (calls : List (cpl_api β ι κ)) :
    ∃ w, cpl_run K calls (cpl_world_init db) = some w ∧
      (w.cpl_initialized = false ∨ w.cpl_db_backend.isSome = true) ∧
      ∀ c : cpl_api β ι κ, (cpl_api_call K c w).isSome = true := by
  obtain ⟨w, hw, hinv⟩ := run_keeps_invariant K calls (cpl_world_init db) (Or.inl rfl)
  exact ⟨w, hw, hinv, fun c => api_call_some K c w hinv⟩

end invariant

/-! ## The command line determines the argument vector -/

/-- Two texts that agree after a piece free of the delimiter `d` followed by
`d` have the same piece and the same rest. -/
theorem split_at_delim (d : Char) :
    ∀ (a b x y : List Char), d ∉ a → d ∉ b → a ++ d :: x = b ++ d :: y → a = b ∧ x = y := by
  intro a
  induction a with
  | nil =>
    intro b x y _ hb h
    cases b with
    | nil => simpa using h
    | cons c b =>
      simp only [List.nil_append, List.cons_append, List.cons.injEq] at h
      exact absurd (by rw [h.1]; simp) hb
  | cons c a ih =>
    intro b x y ha hb h
    cases b with
    | nil =>
      simp only [List.nil_append, List.cons_append, List.cons.injEq] at h
      exact absurd (by rw [← h.1]; simp) ha
    | cons e b =>
      simp only [List.cons_append, List.cons.injEq] at h
      obtain ⟨h1, h2⟩ := ih b x y (fun m => ha (by simp [m])) (fun m => hb (by simp [m])) h.2
      exact ⟨by rw [h.1, h1], h2⟩

theorem escape_spec_cons (c : Char) (a : List Char) :
    escape_spec (c :: a) =
      (if c = '\'' ∨ c = '\\' then ['\\', c] else [c]) ++ escape_spec a := by
  simp [escape_spec]

/-- The escaped text followed by an unescaped single quote determines the text
that was escaped. -/
theorem escape_spec_cancel :
    ∀ (a b x y : List Char),
      escape_spec a ++ '\'' :: x = escape_spec b ++ '\'' :: y → a = b ∧ x = y := by
  intro a
  induction a with
  | nil =>
    intro b x y h
    cases b with
    | nil => simpa [escape_spec] using h
    | cons e b =>
      rw [escape_spec_cons] at h
      by_cases he : e = '\'' ∨ e = '\\'
      · simp [escape_spec, he] at h
      · simp only [escape_spec, List.flatMap_nil, List.nil_append, if_neg he, List.cons_append,
          List.cons.injEq] at h
        exact absurd (Or.inl h.1.symm) he
  | cons c a ih =>
    intro b x y h
    cases b with
    | nil =>
      rw [escape_spec_cons] at h
      by_cases hc : c = '\'' ∨ c = '\\'
      · simp [escape_spec, hc] at h
      · simp only [escape_spec, List.flatMap_nil, List.nil_append, if_neg hc, List.cons_append,
          List.cons.injEq] at h
        exact absurd (Or.inl h.1) hc
    | cons e b =>
      rw [escape_spec_cons, escape_spec_cons] at h
      by_cases hc : c = '\'' ∨ c = '\\' <;> by_cases he : e = '\'' ∨ e = '\\'
      · simp only [if_pos hc, if_pos he, List.cons_append, List.nil_append,
          List.cons.injEq, true_and] at h
        obtain ⟨h1, h2⟩ := ih b x y h.2
        exact ⟨by rw [h.1, h1], h2⟩
      · simp only [if_pos hc, if_neg he, List.cons_append, List.nil_append,
          List.cons.injEq] at h
        exact absurd (Or.inr h.1.symm) he
      · simp only [if_neg hc, if_pos he, List.cons_append, List.nil_append,
          List.cons.injEq] at h
        exact absurd (Or.inr h.1) hc
      · simp only [if_neg hc, if_neg he, List.cons_append, List.nil_append,
          List.cons.injEq] at h
        obtain ⟨h1, h2⟩ := ih b x y h.2
        exact ⟨by rw [h.1, h1], h2⟩

theorem space_not_mem (a : List Char) (h : contains_white a = false) : ' ' ∉ a := by
  intro hm
  have : contains_white a = true := by
    simp only [contains_white, List.any_eq_true]
    exact ⟨' ', hm, by decide⟩
  rw [h] at this
  cases this

theorem sq_not_mem (a : List Char) (h : contains_sq a = false) : '\'' ∉ a := by
  intro hm
  have : contains_sq a = true := by
    simp only [contains_sq, List.any_eq_true]
    exact ⟨'\'', hm, by decide⟩
  rw [h] at this
  cases this

/-- The three shapes of a rendered token. -/
theorem render_token_shape (hw hs : Bool) (a : List Char) (ha : '\x00' ∉ a) :
    (hs = true ∧ render_token hw hs a = '@' :: '\'' :: (escape_spec a ++ ['\''])) ∨
    (hs = false ∧ hw = true ∧ render_token hw hs a = '\'' :: (a ++ ['\''])) ∨
    (hs = false ∧ hw = false ∧ render_token hw hs a = a) := by
  cases hs <;> cases hw <;> simp [render_token, escape_token_eq a ha]

/-- A raw token followed by a space does not start like a token in quotes. -/
theorem raw_not_quoted (b y rest : List Char) (hb : '\'' ∉ b)
    (h : b ++ ' ' :: y = '\'' :: rest) : False := by
  cases b with
  | nil => simp at h
  | cons c b =>
    simp only [List.cons_append, List.cons.injEq] at h
    exact hb (by rw [h.1]; simp)

/-- A raw token followed by a space does not start like a token with the
marker. -/
theorem raw_not_marked (b y rest : List Char) (hb : '\'' ∉ b)
    (h : b ++ ' ' :: y = '@' :: '\'' :: rest) : False := by
  cases b with
  | nil => simp at h
  | cons c b =>
    simp only [List.cons_append, List.cons.injEq] at h
    exact raw_not_quoted b y rest (fun m => hb (by simp [m])) h.2

/-- Two rendered tokens, each followed by a space, that start the same text
come from the same argument, when both are rendered from the same values of
the flags before them. -/
theorem token_cancel (hw hs : Bool) (a b x y : List Char)
    (ha : '\x00' ∉ a) (hb : '\x00' ∉ b)
    (h : render_token (hw || contains_white a) (hs || contains_sq a) a ++ ' ' :: x =
      render_token (hw || contains_white b) (hs || contains_sq b) b ++ ' ' :: y) :
    a = b := by
  rcases render_token_shape (hw || contains_white a) (hs || contains_sq a) a ha with
    ⟨sa, ea⟩ | ⟨sa, wa, ea⟩ | ⟨sa, wa, ea⟩ <;>
  rcases render_token_shape (hw || contains_white b) (hs || contains_sq b) b hb with
    ⟨sb, eb⟩ | ⟨sb, wb, eb⟩ | ⟨sb, wb, eb⟩ <;>
  rw [ea, eb] at h
  · simp only [List.cons_append, List.cons.injEq, true_and, List.append_assoc,
      List.singleton_append] at h
    exact (escape_spec_cancel a b _ _ h).1
  · simp at h
  · exact (raw_not_marked b y _ (sq_not_mem b (Bool.or_eq_false_iff.mp sb).2) h.symm).elim
  · simp at h
  · simp only [List.cons_append, List.cons.injEq, true_and, List.append_assoc,
      List.singleton_append] at h
    exact (split_at_delim '\'' a b _ _ (sq_not_mem a (Bool.or_eq_false_iff.mp sa).2)
      (sq_not_mem b (Bool.or_eq_false_iff.mp sb).2) h).1
  · exact (raw_not_quoted b y _ (sq_not_mem b (Bool.or_eq_false_iff.mp sb).2) h.symm).elim
  · exact (raw_not_marked a x _ (sq_not_mem a (Bool.or_eq_false_iff.mp sa).2) h).elim
  · exact (raw_not_quoted a x _ (sq_not_mem a (Bool.or_eq_false_iff.mp sa).2) h).elim
  · exact (split_at_delim ' ' a b x y (space_not_mem a (Bool.or_eq_false_iff.mp wa).2)
      (space_not_mem b (Bool.or_eq_false_iff.mp wb).2) h).1

/-- The rendering of the empty token. -/
theorem render_token_nil (hw hs : Bool) :
    render_token hw hs [] =
      if hs then ['@', '\'', '\''] else if hw then ['\'', '\''] else [] := by
  cases hs <;> cases hw <;> rfl

/-- The rendering of the empty token at the end of the text is not the start
of the rendering of an argument that is not empty followed by a space. -/
theorem end_not_token (hw hs : Bool) (b z : List Char) (hb : '\x00' ∉ b) (hbne : b ≠ [])
    (h : render_token hw hs [] =
      render_token (hw || contains_white b) (hs || contains_sq b) b ++ ' ' :: z) : False := by
  rw [render_token_nil] at h
  rcases render_token_shape (hw || contains_white b) (hs || contains_sq b) b hb with
    ⟨sb, eb⟩ | ⟨sb, wb, eb⟩ | ⟨sb, wb, eb⟩ <;>
  rw [eb] at h
  · cases hs with
    | true =>
      simp only [if_true, List.cons_append, List.cons.injEq, true_and, List.append_assoc,
        List.singleton_append] at h
      have e : escape_spec [] ++ '\'' :: [] = escape_spec b ++ '\'' :: ' ' :: z := by
        simpa [escape_spec] using h
      exact hbne (escape_spec_cancel [] b [] _ e).1.symm
    | false => cases hw <;> simp at h
  · have hs0 : hs = false := (Bool.or_eq_false_iff.mp sb).1
    subst hs0
    cases hw with
    | true =>
      simp only [Bool.false_eq_true, if_false, if_true, List.cons_append, List.cons.injEq,
        true_and, List.append_assoc, List.singleton_append] at h
      have e : ([] : List Char) ++ '\'' :: [] = b ++ '\'' :: ' ' :: z := by simpa using h
      exact hbne (split_at_delim '\'' [] b [] _ (by simp)
        (sq_not_mem b (Bool.or_eq_false_iff.mp sb).2) e).1.symm
    | false => simp at h
  · have hw0 : hw = false := (Bool.or_eq_false_iff.mp wb).1
    have hs0 : hs = false := (Bool.or_eq_false_iff.mp sb).1
    subst hw0 hs0
    simp at h

/-- The text after the first token starts with a space. -/
theorem tail_text_space (hw hs : Bool) (args : List (List Char)) :
    ∃ z, tail_text hw hs args = ' ' :: z := by
  cases args with
  | nil => exact ⟨_, rfl⟩
  | cons a rest => exact ⟨_, rfl⟩

/-- From the same values of the flags, two vectors of arguments that are not
empty and hold no NUL are equal when the loop appends the same text for
them. -/
theorem tail_text_injective :
    ∀ (A B : List (List Char)) (hw hs : Bool),
      (∀ a ∈ A, a ≠ [] ∧ '\x00' ∉ a) → (∀ b ∈ B, b ≠ [] ∧ '\x00' ∉ b) →
      tail_text hw hs A = tail_text hw hs B → A = B := by
  intro A
  induction A with
  | nil =>
    intro B hw hs _ hB h
    cases B with
    | nil => rfl
    | cons b rest =>
      obtain ⟨z, hz⟩ := tail_text_space (hw || contains_white b) (hs || contains_sq b) rest
      simp only [tail_text, hz, List.cons_append, List.cons.injEq, true_and] at h
      exact (end_not_token hw hs b z (hB b (by simp)).2 (hB b (by simp)).1 h).elim
  | cons a rest ih =>
    intro B hw hs hA hB h
    cases B with
    | nil =>
      obtain ⟨z, hz⟩ := tail_text_space (hw || contains_white a) (hs || contains_sq a) rest
      simp only [tail_text, hz, List.cons_append, List.cons.injEq, true_and] at h
      exact (end_not_token hw hs a z (hA a (by simp)).2 (hA a (by simp)).1 h.symm).elim
    | cons b rest₁ =>
      obtain ⟨z, hz⟩ := tail_text_space (hw || contains_white a) (hs || contains_sq a) rest
      obtain ⟨z₁, hz₁⟩ := tail_text_space (hw || contains_white b) (hs || contains_sq b) rest₁
      have h0 := h
      simp only [tail_text, hz, hz₁, List.cons_append, List.cons.injEq, true_and] at h
      have hab : a = b := token_cancel hw hs a b z z₁ (hA a (by simp)).2 (hB b (by simp)).2 h
      subst hab
      simp only [tail_text, List.cons_append, List.cons.injEq, true_and] at h0
      have hrest := List.append_cancel_left h0
      rw [ih rest₁ _ _ (fun x hx => hA x (by simp [hx])) (fun x hx => hB x (by simp [hx]))
        hrest]

/-- The rendering of an argument that is not empty is not empty. -/
theorem render_token_ne_nil (hw hs : Bool) (a : List Char) (ha : a ≠ []) :
    render_token hw hs a ≠ [] := by
  cases hs <;> cases hw <;> simp [render_token, ha]

/-- Once `_cmdline` is not empty, the loop appends to it the text `tail_text`
of the arguments and the terminator. -/
theorem flush_emit_args (args : List (List Char)) :
    ∀ st : cmdline_vars, st.token = [] → st.cmdline ≠ [] →
      append_token (emit_args st args).cmdline
          (render_token (emit_args st args).has_white (emit_args st args).has_sq []) =
        st.cmdline ++ tail_text st.has_white st.has_sq args := by
  induction args with
  | nil =>
    intro st _ hne
    simp [emit_args, tail_text, append_token, hne]
  | cons a rest ih =>
    intro st htok hne
    have hcl : append_token st.cmdline (render_token (st.has_white || contains_white a)
        (st.has_sq || contains_sq a) (st.token ++ a)) =
        st.cmdline ++ ' ' :: render_token (st.has_white || contains_white a)
          (st.has_sq || contains_sq a) a := by
      simp [append_token, hne, htok]
    rw [emit_args, ih _ rfl (by
      show append_token st.cmdline _ ≠ []
      rw [hcl]
      simp [hne])]
    show append_token st.cmdline _ ++ _ = _
    rw [hcl]
    simp [tail_text]

/-- The command line of a raw argument vector that fits in the buffer and
whose arguments are not empty: the text `tail_text` from the initial flags,
without its first space. -/
theorem cmdline_of_args (args : List (List Char))
    (h : ∀ a ∈ args, a ≠ [] ∧ '\x00' ∉ a) (hfit : (raw_argv args).length ≤ 4096) :
    cmdline_reconstruct (raw_argv args) = (tail_text false false args).tail := by
  rw [cmdline_reconstruct_raw_argv args (fun a ha => (h a ha).2) hfit]
  cases args with
  | nil => rfl
  | cons a rest =>
    have hne : render_token (contains_white a) (contains_sq a) a ≠ [] :=
      render_token_ne_nil _ _ a (h a (by simp)).1
    rw [emit_args, flush_emit_args rest _ rfl (by
      show append_token cmdline_init.cmdline _ ≠ []
      simpa [append_token, cmdline_init] using hne)]
    simp [tail_text, append_token, cmdline_init]

/-- C24: for any two argument vectors whose arguments are not empty and hold
no NUL, and whose raw encodings fit in the 4096-byte buffer, equal
reconstructed command lines come from equal vectors. -/
theorem cmdline_reconstruct_injective (A B : List (List Char))
    (hA : ∀ a ∈ A, a ≠ [] ∧ '\x00' ∉ a) (hB : ∀ b ∈ B, b ≠ [] ∧ '\x00' ∉ b)
    (hfitA : (raw_argv A).length ≤ 4096) (hfitB : (raw_argv B).length ≤ 4096)
    (h : cmdline_reconstruct (raw_argv A) = cmdline_reconstruct (raw_argv B)) : A = B := by
  rw [cmdline_of_args A hA hfitA, cmdline_of_args B hB hfitB] at h
  obtain ⟨z, hz⟩ := tail_text_space false false A
  obtain ⟨z₁, hz₁⟩ := tail_text_space false false B
  apply tail_text_injective A B false false hA hB
  rw [hz, hz₁] at h ⊢
  simpa using h

/-- C24 at a concrete input: the vector `["cp", "a b", "it's"]` against
itself. -/
theorem cmdline_reconstruct_injective_witness :
    (∀ a ∈ ["cp".toList, "a b".toList, "it's".toList], a ≠ [] ∧ '\x00' ∉ a) ∧
    (raw_argv ["cp".toList, "a b".toList, "it's".toList]).length ≤ 4096 ∧
    cmdline_reconstruct (raw_argv ["cp".toList, "a b".toList, "it's".toList]) =
      cmdline_reconstruct (raw_argv ["cp".toList, "a b".toList, "it's".toList]) ∧
    ["cp".toList, "a b".toList, "it's".toList] = ["cp".toList, "a b".toList, "it's".toList] :=
  ⟨by decide, by decide, rfl,
    cmdline_reconstruct_injective ["cp".toList, "a b".toList, "it's".toList]
      ["cp".toList, "a b".toList, "it's".toList] (by decide) (by decide) (by decide)
      (by decide) rfl⟩

/-! ## The hardware address -/

theorem hex_digit_eq : ∀ n : Fin 16, hex_digit n.val = hex_digits.getD n.val '0' := by
  decide

theorem hex02_eq_spec (b : Fin 256) : hex02 b = hex02_spec b := by
  have h1 := hex_digit_eq ⟨b.val / 16, by omega⟩
  have h2 := hex_digit_eq ⟨b.val % 16, by omega⟩
  simp only at h1 h2
  simp [hex02, hex02_spec, h1, h2]

theorem mac_string_eq_spec (mac : cpl_mac_address_t) :
    mac_string mac = mac_spec mac ∧ (mac_string mac).length = 17 := by
  simp [mac_string, mac_spec, hex02_eq_spec, hex02_spec, List.intercalate]

section address

variable {β ι κ : Type}

/-- C25: when every step of `cpl_attach` other than the address lookup
succeeds, `cpl_attach` calls the backend's `create_session` once, with the
user, the process id, the program and the reconstructed command line, and
returns `CPL_OK` with the attached flag set, whether or not the address lookup
succeeded. The address handed to `create_session` is absent when the lookup
failed, and otherwise the six bytes, each as two lower-case hexadecimal
digits, separated by colons, 17 characters in all. -/
theorem attach_hardware_address (K : cpl_codes) (P : cpl_platform)
    (b : cpl_db_backend_t β ι κ) (w : cpl_world β ι κ) (user program : c_string)
    (file : List Char) (sem : cpl_shared_semaphore_t)
    (h1 : w.cpl_initialized = false) (h2 : w.cpl_db_backend = none)
    (hlk : CPL_IS_OK P.lock_initialize_ret = true)
    (hu : P.user = some user) (hp : P.program_invocation_name = some program)
    (hf : P.proc_self_cmdline = some file) (ha : P.cmdbuf_allocated = true)
    (hsem : P.semaphore_open = some sem)
    (hcs : CPL_IS_OK (b.cpl_db_create_session w.db (P.mac_address.map mac_spec) user P.pid
      program (cmdline_reconstruct file)).1 = true) :
    (cpl_attach K P (some b) w).1 = K.CPL_OK ∧
    (cpl_attach K P (some b) w).2.cpl_initialized = true ∧
    (cpl_attach K P (some b) w).2.trace = w.trace ++
      [cpl_event.lock_init,
        cpl_event.db (cpl_db_call.create_session (P.mac_address.map mac_spec) user P.pid
          program (cmdline_reconstruct file)),
        cpl_event.semaphore_open] ∧
    (∀ m, P.mac_address = some m → (mac_spec m).length = 17) := by
  have hmac : P.mac_address.map mac_string = P.mac_address.map mac_spec := by
    cases P.mac_address with
    | none => rfl
    | some m => simp [(mac_string_eq_spec m).1]
  obtain ⟨lk, u, pid, prog, f, alloc, mac, sm⟩ := P
  simp only at hlk hu hp hf ha hsem hcs hmac
  subst hu hp hf ha hsem
  refine ⟨?_, ?_, ?_, ?_⟩
  · simp [cpl_attach, h1, h2, hlk, hmac, hcs, cpl_world.log]
  · simp [cpl_attach, h1, h2, hlk, hmac, hcs, cpl_world.log]
  · simp [cpl_attach, h1, h2, hlk, hmac, hcs, cpl_world.log]
  · intro m _
    rw [← (mac_string_eq_spec m).1]
    exact (mac_string_eq_spec m).2

/-- C25 at concrete inputs: a platform without a hardware address, on which
`create_session` receives no address, and a platform with the address
`00:1b:21:ab:cd:ef`. -/
theorem attach_hardware_address_witness :
    world₀.cpl_initialized = false ∧ world₀.cpl_db_backend = none ∧
    CPL_IS_OK good_platform.lock_initialize_ret = true ∧
    good_platform.user = some "alice".toList ∧
    good_platform.program_invocation_name = some "/usr/bin/prog".toList ∧
    good_platform.proc_self_cmdline = some (raw_argv ["prog".toList]) ∧
    good_platform.cmdbuf_allocated = true ∧ good_platform.semaphore_open = some 1 ∧
    good_platform.mac_address = none ∧
    (cpl_attach cpl_h good_platform (some (const_backend 0 7)) world₀).1 = cpl_h.CPL_OK ∧
    (cpl_attach cpl_h good_platform (some (const_backend 0 7)) world₀).2.trace =
      world₀.trace ++
        [cpl_event.lock_init,
          cpl_event.db (cpl_db_call.create_session none "alice".toList 4242
            "/usr/bin/prog".toList (cmdline_reconstruct (raw_argv ["prog".toList]))),
          cpl_event.semaphore_open] ∧
    (cpl_attach cpl_h mac_platform (some (const_backend 0 7)) world₀).1 = cpl_h.CPL_OK ∧
    (cpl_attach cpl_h mac_platform (some (const_backend 0 7)) world₀).2.trace =
      world₀.trace ++
        [cpl_event.lock_init,
          cpl_event.db (cpl_db_call.create_session (some "00:1b:21:ab:cd:ef".toList)
            "alice".toList 4242 "/usr/bin/prog".toList
            (cmdline_reconstruct (raw_argv ["prog".toList]))),
          cpl_event.semaphore_open] :=
  ⟨rfl, rfl, rfl, rfl, rfl, rfl, rfl, rfl, rfl,
    (attach_hardware_address cpl_h good_platform (const_backend 0 7) world₀ "alice".toList
      "/usr/bin/prog".toList (raw_argv ["prog".toList]) 1 rfl rfl rfl rfl rfl rfl rfl rfl
      rfl).1,
    (attach_hardware_address cpl_h good_platform (const_backend 0 7) world₀ "alice".toList
      "/usr/bin/prog".toList (raw_argv ["prog".toList]) 1 rfl rfl rfl rfl rfl rfl rfl rfl
      rfl).2.2.1,
    (attach_hardware_address cpl_h mac_platform (const_backend 0 7) world₀ "alice".toList
      "/usr/bin/prog".toList (raw_argv ["prog".toList]) 1 rfl rfl rfl rfl rfl rfl rfl rfl
      rfl).1,
    (attach_hardware_address cpl_h mac_platform (const_backend 0 7) world₀ "alice".toList
      "/usr/bin/prog".toList (raw_argv ["prog".toList]) 1 rfl rfl rfl rfl rfl rfl rfl rfl
      rfl).2.2.1⟩

end address

end CPL
